import Mathlib

/-!
# Jacdac physical layer: `source/jd_physical.c`

A shallow embedding of the single-wire bus driver.  The file-level statics
(`rxFrame`, `status`, `txFrame`, `nextAnnounce`, `txPending`, `jd_diagnostics`)
become the fields of `Phys`; every C function becomes a function on `Phys`.

* Calls into other translation units (UART, timer, queue owner, dispatch,
  debug pins, interrupt masking) are recorded, in program order, in `Phys.trace`.
* Values returned by those collaborators are supplied by an `Env`.
* `jd_panic()` does not return: a function that can reach it returns `Option Phys`,
  with `none` for the abort.
* `LOG` is `JD_NOLOG` in this file and `LINE_ERROR` is logging only; neither is modelled.
* What `jd_physical.h` declares (struct layout, `JD_*` constants) is not part of
  the sources and is a parameter, `Decls`.
-/

namespace JdPhysical

/-! ## Constants of `jd_physical.c` -/

abbrev JD_STATUS_RX_ACTIVE : Nat := 0x01
abbrev JD_STATUS_TX_ACTIVE : Nat := 0x02
abbrev JD_STATUS_TX_QUEUED : Nat := 0x04

/-- A frame in memory: its bytes, lowest address first. -/
abbrev Frame := List Nat

/-- Declarations taken from `jd_physical.h`, `jd_util.h` and the board configuration,
none of which is among the sources: the size and field offsets of `jd_frame_t` /
`jd_packet_t`, the constant added by the macro `JD_FRAME_SIZE`, the `JD_*` limits
and flag, the timing correction `JD_WR_OVERHEAD`, and the checksum `jd_crc16`. -/
structure Decls where
  sizeof_jd_frame_t : Nat
  crc_offset : Nat
  size_offset : Nat
  flags_offset : Nat
  service_size_offset : Nat
  frame_size_base : Nat
  JD_SERIAL_PAYLOAD_SIZE : Nat
  JD_SERIAL_FULL_HEADER_SIZE : Nat
  JD_FRAME_FLAG_VNEXT : Nat
  JD_WR_OVERHEAD : Int
  jd_crc16 : List Nat → Nat

/-- The timer callbacks this file hands to `tim_set_timer`. -/
inductive Callback where
  | flush_tx_queue
  | tick
  | rx_timeout
  | setup_rx_timeout
deriving DecidableEq, Repr

/-- Calls that leave this translation unit, with their arguments. -/
inductive Event where
  | jd_debug_signal_write (v : Nat)
  | jd_debug_signal_read (v : Nat)
  | target_disable_irq
  | target_enable_irq
  | jd_random_around (v : Nat)
  | tim_set_timer (delta : Int) (cb : Callback)
  | jd_tx_frame_sent (frame : Option Frame)
  | jd_tx_get_frame
  | uart_start_tx (frame : Frame) (size : Nat)
  | uart_disable
  | uart_flush_rx
  | uart_wait_high
  | uart_start_rx (size : Nat)
  | jd_rx_frame_received (frame : Frame)
deriving DecidableEq, Repr

/-- What the collaborators answer during one run of an entry point. -/
structure Env where
  jd_random_around : Nat → Int
  jd_tx_get_frame : Option Frame
  uart_start_tx : Frame → Nat → Int
  uart_wait_high : Int
  uart_flush_rx : Frame → Frame
  jd_rx_frame_received : Frame → Int

/-- Modelled from the spec: `jd_diagnostics_t` is declared in `jd_physical.h`, which is
not among the sources; the spec describes its members as monotonically increasing
counters plus a placeholder bus-state value, so the counters are unbounded naturals. -/
structure jd_diagnostics_t where
  bus_state : Nat
  bus_lo_error : Nat
  bus_timeout_error : Nat
  bus_uart_error : Nat
  packets_received : Nat
  packets_dropped : Nat
deriving DecidableEq, Repr

/-- The statics of `jd_physical.c`, the one-shot timer slot behind `tim_set_timer`,
and the log of outgoing calls. -/
structure Phys where
  rxFrame : Frame
  status : Nat
  txFrame : Option Frame
  nextAnnounce : Nat
  txPending : Nat
  jd_diagnostics : jd_diagnostics_t
  timer : Option (Int × Callback)
  trace : List Event
deriving DecidableEq, Repr

/-- Zero-initialised statics, as at program start. -/
def Phys.init (d : Decls) : Phys :=
  { rxFrame := List.replicate d.sizeof_jd_frame_t 0
    status := 0
    txFrame := none
    nextAnnounce := 0
    txPending := 0
    jd_diagnostics :=
      { bus_state := 0, bus_lo_error := 0, bus_timeout_error := 0, bus_uart_error := 0,
        packets_received := 0, packets_dropped := 0 }
    timer := none
    trace := [] }

/-! ## Memory access -/

/-- Truncation to `uint32_t`. -/
def u32 (x : Int) : Nat := (x % 4294967296).toNat

/-- Read of one `uint8_t` member at a byte offset. -/
def load8 (f : Frame) (off : Nat) : Nat := f.getD off 0 % 256

/-- Read of a little-endian `uint16_t` member at a byte offset. -/
def load16 (f : Frame) (off : Nat) : Nat := load8 f off + 256 * load8 f (off + 1)

/-- Read of `((uint32_t *)frame)[i]`. -/
def load32 (f : Frame) (i : Nat) : Nat :=
  load8 f (4 * i) + 256 * load8 f (4 * i + 1) + 65536 * load8 f (4 * i + 2)
    + 16777216 * load8 f (4 * i + 3)

/-- The stores `p[0] = 0; p[1] = 0; p[2] = 0; p[3] = 0;` through `uint32_t *p`:
the first sixteen bytes become zero, the rest of the buffer is kept. -/
def zero_words (f : Frame) : Frame := List.replicate (min 16 f.length) 0 ++ f.drop 16

def frame_size (d : Decls) (f : Frame) : Nat := load8 f d.size_offset

def frame_flags (d : Decls) (f : Frame) : Nat := load8 f d.flags_offset

def frame_crc (d : Decls) (f : Frame) : Nat := load16 f d.crc_offset

def packet_service_size (d : Decls) (f : Frame) : Nat := load8 f d.service_size_offset

/-- The macro `JD_FRAME_SIZE(frame)`: the size member plus a fixed offset. -/
def JD_FRAME_SIZE (d : Decls) (f : Frame) : Nat := frame_size d f + d.frame_size_base

/-- The local `txSize` of `jd_rx_completed`: `sizeof(*frame) - dataLeft` as `uint32_t`. -/
def rx_txSize (d : Decls) (dataLeft : Int) : Nat := u32 ((d.sizeof_jd_frame_t : Int) - dataLeft)

/-- The bytes handed to `jd_crc16((uint8_t *)frame + 2, declaredSize - 2)`. -/
def crc_input (d : Decls) (f : Frame) : List Nat :=
  (f.drop 2).take (u32 ((JD_FRAME_SIZE d f : Int) - 2))

/-! ## Outgoing calls -/

def emit (e : Event) (s : Phys) : Phys := { s with trace := s.trace ++ [e] }

/-- The call `tim_set_timer(delta, cb)`: the single timer slot is overwritten. -/
def tim_set_timer (delta : Int) (cb : Callback) (s : Phys) : Phys :=
  { emit (Event.tim_set_timer delta cb) s with timer := some (delta, cb) }

/-! ## The functions of `jd_physical.c` -/

def jd_get_diagnostics (s : Phys) : Phys :=
  { s with jd_diagnostics := { s.jd_diagnostics with bus_state := 0 } }

def jd_is_running (s : Phys) : Int := if s.nextAnnounce ≠ 0 then 1 else 0

def jd_is_busy (s : Phys) : Int := if s.status ≠ 0 then 1 else 0

def set_tick_timer (d : Decls) (env : Env) (statusClear : Nat) (s : Phys) : Phys :=
  let s := emit Event.target_disable_irq s
  let s := if statusClear ≠ 0 then { s with status := s.status &&& (255 ^^^ statusClear) } else s
  let s :=
    if s.status &&& JD_STATUS_RX_ACTIVE = 0 then
      if s.txPending ≠ 0 ∧ s.status &&& JD_STATUS_TX_ACTIVE = 0 then
        let s := { s with status := s.status ||| JD_STATUS_TX_QUEUED }
        let s := emit (Event.jd_random_around 150) s
        tim_set_timer (env.jd_random_around 150 - d.JD_WR_OVERHEAD) Callback.flush_tx_queue s
      else
        let s := { s with status := s.status &&& (255 ^^^ JD_STATUS_TX_QUEUED) }
        tim_set_timer 10000 Callback.tick s
    else s
  emit Event.target_enable_irq s

def tx_done (d : Decls) (env : Env) (s : Phys) : Phys :=
  let s := emit (Event.jd_debug_signal_write 0) s
  set_tick_timer d env JD_STATUS_TX_ACTIVE s

def jd_tx_completed (d : Decls) (env : Env) (_errCode : Int) (s : Phys) : Phys :=
  let s := emit (Event.jd_tx_frame_sent s.txFrame) s
  let s := { s with txFrame := none }
  tx_done d env s

def tick (d : Decls) (env : Env) (s : Phys) : Option Phys :=
  if s.status &&& JD_STATUS_TX_ACTIVE ≠ 0 then none
  else some (set_tick_timer d env 0 s)

def flush_tx_queue (d : Decls) (env : Env) (s : Phys) : Phys :=
  let s := emit Event.target_disable_irq s
  if s.status &&& (JD_STATUS_RX_ACTIVE ||| JD_STATUS_TX_ACTIVE) ≠ 0 then
    emit Event.target_enable_irq s
  else
    let s := { s with status := s.status ||| JD_STATUS_TX_ACTIVE }
    let s := emit Event.target_enable_irq s
    let s := { s with txPending := 0 }
    let s :=
      match s.txFrame with
      | some _ => s
      | none => { emit Event.jd_tx_get_frame s with txFrame := env.jd_tx_get_frame }
    match s.txFrame with
    | none => tx_done d env s
    | some f =>
      let s := emit (Event.jd_debug_signal_write 1) s
      let s := emit (Event.uart_start_tx f (JD_FRAME_SIZE d f)) s
      if env.uart_start_tx f (JD_FRAME_SIZE d f) < 0 then
        let s := { s with jd_diagnostics :=
          { s.jd_diagnostics with bus_lo_error := s.jd_diagnostics.bus_lo_error + 1 } }
        let s := tx_done d env s
        { s with txPending := 1 }
      else
        set_tick_timer d env 0 s

def rx_timeout (d : Decls) (env : Env) (s : Phys) : Phys :=
  let s := emit Event.target_disable_irq s
  let s := { s with jd_diagnostics :=
    { s.jd_diagnostics with bus_timeout_error := s.jd_diagnostics.bus_timeout_error + 1 } }
  let s := emit Event.uart_disable s
  let s := emit (Event.jd_debug_signal_read 0) s
  let s := set_tick_timer d env JD_STATUS_RX_ACTIVE s
  emit Event.target_enable_irq s

def setup_rx_timeout (d : Decls) (env : Env) (s : Phys) : Phys :=
  if s.status &&& JD_STATUS_RX_ACTIVE ≠ 0 then
    let s := emit Event.uart_flush_rx s
    let s := { s with rxFrame := env.uart_flush_rx s.rxFrame }
    if load32 s.rxFrame 0 = 0 ∧ load32 s.rxFrame 1 = 0 then
      rx_timeout d env s
    else
      tim_set_timer ((JD_FRAME_SIZE d s.rxFrame : Int) * 12 + 60) Callback.rx_timeout s
  else
    set_tick_timer d env 0 s

def jd_line_falling (d : Decls) (env : Env) (s : Phys) : Option Phys :=
  let s := emit (Event.jd_debug_signal_read 1) s
  if s.status &&& JD_STATUS_RX_ACTIVE ≠ 0 then none
  else
    let s := { s with status := s.status ||| JD_STATUS_RX_ACTIVE }
    let s := { s with rxFrame := zero_words s.rxFrame }
    let s := emit Event.uart_wait_high s
    if env.uart_wait_high < 0 then
      some (rx_timeout d env s)
    else
      let s := emit (Event.uart_start_rx d.sizeof_jd_frame_t) s
      if s.status &&& JD_STATUS_RX_ACTIVE ≠ 0 then
        some (tim_set_timer 250 Callback.setup_rx_timeout s)
      else some s

/-- The statement `jd_diagnostics.bus_uart_error++`. -/
def bump_uart_error (s : Phys) : Phys :=
  { s with jd_diagnostics :=
    { s.jd_diagnostics with bus_uart_error := s.jd_diagnostics.bus_uart_error + 1 } }

/-- The statement `jd_diagnostics.packets_dropped++`. -/
def bump_packets_dropped (s : Phys) : Phys :=
  { s with jd_diagnostics :=
    { s.jd_diagnostics with packets_dropped := s.jd_diagnostics.packets_dropped + 1 } }

/-- The statement `jd_diagnostics.packets_received++`. -/
def bump_packets_received (s : Phys) : Phys :=
  { s with jd_diagnostics :=
    { s.jd_diagnostics with packets_received := s.jd_diagnostics.packets_received + 1 } }

def jd_rx_completed (d : Decls) (env : Env) (dataLeft : Int) (s : Phys) : Phys :=
  let s := emit (Event.jd_debug_signal_read 0) s
  let s := set_tick_timer d env JD_STATUS_RX_ACTIVE s
  let frame := s.rxFrame
  if frame_size d frame = 0 then s
  else if dataLeft < 0 then bump_uart_error s
  else
    let txSize := rx_txSize d dataLeft
    let declaredSize := JD_FRAME_SIZE d frame
    if txSize < declaredSize then bump_uart_error s
    else
      let crc := d.jd_crc16 (crc_input d frame)
      if crc ≠ frame_crc d frame then bump_uart_error s
      else if declaredSize > d.JD_SERIAL_PAYLOAD_SIZE + d.JD_SERIAL_FULL_HEADER_SIZE
          ∨ packet_service_size d frame > d.JD_SERIAL_PAYLOAD_SIZE then bump_uart_error s
      else if frame_flags d frame &&& d.JD_FRAME_FLAG_VNEXT ≠ 0 then bump_packets_dropped s
      else
        let s := bump_packets_received s
        let s := emit (Event.jd_rx_frame_received frame) s
        if env.jd_rx_frame_received frame ≠ 0 then bump_packets_dropped s
        else s

def jd_packet_ready (d : Decls) (env : Env) (s : Phys) : Phys :=
  let s := emit Event.target_disable_irq s
  let s := { s with txPending := 1 }
  let s := if s.status = 0 then set_tick_timer d env 0 s else s
  emit Event.target_enable_irq s

def _jd_phys_start (d : Decls) (env : Env) (s : Phys) : Phys :=
  set_tick_timer d env 0 s

/-! ## Runs of the driver -/

/-- The entry points and timer callbacks of the driver, and the UART hardware
storing received bytes into the buffer it was given by `uart_start_rx`. -/
inductive Op where
  | _jd_phys_start
  | jd_packet_ready
  | jd_line_falling
  | jd_rx_completed (dataLeft : Int)
  | jd_tx_completed (errCode : Int)
  | tick
  | flush_tx_queue
  | setup_rx_timeout
  | rx_timeout
  | uart_dma (bytes : Frame)
deriving DecidableEq, Repr

/-- One entry point run to completion; `none` when it ends in `jd_panic()`. -/
def step (d : Decls) (op : Op) (env : Env) (s : Phys) : Option Phys :=
  match op with
  | Op._jd_phys_start => some (_jd_phys_start d env s)
  | Op.jd_packet_ready => some (jd_packet_ready d env s)
  | Op.jd_line_falling => jd_line_falling d env s
  | Op.jd_rx_completed dataLeft => some (jd_rx_completed d env dataLeft s)
  | Op.jd_tx_completed errCode => some (jd_tx_completed d env errCode s)
  | Op.tick => tick d env s
  | Op.flush_tx_queue => some (flush_tx_queue d env s)
  | Op.setup_rx_timeout => some (setup_rx_timeout d env s)
  | Op.rx_timeout => some (rx_timeout d env s)
  | Op.uart_dma bytes => some { s with rxFrame := bytes }

/-- A finite sequence of entry points, each with the answers of its collaborators. -/
def run (d : Decls) : List (Op × Env) → Phys → Option Phys
  | [], s => some s
  | (op, env) :: rest, s => (step d op env s).bind (run d rest)

/-- The calls made between a state and a later one. -/
def calls_since (s t : Phys) : List Event := t.trace.drop s.trace.length

/-- The argument of a call of `jd_rx_frame_received`. -/
def Event.rx_frame : Event → Option Frame
  | Event.jd_rx_frame_received f => some f
  | _ => none

/-- The frames handed to `jd_rx_frame_received` among some calls, in order. -/
def forwarded_frames (evs : List Event) : List Frame := evs.filterMap Event.rx_frame

/-- Whether a call is `uart_start_tx`. -/
def Event.is_uart_start_tx : Event → Bool
  | Event.uart_start_tx _ _ => true
  | _ => false

/-- Whether a call is `jd_tx_frame_sent`. -/
def Event.is_jd_tx_frame_sent : Event → Bool
  | Event.jd_tx_frame_sent _ => true
  | _ => false

/-- The log of `t` is the log of `s` followed by calls that all satisfy `P`. -/
def calls_satisfy (P : Event → Bool) (s t : Phys) : Prop :=
  ∃ evs, t.trace = s.trace ++ evs ∧ ∀ e ∈ evs, P e = true

/-- The predicate of C17: a claimed transmit frame is being transmitted or pending. -/
def frame_not_stranded (s : Phys) : Prop :=
  s.txFrame ≠ none → (s.status &&& JD_STATUS_TX_ACTIVE ≠ 0 ∨ s.txPending = 1)

/-- The predicate of C18: `JD_STATUS_TX_QUEUED` goes with a pending request and no
transmission in progress. -/
def tx_queued_consistent (s : Phys) : Prop :=
  s.status &&& JD_STATUS_TX_QUEUED ≠ 0 →
    (s.txPending = 1 ∧ s.status &&& JD_STATUS_TX_ACTIVE = 0)

/-- The calls the retime step `set_tick_timer` can make. -/
def Event.is_retime : Event → Bool
  | Event.target_disable_irq => true
  | Event.target_enable_irq => true
  | Event.jd_random_around _ => true
  | Event.tim_set_timer _ _ => true
  | _ => false

/-! ## The driver with its mask calls, status updates and checksum call observed

The functions above are repeated here on a state that carries, next to `Phys`, the list
of the steps of interest in program order: every `target_disable_irq()` and
`target_enable_irq()`, every read-modify-write of `status`, and the call of `jd_crc16`
with its offset into the receive buffer and its length argument. An update of `status`
and its entry in the list are one operation (`Logged.status_rmw`), and so are a mask
call and its entry. Forgetting the list gives back the functions above
(`step_logged_phys`). -/

/-- A step that is observed: a mask call, a read-modify-write of `status`
(`status |= ...`, `status &= ...`), or the call `jd_crc16((uint8_t *)frame + offset, size)`. -/
inductive Access where
  | irq_off
  | irq_on
  | status_rmw
  | jd_crc16 (offset size : Nat)
deriving DecidableEq, Repr

/-- The driver state together with the steps observed so far. -/
structure Logged where
  phys : Phys
  log : List Access
deriving DecidableEq, Repr

/-- A statement that does none of the observed steps. -/
def Logged.on_phys (g : Phys → Phys) (l : Logged) : Logged := { l with phys := g l.phys }

/-- The call `target_disable_irq()`. -/
def Logged.target_disable_irq (l : Logged) : Logged :=
  { phys := emit Event.target_disable_irq l.phys, log := l.log ++ [Access.irq_off] }

/-- The call `target_enable_irq()`. -/
def Logged.target_enable_irq (l : Logged) : Logged :=
  { phys := emit Event.target_enable_irq l.phys, log := l.log ++ [Access.irq_on] }

/-- The statement `status = f(status)`, as in `status |= m` and `status &= ~m`. -/
def Logged.status_rmw (f : Nat → Nat) (l : Logged) : Logged :=
  { phys := { l.phys with status := f l.phys.status }, log := l.log ++ [Access.status_rmw] }

/-- The call `jd_crc16((uint8_t *)frame + offset, size)`; its result is `Decls.jd_crc16`
of the bytes read. -/
def Logged.call_jd_crc16 (offset size : Nat) (l : Logged) : Logged :=
  { l with log := l.log ++ [Access.jd_crc16 offset size] }

def set_tick_timer_logged (d : Decls) (env : Env) (statusClear : Nat) (l : Logged) : Logged :=
  let l := l.target_disable_irq
  let l := if statusClear ≠ 0 then l.status_rmw (fun st => st &&& (255 ^^^ statusClear)) else l
  let l :=
    if l.phys.status &&& JD_STATUS_RX_ACTIVE = 0 then
      if l.phys.txPending ≠ 0 ∧ l.phys.status &&& JD_STATUS_TX_ACTIVE = 0 then
        let l := l.status_rmw (fun st => st ||| JD_STATUS_TX_QUEUED)
        let l := l.on_phys (emit (Event.jd_random_around 150))
        l.on_phys
          (tim_set_timer (env.jd_random_around 150 - d.JD_WR_OVERHEAD) Callback.flush_tx_queue)
      else
        let l := l.status_rmw (fun st => st &&& (255 ^^^ JD_STATUS_TX_QUEUED))
        l.on_phys (tim_set_timer 10000 Callback.tick)
    else l
  l.target_enable_irq

def tx_done_logged (d : Decls) (env : Env) (l : Logged) : Logged :=
  let l := l.on_phys (emit (Event.jd_debug_signal_write 0))
  set_tick_timer_logged d env JD_STATUS_TX_ACTIVE l

def jd_tx_completed_logged (d : Decls) (env : Env) (_errCode : Int) (l : Logged) : Logged :=
  let l := l.on_phys (emit (Event.jd_tx_frame_sent l.phys.txFrame))
  let l := l.on_phys (fun s => { s with txFrame := none })
  tx_done_logged d env l

def tick_logged (d : Decls) (env : Env) (l : Logged) : Option Logged :=
  if l.phys.status &&& JD_STATUS_TX_ACTIVE ≠ 0 then none
  else some (set_tick_timer_logged d env 0 l)

def flush_tx_queue_logged (d : Decls) (env : Env) (l : Logged) : Logged :=
  let l := l.target_disable_irq
  if l.phys.status &&& (JD_STATUS_RX_ACTIVE ||| JD_STATUS_TX_ACTIVE) ≠ 0 then
    l.target_enable_irq
  else
    let l := l.status_rmw (fun st => st ||| JD_STATUS_TX_ACTIVE)
    let l := l.target_enable_irq
    let l := l.on_phys (fun s => { s with txPending := 0 })
    let l :=
      match l.phys.txFrame with
      | some _ => l
      | none =>
        l.on_phys (fun s => { emit Event.jd_tx_get_frame s with txFrame := env.jd_tx_get_frame })
    match l.phys.txFrame with
    | none => tx_done_logged d env l
    | some f =>
      let l := l.on_phys (emit (Event.jd_debug_signal_write 1))
      let l := l.on_phys (emit (Event.uart_start_tx f (JD_FRAME_SIZE d f)))
      if env.uart_start_tx f (JD_FRAME_SIZE d f) < 0 then
        let l := l.on_phys (fun s => { s with jd_diagnostics :=
          { s.jd_diagnostics with bus_lo_error := s.jd_diagnostics.bus_lo_error + 1 } })
        let l := tx_done_logged d env l
        l.on_phys (fun s => { s with txPending := 1 })
      else
        set_tick_timer_logged d env 0 l

def rx_timeout_logged (d : Decls) (env : Env) (l : Logged) : Logged :=
  let l := l.target_disable_irq
  let l := l.on_phys (fun s => { s with jd_diagnostics :=
    { s.jd_diagnostics with bus_timeout_error := s.jd_diagnostics.bus_timeout_error + 1 } })
  let l := l.on_phys (emit Event.uart_disable)
  let l := l.on_phys (emit (Event.jd_debug_signal_read 0))
  let l := set_tick_timer_logged d env JD_STATUS_RX_ACTIVE l
  l.target_enable_irq

def setup_rx_timeout_logged (d : Decls) (env : Env) (l : Logged) : Logged :=
  if l.phys.status &&& JD_STATUS_RX_ACTIVE ≠ 0 then
    let l := l.on_phys (emit Event.uart_flush_rx)
    let l := l.on_phys (fun s => { s with rxFrame := env.uart_flush_rx s.rxFrame })
    if load32 l.phys.rxFrame 0 = 0 ∧ load32 l.phys.rxFrame 1 = 0 then
      rx_timeout_logged d env l
    else
      l.on_phys
        (tim_set_timer ((JD_FRAME_SIZE d l.phys.rxFrame : Int) * 12 + 60) Callback.rx_timeout)
  else
    set_tick_timer_logged d env 0 l

def jd_line_falling_logged (d : Decls) (env : Env) (l : Logged) : Option Logged :=
  let l := l.on_phys (emit (Event.jd_debug_signal_read 1))
  if l.phys.status &&& JD_STATUS_RX_ACTIVE ≠ 0 then none
  else
    let l := l.status_rmw (fun st => st ||| JD_STATUS_RX_ACTIVE)
    let l := l.on_phys (fun s => { s with rxFrame := zero_words s.rxFrame })
    let l := l.on_phys (emit Event.uart_wait_high)
    if env.uart_wait_high < 0 then
      some (rx_timeout_logged d env l)
    else
      let l := l.on_phys (emit (Event.uart_start_rx d.sizeof_jd_frame_t))
      if l.phys.status &&& JD_STATUS_RX_ACTIVE ≠ 0 then
        some (l.on_phys (tim_set_timer 250 Callback.setup_rx_timeout))
      else some l

def jd_rx_completed_logged (d : Decls) (env : Env) (dataLeft : Int) (l : Logged) : Logged :=
  let l := l.on_phys (emit (Event.jd_debug_signal_read 0))
  let l := set_tick_timer_logged d env JD_STATUS_RX_ACTIVE l
  let frame := l.phys.rxFrame
  if frame_size d frame = 0 then l
  else if dataLeft < 0 then l.on_phys bump_uart_error
  else
    let txSize := rx_txSize d dataLeft
    let declaredSize := JD_FRAME_SIZE d frame
    if txSize < declaredSize then l.on_phys bump_uart_error
    else
      let l := l.call_jd_crc16 2 (u32 ((declaredSize : Int) - 2))
      let crc := d.jd_crc16 (crc_input d frame)
      if crc ≠ frame_crc d frame then l.on_phys bump_uart_error
      else if declaredSize > d.JD_SERIAL_PAYLOAD_SIZE + d.JD_SERIAL_FULL_HEADER_SIZE
          ∨ packet_service_size d frame > d.JD_SERIAL_PAYLOAD_SIZE then l.on_phys bump_uart_error
      else if frame_flags d frame &&& d.JD_FRAME_FLAG_VNEXT ≠ 0 then
        l.on_phys bump_packets_dropped
      else
        let l := l.on_phys bump_packets_received
        let l := l.on_phys (emit (Event.jd_rx_frame_received frame))
        if env.jd_rx_frame_received frame ≠ 0 then l.on_phys bump_packets_dropped
        else l

def jd_packet_ready_logged (d : Decls) (env : Env) (l : Logged) : Logged :=
  let l := l.target_disable_irq
  let l := l.on_phys (fun s => { s with txPending := 1 })
  let l := if l.phys.status = 0 then set_tick_timer_logged d env 0 l else l
  l.target_enable_irq

def _jd_phys_start_logged (d : Decls) (env : Env) (l : Logged) : Logged :=
  set_tick_timer_logged d env 0 l

/-- One entry point run to completion, observed; `none` when it ends in `jd_panic()`. -/
def step_logged (d : Decls) (op : Op) (env : Env) (l : Logged) : Option Logged :=
  match op with
  | Op._jd_phys_start => some (_jd_phys_start_logged d env l)
  | Op.jd_packet_ready => some (jd_packet_ready_logged d env l)
  | Op.jd_line_falling => jd_line_falling_logged d env l
  | Op.jd_rx_completed dataLeft => some (jd_rx_completed_logged d env dataLeft l)
  | Op.jd_tx_completed errCode => some (jd_tx_completed_logged d env errCode l)
  | Op.tick => tick_logged d env l
  | Op.flush_tx_queue => some (flush_tx_queue_logged d env l)
  | Op.setup_rx_timeout => some (setup_rx_timeout_logged d env l)
  | Op.rx_timeout => some (rx_timeout_logged d env l)
  | Op.uart_dma bytes => some (l.on_phys (fun s => { s with rxFrame := bytes }))

/-- The steps observed between a state and a later one. -/
def log_since (l t : Logged) : List Access := t.log.drop l.log.length

/-- Whether every read-modify-write of `status` in a list of observed steps happens with
interrupts masked, starting from the given mask state. The mask does not nest:
`target_enable_irq()` unmasks whatever came before. -/
def rmw_masked : Bool → List Access → Bool
  | _, [] => true
  | _, Access.irq_off :: rest => rmw_masked true rest
  | _, Access.irq_on :: rest => rmw_masked false rest
  | masked, Access.status_rmw :: rest => masked && rmw_masked masked rest
  | masked, Access.jd_crc16 _ _ :: rest => rmw_masked masked rest

/-- The observed steps take the mask from one state to another with every
read-modify-write of `status` masked on the way. -/
def log_runs (m_in m_out : Bool) (l t : Logged) : Prop :=
  ∃ acc, t.log = l.log ++ acc ∧ ∀ rest, rmw_masked m_in (acc ++ rest) = rmw_masked m_out rest

/-- The mask calls among some outgoing calls. -/
def Event.irq : Event → Option Access
  | Event.target_disable_irq => some Access.irq_off
  | Event.target_enable_irq => some Access.irq_on
  | _ => none

/-- The mask calls of a log, in order. -/
def irq_calls (evs : List Event) : List Access := evs.filterMap Event.irq

/-- Whether an observed step is a mask call. -/
def Access.is_irq : Access → Bool
  | Access.irq_off => true
  | Access.irq_on => true
  | _ => false

/-- Between two observed states, the mask calls in the list of observed steps are the
mask calls in the trace of outgoing calls, in the same order. -/
def irq_agree (l t : Logged) : Prop :=
  ∃ evs acc, t.phys.trace = l.phys.trace ++ evs ∧ t.log = l.log ++ acc ∧
    irq_calls evs = acc.filter Access.is_irq

/-! ## A concrete configuration -/

def crc16_step (crc : Nat) (data : Nat) : Nat :=
  let x := ((crc >>> 8) ^^^ data) % 256
  let x := x ^^^ (x >>> 4)
  ((crc <<< 8) ^^^ (x <<< 12) ^^^ (x <<< 5) ^^^ x) % 65536

/-- CRC-16/CCITT with initial value 0xffff, the checksum of the Jacdac wire format.
It instantiates `Decls.jd_crc16` in the concrete examples only. -/
def crc16_ccitt (bs : List Nat) : Nat := bs.foldl crc16_step 0xffff

/-- The Jacdac wire format: a 252-byte `jd_frame_t` with `crc` at offset 0, `size` at 2,
`flags` at 3 and the first packet's `service_size` at 12; `JD_FRAME_SIZE` adds 12.
Used for the concrete examples only. -/
def jacdac : Decls :=
  { sizeof_jd_frame_t := 252
    crc_offset := 0
    size_offset := 2
    flags_offset := 3
    service_size_offset := 12
    frame_size_base := 12
    JD_SERIAL_PAYLOAD_SIZE := 236
    JD_SERIAL_FULL_HEADER_SIZE := 16
    JD_FRAME_FLAG_VNEXT := 0x80
    JD_WR_OVERHEAD := 8
    jd_crc16 := crc16_ccitt }

/-- Collaborators that always succeed: the queue is empty, the line goes high, the
transmitter starts, dispatch accepts, nothing is left in the UART FIFO. -/
def quiet : Env :=
  { jd_random_around := fun v => v
    jd_tx_get_frame := none
    uart_start_tx := fun _ _ => 0
    uart_wait_high := 0
    uart_flush_rx := fun f => f
    jd_rx_frame_received := fun _ => 0 }

/-- A buffer of `sizeof(jd_frame_t)` bytes: the given bytes, then zeros. -/
def buffer (bytes : List Nat) : Frame := bytes ++ List.replicate (252 - bytes.length) 0

/-- A 16-byte frame (size member 4) whose crc member matches. -/
def good_frame : List Nat := [0xde, 0xf9, 4, 0, 1, 2, 3, 4, 5, 6, 7, 8, 0, 0, 0, 0]

/-- The bytes of `good_frame` with one payload byte altered. -/
def flipped_frame : List Nat := [0xde, 0xf9, 4, 0, 1, 2, 3, 4, 5, 6, 7, 8, 0, 1, 0, 0]

/-- A 16-byte frame with `JD_FRAME_FLAG_VNEXT` set and a matching crc member. -/
def vnext_frame : List Nat := [0x7e, 0x4c, 4, 0x80, 1, 2, 3, 4, 5, 6, 7, 8, 0, 0, 0, 0]

/-- A buffer whose size member is zero and whose crc member matches the checksum of
the ten zero bytes that follow it. -/
def zero_size_frame : List Nat := [0x39, 0xe1, 0, 0]

/-- Whether, along a run, `jd_line_falling` is only ever entered with
`JD_STATUS_TX_ACTIVE` clear (the line-edge interrupt is off while this device drives
the bus). -/
def line_edge_masked_during_tx (d : Decls) : List (Op × Env) → Phys → Bool
  | [], _ => true
  | (op, env) :: rest, s =>
    (op != Op.jd_line_falling || s.status &&& JD_STATUS_TX_ACTIVE == 0) &&
      match step d op env s with
      | none => true
      | some t => line_edge_masked_during_tx d rest t

/-- Collaborators as in `quiet`, with one frame waiting in the transmit queue. -/
def queue_has (f : Frame) : Env := { quiet with jd_tx_get_frame := some f }

/-- Collaborators as in `queue_has`, with a transmitter that refuses to start. -/
def tx_race (f : Frame) : Env := { queue_has f with uart_start_tx := fun _ _ => -1 }

/-- A frame is queued, transmitted to completion, and then a frame is received. -/
def send_then_receive : List (Op × Env) :=
  [(Op.jd_packet_ready, quiet), (Op.flush_tx_queue, queue_has good_frame),
    (Op.jd_tx_completed 0, quiet), (Op.jd_line_falling, quiet),
    (Op.uart_dma (buffer good_frame), quiet), (Op.jd_rx_completed 236, quiet)]

/-- A reception in progress (`JD_STATUS_RX_ACTIVE` set, nothing else going on) with the
given bytes stored at the start of the receive buffer. -/
def receiving (bytes : List Nat) : Phys :=
  { Phys.init jacdac with status := JD_STATUS_RX_ACTIVE, rxFrame := buffer bytes }

/-- A reception in progress while a transmission has been requested. -/
def receiving_with_pending : Phys := { receiving [] with txPending := 1 }

/-- The state right after the first `jd_packet_ready` on an idle bus. -/
def queued : Phys := jd_packet_ready jacdac quiet (Phys.init jacdac)

/-- The physical layer is started and then a frame is received. -/
def start_then_receive : List (Op × Env) :=
  [(Op._jd_phys_start, quiet), (Op.jd_line_falling, quiet),
    (Op.uart_dma (buffer good_frame), quiet), (Op.jd_rx_completed 236, quiet)]

/-- An idle driver whose receive buffer still holds an earlier, 20-byte reception. -/
def idle_with_stale_buffer : Phys :=
  { Phys.init jacdac with rxFrame := buffer (good_frame ++ [0xaa, 0xbb, 0xcc, 0xdd]) }

/-- The state after a flush whose `uart_start_tx` failed: idle, with the frame claimed and
the request pending again. -/
def retry_pending : Phys := flush_tx_queue jacdac (tx_race good_frame) queued

/-- The state after a flush that started the transmitter: `JD_STATUS_TX_ACTIVE` set. -/
def transmitting : Phys := flush_tx_queue jacdac (queue_has good_frame) queued

/-- A packet is signalled on an idle bus and then a falling edge arrives. -/
def queue_then_line_falling : List (Op × Env) :=
  [(Op.jd_packet_ready, quiet), (Op.jd_line_falling, quiet)]

/-! ## Outgoing calls and field projections -/

@[simp] theorem emit_rxFrame (e : Event) (s : Phys) : (emit e s).rxFrame = s.rxFrame := rfl

@[simp] theorem emit_status (e : Event) (s : Phys) : (emit e s).status = s.status := rfl

@[simp] theorem emit_txFrame (e : Event) (s : Phys) : (emit e s).txFrame = s.txFrame := rfl

@[simp] theorem emit_txPending (e : Event) (s : Phys) : (emit e s).txPending = s.txPending := rfl

@[simp] theorem emit_nextAnnounce (e : Event) (s : Phys) :
    (emit e s).nextAnnounce = s.nextAnnounce := rfl

@[simp] theorem emit_jd_diagnostics (e : Event) (s : Phys) :
    (emit e s).jd_diagnostics = s.jd_diagnostics := rfl

@[simp] theorem emit_timer (e : Event) (s : Phys) : (emit e s).timer = s.timer := rfl

@[simp] theorem emit_trace (e : Event) (s : Phys) : (emit e s).trace = s.trace ++ [e] := rfl

theorem calls_since_of_trace (s t : Phys) (evs : List Event) (h : t.trace = s.trace ++ evs) :
    calls_since s t = evs := by
  simp [calls_since, h]

theorem forwarded_frames_retime (evs : List Event) (h : ∀ e ∈ evs, e.is_retime = true) :
    forwarded_frames evs = [] := by
  unfold forwarded_frames
  rw [List.filterMap_eq_nil_iff]
  intro e he
  have := h e he
  cases e <;> simp_all [Event.is_retime, Event.rx_frame]

theorem forwarded_frames_append (a b : List Event) :
    forwarded_frames (a ++ b) = forwarded_frames a ++ forwarded_frames b := by
  simp [forwarded_frames]

/-! ## The retime step `set_tick_timer` -/

@[simp] theorem set_tick_timer_rxFrame (d : Decls) (env : Env) (c : Nat) (s : Phys) :
    (set_tick_timer d env c s).rxFrame = s.rxFrame := by
  unfold set_tick_timer
  simp only [emit, tim_set_timer]
  split_ifs <;> rfl

@[simp] theorem set_tick_timer_txFrame (d : Decls) (env : Env) (c : Nat) (s : Phys) :
    (set_tick_timer d env c s).txFrame = s.txFrame := by
  unfold set_tick_timer
  simp only [emit, tim_set_timer]
  split_ifs <;> rfl

@[simp] theorem set_tick_timer_txPending (d : Decls) (env : Env) (c : Nat) (s : Phys) :
    (set_tick_timer d env c s).txPending = s.txPending := by
  unfold set_tick_timer
  simp only [emit, tim_set_timer]
  split_ifs <;> rfl

@[simp] theorem set_tick_timer_nextAnnounce (d : Decls) (env : Env) (c : Nat) (s : Phys) :
    (set_tick_timer d env c s).nextAnnounce = s.nextAnnounce := by
  unfold set_tick_timer
  simp only [emit, tim_set_timer]
  split_ifs <;> rfl

@[simp] theorem set_tick_timer_jd_diagnostics (d : Decls) (env : Env) (c : Nat) (s : Phys) :
    (set_tick_timer d env c s).jd_diagnostics = s.jd_diagnostics := by
  unfold set_tick_timer
  simp only [emit, tim_set_timer]
  split_ifs <;> rfl

/-- Every call made by the retime step is an interrupt mask change, the random draw
or `tim_set_timer`. -/
theorem set_tick_timer_calls (d : Decls) (env : Env) (c : Nat) (s : Phys) :
    ∃ evs, (set_tick_timer d env c s).trace = s.trace ++ evs ∧
      ∀ e ∈ evs, e.is_retime = true := by
  unfold set_tick_timer
  simp only [emit, tim_set_timer]
  split_ifs <;> simp [Event.is_retime]

/-- The status register after the retime step, as a function of the one before. -/
theorem set_tick_timer_status (d : Decls) (env : Env) (c : Nat) (s : Phys) :
    (set_tick_timer d env c s).status =
      if (if c ≠ 0 then s.status &&& (255 ^^^ c) else s.status) &&& 1 = 0 then
        if s.txPending ≠ 0 ∧ (if c ≠ 0 then s.status &&& (255 ^^^ c) else s.status) &&& 2 = 0 then
          (if c ≠ 0 then s.status &&& (255 ^^^ c) else s.status) ||| 4
        else (if c ≠ 0 then s.status &&& (255 ^^^ c) else s.status) &&& 251
      else (if c ≠ 0 then s.status &&& (255 ^^^ c) else s.status) := by
  unfold set_tick_timer
  simp only [emit, tim_set_timer]
  split_ifs <;> rfl

/-- Clearing `JD_STATUS_RX_ACTIVE` in the retime step leaves it clear. -/
theorem set_tick_timer_clears_rx (d : Decls) (env : Env) (s : Phys) :
    (set_tick_timer d env JD_STATUS_RX_ACTIVE s).status &&& JD_STATUS_RX_ACTIVE = 0 := by
  rw [set_tick_timer_status]
  have h0 : (s.status &&& 254) &&& 1 = 0 := by rw [Nat.and_assoc]; simp
  have h1 : ((s.status &&& 254) ||| 4) &&& 1 = 0 := by
    rw [Nat.and_distrib_right, h0]; simp
  have h2 : ((s.status &&& 254) &&& 251) &&& 1 = 0 := by
    rw [Nat.and_assoc, Nat.and_assoc]; simp
  simp only [JD_STATUS_RX_ACTIVE]
  norm_num
  split_ifs <;> simp_all

/-! ## `jd_rx_completed`, path by path -/

theorem jd_rx_completed_zero (d : Decls) (env : Env) (dataLeft : Int) (s : Phys)
    (h : frame_size d s.rxFrame = 0) :
    jd_rx_completed d env dataLeft s =
      set_tick_timer d env JD_STATUS_RX_ACTIVE (emit (Event.jd_debug_signal_read 0) s) := by
  unfold jd_rx_completed
  simp only [set_tick_timer_rxFrame, emit_rxFrame]
  rw [if_pos h]

theorem jd_rx_completed_invalid (d : Decls) (env : Env) (dataLeft : Int) (s : Phys)
    (hsize : frame_size d s.rxFrame ≠ 0)
    (hbad : dataLeft < 0 ∨ rx_txSize d dataLeft < JD_FRAME_SIZE d s.rxFrame ∨
      d.jd_crc16 (crc_input d s.rxFrame) ≠ frame_crc d s.rxFrame ∨
      JD_FRAME_SIZE d s.rxFrame > d.JD_SERIAL_PAYLOAD_SIZE + d.JD_SERIAL_FULL_HEADER_SIZE ∨
      packet_service_size d s.rxFrame > d.JD_SERIAL_PAYLOAD_SIZE) :
    jd_rx_completed d env dataLeft s =
      bump_uart_error
        (set_tick_timer d env JD_STATUS_RX_ACTIVE (emit (Event.jd_debug_signal_read 0) s)) := by
  unfold jd_rx_completed
  simp only [set_tick_timer_rxFrame, emit_rxFrame]
  rw [if_neg hsize]
  split_ifs <;> first | rfl | (exfalso; tauto)

theorem jd_rx_completed_vnext (d : Decls) (env : Env) (dataLeft : Int) (s : Phys)
    (hsize : frame_size d s.rxFrame ≠ 0) (hdata : 0 ≤ dataLeft)
    (hlen : JD_FRAME_SIZE d s.rxFrame ≤ rx_txSize d dataLeft)
    (hcrc : d.jd_crc16 (crc_input d s.rxFrame) = frame_crc d s.rxFrame)
    (hmax : JD_FRAME_SIZE d s.rxFrame ≤ d.JD_SERIAL_PAYLOAD_SIZE + d.JD_SERIAL_FULL_HEADER_SIZE)
    (hsvc : packet_service_size d s.rxFrame ≤ d.JD_SERIAL_PAYLOAD_SIZE)
    (hflag : frame_flags d s.rxFrame &&& d.JD_FRAME_FLAG_VNEXT ≠ 0) :
    jd_rx_completed d env dataLeft s =
      bump_packets_dropped
        (set_tick_timer d env JD_STATUS_RX_ACTIVE (emit (Event.jd_debug_signal_read 0) s)) := by
  unfold jd_rx_completed
  simp only [set_tick_timer_rxFrame, emit_rxFrame]
  rw [if_neg hsize, if_neg (not_lt.mpr hdata), if_neg (not_lt.mpr hlen),
    if_neg (not_not.mpr hcrc), if_neg (by omega), if_pos hflag]

theorem jd_rx_completed_accepted (d : Decls) (env : Env) (dataLeft : Int) (s : Phys)
    (hsize : frame_size d s.rxFrame ≠ 0) (hdata : 0 ≤ dataLeft)
    (hlen : JD_FRAME_SIZE d s.rxFrame ≤ rx_txSize d dataLeft)
    (hcrc : d.jd_crc16 (crc_input d s.rxFrame) = frame_crc d s.rxFrame)
    (hmax : JD_FRAME_SIZE d s.rxFrame ≤ d.JD_SERIAL_PAYLOAD_SIZE + d.JD_SERIAL_FULL_HEADER_SIZE)
    (hsvc : packet_service_size d s.rxFrame ≤ d.JD_SERIAL_PAYLOAD_SIZE)
    (hflag : frame_flags d s.rxFrame &&& d.JD_FRAME_FLAG_VNEXT = 0) :
    jd_rx_completed d env dataLeft s =
      if env.jd_rx_frame_received s.rxFrame ≠ 0 then
        bump_packets_dropped (emit (Event.jd_rx_frame_received s.rxFrame)
          (bump_packets_received (set_tick_timer d env JD_STATUS_RX_ACTIVE
            (emit (Event.jd_debug_signal_read 0) s))))
      else
        emit (Event.jd_rx_frame_received s.rxFrame)
          (bump_packets_received (set_tick_timer d env JD_STATUS_RX_ACTIVE
            (emit (Event.jd_debug_signal_read 0) s))) := by
  unfold jd_rx_completed
  simp only [set_tick_timer_rxFrame, emit_rxFrame]
  rw [if_neg hsize, if_neg (not_lt.mpr hdata), if_neg (not_lt.mpr hlen),
    if_neg (not_not.mpr hcrc), if_neg (by omega), if_neg (not_not.mpr hflag)]

/-- The calls of `jd_rx_completed` up to and including the retime step forward nothing. -/
theorem retime_rx_forwards_nothing (d : Decls) (env : Env) (s : Phys) :
    ∃ evs, (set_tick_timer d env JD_STATUS_RX_ACTIVE
        (emit (Event.jd_debug_signal_read 0) s)).trace = s.trace ++ evs ∧
      forwarded_frames evs = [] := by
  obtain ⟨evs, htr, hev⟩ := set_tick_timer_calls d env JD_STATUS_RX_ACTIVE
    (emit (Event.jd_debug_signal_read 0) s)
  refine ⟨Event.jd_debug_signal_read 0 :: evs, ?_, ?_⟩
  · rw [htr]; simp
  · have := forwarded_frames_retime evs hev
    simpa [forwarded_frames, Event.rx_frame] using this


/-! ## Reception: what is forwarded and what is counted -/

/-- C1, as the code has it: `jd_rx_completed` hands the receive buffer to
`jd_rx_frame_received` if and only if the size member is non-zero, there is no hardware
error (`dataLeft >= 0`), the declared size `JD_FRAME_SIZE(frame)` is at most the received
byte count `txSize` (`sizeof(rxFrame) - dataLeft` as `uint32_t`), `jd_crc16` over the bytes
from offset 2 up to the declared size equals the crc member, the declared size and
`service_size` are within their bounds, and `JD_FRAME_FLAG_VNEXT` is clear. -/
theorem jd_rx_completed_forwards_iff (d : Decls) (env : Env) (dataLeft : Int) (s : Phys) :
    forwarded_frames (calls_since s (jd_rx_completed d env dataLeft s)) ≠ [] ↔
      (frame_size d s.rxFrame ≠ 0 ∧ 0 ≤ dataLeft ∧
        JD_FRAME_SIZE d s.rxFrame ≤ rx_txSize d dataLeft ∧
        d.jd_crc16 (crc_input d s.rxFrame) = frame_crc d s.rxFrame ∧
        JD_FRAME_SIZE d s.rxFrame ≤ d.JD_SERIAL_PAYLOAD_SIZE + d.JD_SERIAL_FULL_HEADER_SIZE ∧
        packet_service_size d s.rxFrame ≤ d.JD_SERIAL_PAYLOAD_SIZE ∧
        frame_flags d s.rxFrame &&& d.JD_FRAME_FLAG_VNEXT = 0) := by
  obtain ⟨evs, htr, hev⟩ := retime_rx_forwards_nothing d env s
  constructor
  · intro hfw
    by_contra hcon
    apply hfw
    by_cases hsize : frame_size d s.rxFrame = 0
    · rw [jd_rx_completed_zero d env dataLeft s hsize, calls_since_of_trace s _ evs htr, hev]
    · by_cases hbad : dataLeft < 0 ∨ rx_txSize d dataLeft < JD_FRAME_SIZE d s.rxFrame ∨
          d.jd_crc16 (crc_input d s.rxFrame) ≠ frame_crc d s.rxFrame ∨
          JD_FRAME_SIZE d s.rxFrame > d.JD_SERIAL_PAYLOAD_SIZE + d.JD_SERIAL_FULL_HEADER_SIZE ∨
          packet_service_size d s.rxFrame > d.JD_SERIAL_PAYLOAD_SIZE
      · rw [jd_rx_completed_invalid d env dataLeft s hsize hbad,
          calls_since_of_trace s _ evs (by simpa [bump_uart_error] using htr), hev]
      · simp only [not_or, not_lt, ne_eq, not_not, gt_iff_lt] at hbad
        obtain ⟨h1, h2, h3, h4, h5⟩ := hbad
        have hflag : frame_flags d s.rxFrame &&& d.JD_FRAME_FLAG_VNEXT ≠ 0 := by
          intro h6
          exact hcon ⟨hsize, h1, h2, h3, h4, h5, h6⟩
        rw [jd_rx_completed_vnext d env dataLeft s hsize h1 h2 h3 h4 h5 hflag,
          calls_since_of_trace s _ evs (by simpa [bump_packets_dropped] using htr), hev]
  · rintro ⟨hsize, h1, h2, h3, h4, h5, h6⟩
    rw [jd_rx_completed_accepted d env dataLeft s hsize h1 h2 h3 h4 h5 h6]
    split_ifs
    · rw [calls_since_of_trace s _ (evs ++ [Event.jd_rx_frame_received s.rxFrame])
        (by simp [bump_packets_dropped, bump_packets_received, htr])]
      simp [forwarded_frames_append, forwarded_frames, Event.rx_frame]
    · rw [calls_since_of_trace s _ (evs ++ [Event.jd_rx_frame_received s.rxFrame])
        (by simp [bump_packets_received, htr])]
      simp [forwarded_frames_append, forwarded_frames, Event.rx_frame]

/-- C1 fails as stated: a buffer whose size member is zero meets every condition the
claim lists (no hardware error, declared size 12 within the 252 bytes received, matching
crc, sizes in bounds, `JD_FRAME_FLAG_VNEXT` clear) and is still not forwarded. -/
theorem zero_size_frame_not_forwarded :
    (0 ≤ (0 : Int) ∧
      JD_FRAME_SIZE jacdac (receiving zero_size_frame).rxFrame ≤ rx_txSize jacdac 0 ∧
      jacdac.jd_crc16 (crc_input jacdac (receiving zero_size_frame).rxFrame) =
        frame_crc jacdac (receiving zero_size_frame).rxFrame ∧
      JD_FRAME_SIZE jacdac (receiving zero_size_frame).rxFrame ≤
        jacdac.JD_SERIAL_PAYLOAD_SIZE + jacdac.JD_SERIAL_FULL_HEADER_SIZE ∧
      packet_service_size jacdac (receiving zero_size_frame).rxFrame ≤
        jacdac.JD_SERIAL_PAYLOAD_SIZE ∧
      frame_flags jacdac (receiving zero_size_frame).rxFrame &&& jacdac.JD_FRAME_FLAG_VNEXT = 0) ∧
    forwarded_frames (calls_since (receiving zero_size_frame)
      (jd_rx_completed jacdac quiet 0 (receiving zero_size_frame))) = [] := by
  refine ⟨⟨by decide, by decide, by rfl, by decide, by decide, by decide⟩, by rfl⟩


/-- C6: when the size member of the receive buffer is zero, `jd_rx_completed` does
nothing but the retime step clearing `JD_STATUS_RX_ACTIVE` (after lowering the debug
pin): no diagnostic counter changes and `jd_rx_frame_received` is not called, whatever
`dataLeft` is. -/
theorem jd_rx_completed_zero_size (d : Decls) (env : Env) (dataLeft : Int) (s : Phys)
    (h : frame_size d s.rxFrame = 0) :
    jd_rx_completed d env dataLeft s =
        set_tick_timer d env JD_STATUS_RX_ACTIVE (emit (Event.jd_debug_signal_read 0) s) ∧
      (jd_rx_completed d env dataLeft s).jd_diagnostics = s.jd_diagnostics ∧
      forwarded_frames (calls_since s (jd_rx_completed d env dataLeft s)) = [] ∧
      (jd_rx_completed d env dataLeft s).status &&& JD_STATUS_RX_ACTIVE = 0 := by
  obtain ⟨evs, htr, hev⟩ := retime_rx_forwards_nothing d env s
  rw [jd_rx_completed_zero d env dataLeft s h]
  refine ⟨rfl, by simp, ?_, set_tick_timer_clears_rx d env _⟩
  rw [calls_since_of_trace s _ evs htr, hev]

theorem jd_rx_completed_zero_size_witness :
    frame_size jacdac (receiving []).rxFrame = 0 ∧
      (jd_rx_completed jacdac quiet (-1) (receiving []) =
          set_tick_timer jacdac quiet JD_STATUS_RX_ACTIVE
            (emit (Event.jd_debug_signal_read 0) (receiving [])) ∧
        (jd_rx_completed jacdac quiet (-1) (receiving [])).jd_diagnostics =
          (receiving []).jd_diagnostics ∧
        forwarded_frames (calls_since (receiving [])
          (jd_rx_completed jacdac quiet (-1) (receiving []))) = [] ∧
        (jd_rx_completed jacdac quiet (-1) (receiving [])).status &&& JD_STATUS_RX_ACTIVE = 0) :=
  ⟨by decide, jd_rx_completed_zero_size jacdac quiet (-1) (receiving []) (by decide)⟩

/-- C7: a completed reception with non-zero size member, no hardware error, declared size
within the received byte count, matching crc, sizes in bounds and `JD_FRAME_FLAG_VNEXT`
clear is handed to `jd_rx_frame_received` exactly once (the receive buffer itself);
`packets_received` grows by one, the three error counters are unchanged, and
`packets_dropped` grows by one exactly when `jd_rx_frame_received` returns non-zero. -/
theorem jd_rx_completed_valid_frame (d : Decls) (env : Env) (dataLeft : Int) (s : Phys)
    (hsize : frame_size d s.rxFrame ≠ 0) (hdata : 0 ≤ dataLeft)
    (hlen : JD_FRAME_SIZE d s.rxFrame ≤ rx_txSize d dataLeft)
    (hcrc : d.jd_crc16 (crc_input d s.rxFrame) = frame_crc d s.rxFrame)
    (hmax : JD_FRAME_SIZE d s.rxFrame ≤ d.JD_SERIAL_PAYLOAD_SIZE + d.JD_SERIAL_FULL_HEADER_SIZE)
    (hsvc : packet_service_size d s.rxFrame ≤ d.JD_SERIAL_PAYLOAD_SIZE)
    (hflag : frame_flags d s.rxFrame &&& d.JD_FRAME_FLAG_VNEXT = 0) :
    forwarded_frames (calls_since s (jd_rx_completed d env dataLeft s)) = [s.rxFrame] ∧
      (jd_rx_completed d env dataLeft s).jd_diagnostics.packets_received =
        s.jd_diagnostics.packets_received + 1 ∧
      (jd_rx_completed d env dataLeft s).jd_diagnostics.bus_uart_error =
        s.jd_diagnostics.bus_uart_error ∧
      (jd_rx_completed d env dataLeft s).jd_diagnostics.bus_timeout_error =
        s.jd_diagnostics.bus_timeout_error ∧
      (jd_rx_completed d env dataLeft s).jd_diagnostics.bus_lo_error =
        s.jd_diagnostics.bus_lo_error ∧
      (jd_rx_completed d env dataLeft s).jd_diagnostics.packets_dropped =
        s.jd_diagnostics.packets_dropped +
          (if env.jd_rx_frame_received s.rxFrame ≠ 0 then 1 else 0) := by
  obtain ⟨evs, htr, hev⟩ := retime_rx_forwards_nothing d env s
  rw [jd_rx_completed_accepted d env dataLeft s hsize hdata hlen hcrc hmax hsvc hflag]
  split_ifs with herr
  · refine ⟨?_, by simp [bump_packets_dropped, bump_packets_received],
      by simp [bump_packets_dropped, bump_packets_received],
      by simp [bump_packets_dropped, bump_packets_received],
      by simp [bump_packets_dropped, bump_packets_received],
      by simp [bump_packets_dropped, bump_packets_received]⟩
    rw [calls_since_of_trace s _ (evs ++ [Event.jd_rx_frame_received s.rxFrame])
      (by simp [bump_packets_dropped, bump_packets_received, htr])]
    rw [forwarded_frames_append, hev]
    rfl
  · refine ⟨?_, by simp [bump_packets_received], by simp [bump_packets_received],
      by simp [bump_packets_received], by simp [bump_packets_received],
      by simp [bump_packets_received]⟩
    rw [calls_since_of_trace s _ (evs ++ [Event.jd_rx_frame_received s.rxFrame])
      (by simp [bump_packets_received, htr])]
    rw [forwarded_frames_append, hev]
    rfl

theorem jd_rx_completed_valid_frame_witness :
    forwarded_frames (calls_since (receiving good_frame)
        (jd_rx_completed jacdac quiet 236 (receiving good_frame))) =
        [(receiving good_frame).rxFrame] ∧
      (jd_rx_completed jacdac quiet 236 (receiving good_frame)).jd_diagnostics.packets_received =
        (receiving good_frame).jd_diagnostics.packets_received + 1 ∧
      (jd_rx_completed jacdac quiet 236 (receiving good_frame)).jd_diagnostics.bus_uart_error =
        (receiving good_frame).jd_diagnostics.bus_uart_error ∧
      (jd_rx_completed jacdac quiet 236 (receiving good_frame)).jd_diagnostics.bus_timeout_error =
        (receiving good_frame).jd_diagnostics.bus_timeout_error ∧
      (jd_rx_completed jacdac quiet 236 (receiving good_frame)).jd_diagnostics.bus_lo_error =
        (receiving good_frame).jd_diagnostics.bus_lo_error ∧
      (jd_rx_completed jacdac quiet 236 (receiving good_frame)).jd_diagnostics.packets_dropped =
        (receiving good_frame).jd_diagnostics.packets_dropped +
          (if quiet.jd_rx_frame_received (receiving good_frame).rxFrame ≠ 0 then 1 else 0) :=
  jd_rx_completed_valid_frame jacdac quiet 236 (receiving good_frame)
    (by decide) (by decide) (by decide) (by rfl) (by decide) (by decide) (by decide)

/-- C8: a completed reception with non-zero size member that fails validation (hardware
error `dataLeft < 0`, or fewer bytes received than declared, or a crc mismatch, or a
declared size or `service_size` out of bounds) adds exactly one to `bus_uart_error`,
leaves `packets_received` and `packets_dropped` alone and forwards nothing. -/
theorem jd_rx_completed_invalid_frame (d : Decls) (env : Env) (dataLeft : Int) (s : Phys)
    (hsize : frame_size d s.rxFrame ≠ 0)
    (hbad : dataLeft < 0 ∨ rx_txSize d dataLeft < JD_FRAME_SIZE d s.rxFrame ∨
      d.jd_crc16 (crc_input d s.rxFrame) ≠ frame_crc d s.rxFrame ∨
      JD_FRAME_SIZE d s.rxFrame > d.JD_SERIAL_PAYLOAD_SIZE + d.JD_SERIAL_FULL_HEADER_SIZE ∨
      packet_service_size d s.rxFrame > d.JD_SERIAL_PAYLOAD_SIZE) :
    (jd_rx_completed d env dataLeft s).jd_diagnostics.bus_uart_error =
        s.jd_diagnostics.bus_uart_error + 1 ∧
      (jd_rx_completed d env dataLeft s).jd_diagnostics.packets_received =
        s.jd_diagnostics.packets_received ∧
      (jd_rx_completed d env dataLeft s).jd_diagnostics.packets_dropped =
        s.jd_diagnostics.packets_dropped ∧
      forwarded_frames (calls_since s (jd_rx_completed d env dataLeft s)) = [] := by
  obtain ⟨evs, htr, hev⟩ := retime_rx_forwards_nothing d env s
  rw [jd_rx_completed_invalid d env dataLeft s hsize hbad]
  refine ⟨by simp [bump_uart_error], by simp [bump_uart_error], by simp [bump_uart_error], ?_⟩
  rw [calls_since_of_trace s _ evs (by simpa [bump_uart_error] using htr), hev]

theorem jd_rx_completed_invalid_frame_witness :
    (jd_rx_completed jacdac quiet 236 (receiving flipped_frame)).jd_diagnostics.bus_uart_error =
        (receiving flipped_frame).jd_diagnostics.bus_uart_error + 1 ∧
      (jd_rx_completed jacdac quiet 236 (receiving flipped_frame)).jd_diagnostics.packets_received =
        (receiving flipped_frame).jd_diagnostics.packets_received ∧
      (jd_rx_completed jacdac quiet 236 (receiving flipped_frame)).jd_diagnostics.packets_dropped =
        (receiving flipped_frame).jd_diagnostics.packets_dropped ∧
      forwarded_frames (calls_since (receiving flipped_frame)
        (jd_rx_completed jacdac quiet 236 (receiving flipped_frame))) = [] :=
  jd_rx_completed_invalid_frame jacdac quiet 236 (receiving flipped_frame) (by decide)
    (Or.inr (Or.inr (Or.inl (by decide))))

/-- C9: a completed reception that passes every validation check and has
`JD_FRAME_FLAG_VNEXT` set in its flags adds exactly one to `packets_dropped`, leaves the
three error counters and `packets_received` alone and forwards nothing. -/
theorem jd_rx_completed_vnext_frame (d : Decls) (env : Env) (dataLeft : Int) (s : Phys)
    (hsize : frame_size d s.rxFrame ≠ 0) (hdata : 0 ≤ dataLeft)
    (hlen : JD_FRAME_SIZE d s.rxFrame ≤ rx_txSize d dataLeft)
    (hcrc : d.jd_crc16 (crc_input d s.rxFrame) = frame_crc d s.rxFrame)
    (hmax : JD_FRAME_SIZE d s.rxFrame ≤ d.JD_SERIAL_PAYLOAD_SIZE + d.JD_SERIAL_FULL_HEADER_SIZE)
    (hsvc : packet_service_size d s.rxFrame ≤ d.JD_SERIAL_PAYLOAD_SIZE)
    (hflag : frame_flags d s.rxFrame &&& d.JD_FRAME_FLAG_VNEXT ≠ 0) :
    (jd_rx_completed d env dataLeft s).jd_diagnostics.packets_dropped =
        s.jd_diagnostics.packets_dropped + 1 ∧
      (jd_rx_completed d env dataLeft s).jd_diagnostics.bus_uart_error =
        s.jd_diagnostics.bus_uart_error ∧
      (jd_rx_completed d env dataLeft s).jd_diagnostics.bus_timeout_error =
        s.jd_diagnostics.bus_timeout_error ∧
      (jd_rx_completed d env dataLeft s).jd_diagnostics.bus_lo_error =
        s.jd_diagnostics.bus_lo_error ∧
      (jd_rx_completed d env dataLeft s).jd_diagnostics.packets_received =
        s.jd_diagnostics.packets_received ∧
      forwarded_frames (calls_since s (jd_rx_completed d env dataLeft s)) = [] := by
  obtain ⟨evs, htr, hev⟩ := retime_rx_forwards_nothing d env s
  rw [jd_rx_completed_vnext d env dataLeft s hsize hdata hlen hcrc hmax hsvc hflag]
  refine ⟨by simp [bump_packets_dropped], by simp [bump_packets_dropped],
    by simp [bump_packets_dropped], by simp [bump_packets_dropped],
    by simp [bump_packets_dropped], ?_⟩
  rw [calls_since_of_trace s _ evs (by simpa [bump_packets_dropped] using htr), hev]

theorem jd_rx_completed_vnext_frame_witness :
    (jd_rx_completed jacdac quiet 236 (receiving vnext_frame)).jd_diagnostics.packets_dropped =
        (receiving vnext_frame).jd_diagnostics.packets_dropped + 1 ∧
      (jd_rx_completed jacdac quiet 236 (receiving vnext_frame)).jd_diagnostics.bus_uart_error =
        (receiving vnext_frame).jd_diagnostics.bus_uart_error ∧
      (jd_rx_completed jacdac quiet 236 (receiving vnext_frame)).jd_diagnostics.bus_timeout_error =
        (receiving vnext_frame).jd_diagnostics.bus_timeout_error ∧
      (jd_rx_completed jacdac quiet 236 (receiving vnext_frame)).jd_diagnostics.bus_lo_error =
        (receiving vnext_frame).jd_diagnostics.bus_lo_error ∧
      (jd_rx_completed jacdac quiet 236 (receiving vnext_frame)).jd_diagnostics.packets_received =
        (receiving vnext_frame).jd_diagnostics.packets_received ∧
      forwarded_frames (calls_since (receiving vnext_frame)
        (jd_rx_completed jacdac quiet 236 (receiving vnext_frame))) = [] :=
  jd_rx_completed_vnext_frame jacdac quiet 236 (receiving vnext_frame)
    (by decide) (by decide) (by decide) (by rfl) (by decide) (by decide) (by decide)


/-! ## Bits of the status register -/

theorem and_and_lit (x a b c : Nat) (h : a &&& b = c) : (x &&& a) &&& b = x &&& c := by
  rw [Nat.and_assoc, h]

theorem or_and_lit (x a b c : Nat) (h : a &&& b = c) : (x ||| a) &&& b = (x &&& b) ||| c := by
  rw [Nat.and_distrib_right, h]

theorem idle_rx_clear (x : Nat) (h : x &&& (JD_STATUS_RX_ACTIVE ||| JD_STATUS_TX_ACTIVE) = 0) :
    x &&& JD_STATUS_RX_ACTIVE = 0 := by
  have h3 : x &&& 3 = 0 := h
  have : (x &&& 3) &&& 1 = x &&& 1 := and_and_lit x 3 1 1 (by decide)
  rw [h3] at this
  simpa using this.symm

theorem idle_tx_clear (x : Nat) (h : x &&& (JD_STATUS_RX_ACTIVE ||| JD_STATUS_TX_ACTIVE) = 0) :
    x &&& JD_STATUS_TX_ACTIVE = 0 := by
  have h3 : x &&& 3 = 0 := h
  have : (x &&& 3) &&& 2 = x &&& 2 := and_and_lit x 3 2 2 (by decide)
  rw [h3] at this
  simpa using this.symm

/-- The retime step changes `JD_STATUS_RX_ACTIVE` only by clearing `statusClear`. -/
theorem set_tick_timer_rx_bit (d : Decls) (env : Env) (c : Nat) (s : Phys) :
    (set_tick_timer d env c s).status &&& JD_STATUS_RX_ACTIVE =
      (if c ≠ 0 then s.status &&& (255 ^^^ c) else s.status) &&& JD_STATUS_RX_ACTIVE := by
  rw [set_tick_timer_status]
  generalize (if c ≠ 0 then s.status &&& (255 ^^^ c) else s.status) = x
  split_ifs
  · rw [or_and_lit x 4 1 0 (by decide), Nat.or_zero]
  · rw [and_and_lit x 251 1 1 (by decide)]
  · rfl

/-- The retime step changes `JD_STATUS_TX_ACTIVE` only by clearing `statusClear`. -/
theorem set_tick_timer_tx_bit (d : Decls) (env : Env) (c : Nat) (s : Phys) :
    (set_tick_timer d env c s).status &&& JD_STATUS_TX_ACTIVE =
      (if c ≠ 0 then s.status &&& (255 ^^^ c) else s.status) &&& JD_STATUS_TX_ACTIVE := by
  rw [set_tick_timer_status]
  generalize (if c ≠ 0 then s.status &&& (255 ^^^ c) else s.status) = x
  split_ifs
  · rw [or_and_lit x 4 2 0 (by decide), Nat.or_zero]
  · rw [and_and_lit x 251 2 2 (by decide)]
  · rfl

theorem set_tick_timer_keep_rx (d : Decls) (env : Env) (s : Phys) :
    (set_tick_timer d env 0 s).status &&& JD_STATUS_RX_ACTIVE =
      s.status &&& JD_STATUS_RX_ACTIVE := by
  rw [set_tick_timer_rx_bit]; simp

theorem set_tick_timer_keep_tx (d : Decls) (env : Env) (s : Phys) :
    (set_tick_timer d env 0 s).status &&& JD_STATUS_TX_ACTIVE =
      s.status &&& JD_STATUS_TX_ACTIVE := by
  rw [set_tick_timer_tx_bit]; simp

theorem set_tick_timer_clears_tx (d : Decls) (env : Env) (s : Phys) :
    (set_tick_timer d env JD_STATUS_TX_ACTIVE s).status &&& JD_STATUS_TX_ACTIVE = 0 := by
  rw [set_tick_timer_tx_bit]
  have : (s.status &&& 253) &&& 2 = 0 := by rw [and_and_lit s.status 253 2 0 (by decide)]; simp
  simpa using this

theorem tx_done_keeps_rx (d : Decls) (env : Env) (s : Phys) :
    (set_tick_timer d env JD_STATUS_TX_ACTIVE s).status &&& JD_STATUS_RX_ACTIVE =
      s.status &&& JD_STATUS_RX_ACTIVE := by
  rw [set_tick_timer_rx_bit]
  have : (s.status &&& 253) &&& 1 = s.status &&& 1 := and_and_lit s.status 253 1 1 (by decide)
  simpa using this


/-! ## The status register after each entry point -/

theorem jd_rx_completed_status (d : Decls) (env : Env) (dataLeft : Int) (s : Phys) :
    (jd_rx_completed d env dataLeft s).status =
      (set_tick_timer d env JD_STATUS_RX_ACTIVE (emit (Event.jd_debug_signal_read 0) s)).status := by
  unfold jd_rx_completed
  simp only [bump_uart_error, bump_packets_dropped, bump_packets_received, emit]
  split_ifs <;> rfl

theorem rx_timeout_status (d : Decls) (env : Env) (s : Phys) :
    (rx_timeout d env s).status &&& JD_STATUS_RX_ACTIVE = 0 := by
  unfold rx_timeout
  simp only [emit_status]
  exact set_tick_timer_clears_rx d env _

theorem rx_timeout_tx_bit (d : Decls) (env : Env) (s : Phys) :
    (rx_timeout d env s).status &&& JD_STATUS_TX_ACTIVE = s.status &&& JD_STATUS_TX_ACTIVE := by
  unfold rx_timeout
  simp only [emit_status]
  rw [set_tick_timer_tx_bit]
  have : (s.status &&& 254) &&& 2 = s.status &&& 2 := and_and_lit s.status 254 2 2 (by decide)
  simpa using this

/-- No state has both `JD_STATUS_TX_ACTIVE` and `JD_STATUS_RX_ACTIVE` set. -/
theorem exclusive_of_rx_clear (x : Nat) (h : x &&& JD_STATUS_RX_ACTIVE = 0) :
    ¬(x &&& JD_STATUS_TX_ACTIVE ≠ 0 ∧ x &&& JD_STATUS_RX_ACTIVE ≠ 0) :=
  fun hb => hb.2 h

theorem exclusive_of_tx_clear (x : Nat) (h : x &&& JD_STATUS_TX_ACTIVE = 0) :
    ¬(x &&& JD_STATUS_TX_ACTIVE ≠ 0 ∧ x &&& JD_STATUS_RX_ACTIVE ≠ 0) :=
  fun hb => hb.1 h

theorem exclusive_of_bits (x y : Nat)
    (hrx : y &&& JD_STATUS_RX_ACTIVE = x &&& JD_STATUS_RX_ACTIVE)
    (htx : y &&& JD_STATUS_TX_ACTIVE = x &&& JD_STATUS_TX_ACTIVE)
    (h : ¬(x &&& JD_STATUS_TX_ACTIVE ≠ 0 ∧ x &&& JD_STATUS_RX_ACTIVE ≠ 0)) :
    ¬(y &&& JD_STATUS_TX_ACTIVE ≠ 0 ∧ y &&& JD_STATUS_RX_ACTIVE ≠ 0) := by
  rw [hrx, htx]; exact h

theorem flush_tx_queue_exclusive (d : Decls) (env : Env) (s : Phys)
    (h : ¬(s.status &&& JD_STATUS_TX_ACTIVE ≠ 0 ∧ s.status &&& JD_STATUS_RX_ACTIVE ≠ 0)) :
    ¬((flush_tx_queue d env s).status &&& JD_STATUS_TX_ACTIVE ≠ 0 ∧
      (flush_tx_queue d env s).status &&& JD_STATUS_RX_ACTIVE ≠ 0) := by
  unfold flush_tx_queue
  simp only [emit_status]
  split_ifs with hbusy
  · exact h
  · have hidle := idle_rx_clear s.status (not_not.mp hbusy)
    have hrx : (s.status ||| 2) &&& 1 = 0 := by
      rw [or_and_lit s.status 2 1 0 (by decide), Nat.or_zero]; exact hidle
    apply exclusive_of_rx_clear
    split
    · unfold tx_done
      rw [tx_done_keeps_rx]
      split <;> exact hrx
    · split_ifs
      · show (tx_done d env _).status &&& JD_STATUS_RX_ACTIVE = 0
        unfold tx_done
        rw [tx_done_keeps_rx]
        split <;> exact hrx
      · rw [set_tick_timer_keep_rx]
        split <;> exact hrx


theorem jd_line_falling_exclusive (d : Decls) (env : Env) (s t : Phys)
    (htx : s.status &&& JD_STATUS_TX_ACTIVE = 0) (ht : jd_line_falling d env s = some t) :
    ¬(t.status &&& JD_STATUS_TX_ACTIVE ≠ 0 ∧ t.status &&& JD_STATUS_RX_ACTIVE ≠ 0) := by
  have hor : (s.status ||| 1) &&& 2 = 0 := by
    rw [or_and_lit s.status 1 2 0 (by decide), Nat.or_zero]; exact htx
  apply exclusive_of_tx_clear
  unfold jd_line_falling at ht
  simp only [emit_status] at ht
  split_ifs at ht with h1 h2 h3
  · cases ht
    rw [rx_timeout_tx_bit]
    exact hor
  · cases ht
    exact hor
  · cases ht
    exact hor

theorem setup_rx_timeout_exclusive (d : Decls) (env : Env) (s : Phys)
    (h : ¬(s.status &&& JD_STATUS_TX_ACTIVE ≠ 0 ∧ s.status &&& JD_STATUS_RX_ACTIVE ≠ 0)) :
    ¬((setup_rx_timeout d env s).status &&& JD_STATUS_TX_ACTIVE ≠ 0 ∧
      (setup_rx_timeout d env s).status &&& JD_STATUS_RX_ACTIVE ≠ 0) := by
  simp only [setup_rx_timeout]
  split_ifs
  · exact exclusive_of_rx_clear _ (rx_timeout_status d env _)
  · exact h
  · exact exclusive_of_bits _ _ (set_tick_timer_keep_rx d env s) (set_tick_timer_keep_tx d env s) h

theorem jd_packet_ready_exclusive (d : Decls) (env : Env) (s : Phys)
    (h : ¬(s.status &&& JD_STATUS_TX_ACTIVE ≠ 0 ∧ s.status &&& JD_STATUS_RX_ACTIVE ≠ 0)) :
    ¬((jd_packet_ready d env s).status &&& JD_STATUS_TX_ACTIVE ≠ 0 ∧
      (jd_packet_ready d env s).status &&& JD_STATUS_RX_ACTIVE ≠ 0) := by
  unfold jd_packet_ready
  simp only [emit_status]
  split_ifs
  · exact exclusive_of_bits _ _ (set_tick_timer_keep_rx d env _) (set_tick_timer_keep_tx d env _) h
  · exact h

/-- One step of the driver keeps the two flags apart, provided `jd_line_falling` is not
entered while `JD_STATUS_TX_ACTIVE` is set. -/
theorem step_exclusive (d : Decls) (op : Op) (env : Env) (s t : Phys)
    (hmask : op = Op.jd_line_falling → s.status &&& JD_STATUS_TX_ACTIVE = 0)
    (h : ¬(s.status &&& JD_STATUS_TX_ACTIVE ≠ 0 ∧ s.status &&& JD_STATUS_RX_ACTIVE ≠ 0))
    (ht : step d op env s = some t) :
    ¬(t.status &&& JD_STATUS_TX_ACTIVE ≠ 0 ∧ t.status &&& JD_STATUS_RX_ACTIVE ≠ 0) := by
  cases op with
  | _jd_phys_start =>
    simp only [step, Option.some.injEq] at ht
    subst ht
    exact exclusive_of_bits _ _ (set_tick_timer_keep_rx d env s) (set_tick_timer_keep_tx d env s) h
  | jd_packet_ready =>
    simp only [step, Option.some.injEq] at ht
    subst ht
    exact jd_packet_ready_exclusive d env s h
  | jd_line_falling =>
    exact jd_line_falling_exclusive d env s t (hmask rfl) ht
  | jd_rx_completed dataLeft =>
    simp only [step, Option.some.injEq] at ht
    subst ht
    apply exclusive_of_rx_clear
    rw [jd_rx_completed_status]
    exact set_tick_timer_clears_rx d env _
  | jd_tx_completed errCode =>
    simp only [step, Option.some.injEq] at ht
    subst ht
    apply exclusive_of_tx_clear
    exact set_tick_timer_clears_tx d env _
  | tick =>
    simp only [step, tick] at ht
    split_ifs at ht
    cases ht
    exact exclusive_of_bits _ _ (set_tick_timer_keep_rx d env s) (set_tick_timer_keep_tx d env s) h
  | flush_tx_queue =>
    simp only [step, Option.some.injEq] at ht
    subst ht
    exact flush_tx_queue_exclusive d env s h
  | setup_rx_timeout =>
    simp only [step, Option.some.injEq] at ht
    subst ht
    exact setup_rx_timeout_exclusive d env s h
  | rx_timeout =>
    simp only [step, Option.some.injEq] at ht
    subst ht
    exact exclusive_of_rx_clear _ (rx_timeout_status d env s)
  | uart_dma bytes =>
    simp only [step, Option.some.injEq] at ht
    subst ht
    exact h

theorem run_exclusive (d : Decls) (ops : List (Op × Env)) :
    ∀ s t : Phys, line_edge_masked_during_tx d ops s = true →
      ¬(s.status &&& JD_STATUS_TX_ACTIVE ≠ 0 ∧ s.status &&& JD_STATUS_RX_ACTIVE ≠ 0) →
      run d ops s = some t →
      ¬(t.status &&& JD_STATUS_TX_ACTIVE ≠ 0 ∧ t.status &&& JD_STATUS_RX_ACTIVE ≠ 0) := by
  induction ops with
  | nil =>
    intro s t _ h ht
    simp only [run, Option.some.injEq] at ht
    subst ht
    exact h
  | cons hd rest ih =>
    obtain ⟨op, env⟩ := hd
    intro s t hmask h ht
    simp only [run] at ht
    simp only [line_edge_masked_during_tx, Bool.and_eq_true, Bool.or_eq_true, bne_iff_ne,
      beq_iff_eq] at hmask
    cases hstep : step d op env s with
    | none => rw [hstep] at ht; simp at ht
    | some u =>
      rw [hstep] at ht
      simp only [Option.some_bind] at ht
      have hu := step_exclusive d op env s u
        (fun hop => by rcases hmask.1 with h1 | h1; exact absurd hop h1; exact h1) h hstep
      have hrest := hmask.2
      rw [hstep] at hrest
      exact ih u t hrest hu ht

/-! ## Arbitration between transmission and reception -/

/-- C2, as the code has it: in every state reachable from the initial state by a finite
sequence of entry points and timer callbacks in which `jd_line_falling` is never entered
while `JD_STATUS_TX_ACTIVE` is set, the status register never has `JD_STATUS_TX_ACTIVE`
and `JD_STATUS_RX_ACTIVE` set at the same time. -/
theorem tx_rx_never_both_active (d : Decls) (ops : List (Op × Env)) (t : Phys)
    (hmask : line_edge_masked_during_tx d ops (Phys.init d) = true)
    (hrun : run d ops (Phys.init d) = some t) :
    ¬(t.status &&& JD_STATUS_TX_ACTIVE ≠ 0 ∧ t.status &&& JD_STATUS_RX_ACTIVE ≠ 0) :=
  run_exclusive d ops (Phys.init d) t hmask (by simp [Phys.init]) hrun

theorem tx_rx_never_both_active_witness :
    ¬(((run jacdac send_then_receive (Phys.init jacdac)).getD (Phys.init jacdac)).status &&&
          JD_STATUS_TX_ACTIVE ≠ 0 ∧
        ((run jacdac send_then_receive (Phys.init jacdac)).getD (Phys.init jacdac)).status &&&
          JD_STATUS_RX_ACTIVE ≠ 0) :=
  tx_rx_never_both_active jacdac send_then_receive
    ((run jacdac send_then_receive (Phys.init jacdac)).getD (Phys.init jacdac))
    (by decide) (by rfl)

/-- C2 fails as stated: packet ready, then a flush that starts the transmitter, then a
falling edge (whose handler tests `JD_STATUS_RX_ACTIVE` only) leave both
`JD_STATUS_TX_ACTIVE` and `JD_STATUS_RX_ACTIVE` set. -/
theorem tx_rx_both_active_after_line_falling :
    (run jacdac
        [(Op.jd_packet_ready, quiet), (Op.flush_tx_queue, queue_has good_frame),
          (Op.jd_line_falling, quiet)]
        (Phys.init jacdac)).map
      (fun t => (t.status &&& JD_STATUS_TX_ACTIVE, t.status &&& JD_STATUS_RX_ACTIVE)) =
      some (2, 1) := by
  decide


/-! ## Which calls an entry point can make -/

theorem calls_satisfy_refl (P : Event → Bool) (s : Phys) : calls_satisfy P s s :=
  ⟨[], by simp, by simp⟩

theorem calls_satisfy_emit (P : Event → Bool) (s t : Phys) (e : Event) (he : P e = true)
    (h : calls_satisfy P s t) : calls_satisfy P s (emit e t) := by
  obtain ⟨evs, htr, hev⟩ := h
  refine ⟨evs ++ [e], by simp [htr], ?_⟩
  intro x hx
  rcases List.mem_append.mp hx with hx | hx
  · exact hev x hx
  · rw [List.mem_singleton.mp hx]; exact he

theorem calls_satisfy_of_trace (P : Event → Bool) (s t u : Phys) (htr : u.trace = t.trace)
    (h : calls_satisfy P s t) : calls_satisfy P s u := by
  obtain ⟨evs, ht, hev⟩ := h
  exact ⟨evs, by rw [htr, ht], hev⟩

theorem calls_satisfy_mem (P : Event → Bool) (s t : Phys) (h : calls_satisfy P s t) :
    ∀ e ∈ calls_since s t, P e = true := by
  obtain ⟨evs, htr, hev⟩ := h
  rw [calls_since_of_trace s t evs htr]
  exact hev

theorem calls_satisfy_set_tick_timer (P : Event → Bool) (d : Decls) (env : Env) (c : Nat)
    (s t : Phys) (hP : ∀ e, e.is_retime = true → P e = true) (h : calls_satisfy P s t) :
    calls_satisfy P s (set_tick_timer d env c t) := by
  obtain ⟨evs, htr, hev⟩ := h
  obtain ⟨evs2, htr2, hev2⟩ := set_tick_timer_calls d env c t
  refine ⟨evs ++ evs2, by rw [htr2, htr, List.append_assoc], ?_⟩
  intro x hx
  rcases List.mem_append.mp hx with hx | hx
  · exact hev x hx
  · exact hP x (hev2 x hx)

theorem calls_satisfy_tim_set_timer (P : Event → Bool) (delta : Int) (cb : Callback)
    (s t : Phys) (hP : ∀ e, e.is_retime = true → P e = true) (h : calls_satisfy P s t) :
    calls_satisfy P s (tim_set_timer delta cb t) :=
  calls_satisfy_of_trace P s (emit (Event.tim_set_timer delta cb) t) _ rfl
    (calls_satisfy_emit P s t _ (hP _ rfl) h)

theorem calls_satisfy_rx_timeout (P : Event → Bool) (d : Decls) (env : Env) (s t : Phys)
    (hP : ∀ e, e.is_retime = true → P e = true) (h1 : P Event.uart_disable = true)
    (h2 : P (Event.jd_debug_signal_read 0) = true) (h : calls_satisfy P s t) :
    calls_satisfy P s (rx_timeout d env t) := by
  unfold rx_timeout
  apply calls_satisfy_emit P _ _ Event.target_enable_irq (hP _ rfl)
  apply calls_satisfy_set_tick_timer P d env _ _ _ hP
  apply calls_satisfy_emit P _ _ _ h2
  apply calls_satisfy_emit P _ _ _ h1
  apply calls_satisfy_of_trace P s (emit Event.target_disable_irq t) _ rfl
  exact calls_satisfy_emit P _ _ _ (hP _ rfl) h

theorem calls_satisfy_tx_done (P : Event → Bool) (d : Decls) (env : Env) (s t : Phys)
    (hP : ∀ e, e.is_retime = true → P e = true) (h1 : P (Event.jd_debug_signal_write 0) = true)
    (h : calls_satisfy P s t) : calls_satisfy P s (tx_done d env t) := by
  unfold tx_done
  apply calls_satisfy_set_tick_timer P d env _ _ _ hP
  exact calls_satisfy_emit P _ _ _ h1 h

theorem calls_satisfy_jd_rx_completed (P : Event → Bool) (d : Decls) (env : Env)
    (dataLeft : Int) (s : Phys) (hP : ∀ e, e.is_retime = true → P e = true)
    (h1 : P (Event.jd_debug_signal_read 0) = true)
    (h2 : ∀ f, P (Event.jd_rx_frame_received f) = true) :
    calls_satisfy P s (jd_rx_completed d env dataLeft s) := by
  have hr : calls_satisfy P s
      (set_tick_timer d env JD_STATUS_RX_ACTIVE (emit (Event.jd_debug_signal_read 0) s)) :=
    calls_satisfy_set_tick_timer P d env _ _ _ hP
      (calls_satisfy_emit P _ _ _ h1 (calls_satisfy_refl P s))
  simp only [jd_rx_completed]
  split_ifs
  · exact hr
  · exact calls_satisfy_of_trace P s _ _ rfl hr
  · exact calls_satisfy_of_trace P s _ _ rfl hr
  · exact calls_satisfy_of_trace P s _ _ rfl hr
  · exact calls_satisfy_of_trace P s _ _ rfl hr
  · exact calls_satisfy_of_trace P s _ _ rfl hr
  · apply calls_satisfy_of_trace P s _ _ rfl
      (calls_satisfy_emit P s _ _ (h2 _) (calls_satisfy_of_trace P s _ _ rfl hr))
  · exact calls_satisfy_emit P s _ _ (h2 _) (calls_satisfy_of_trace P s _ _ rfl hr)

theorem calls_satisfy_setup_rx_timeout (P : Event → Bool) (d : Decls) (env : Env) (s : Phys)
    (hP : ∀ e, e.is_retime = true → P e = true) (h1 : P Event.uart_disable = true)
    (h2 : P (Event.jd_debug_signal_read 0) = true) (h3 : P Event.uart_flush_rx = true) :
    calls_satisfy P s (setup_rx_timeout d env s) := by
  have hf : calls_satisfy P s
      { emit Event.uart_flush_rx s with rxFrame := env.uart_flush_rx s.rxFrame } :=
    calls_satisfy_of_trace P s (emit Event.uart_flush_rx s) _ rfl
      (calls_satisfy_emit P _ _ _ h3 (calls_satisfy_refl P s))
  simp only [setup_rx_timeout]
  split_ifs
  · exact calls_satisfy_rx_timeout P d env s _ hP h1 h2 hf
  · exact calls_satisfy_tim_set_timer P _ _ s _ hP hf
  · exact calls_satisfy_set_tick_timer P d env _ _ _ hP (calls_satisfy_refl P s)

theorem calls_satisfy_jd_line_falling (P : Event → Bool) (d : Decls) (env : Env) (s t : Phys)
    (hP : ∀ e, e.is_retime = true → P e = true) (h1 : P Event.uart_disable = true)
    (h2 : ∀ v, P (Event.jd_debug_signal_read v) = true) (h3 : P Event.uart_wait_high = true)
    (h4 : ∀ n, P (Event.uart_start_rx n) = true) (ht : jd_line_falling d env s = some t) :
    calls_satisfy P s t := by
  have hw : calls_satisfy P s (emit Event.uart_wait_high
      { emit (Event.jd_debug_signal_read 1) s with
        status := s.status ||| JD_STATUS_RX_ACTIVE, rxFrame := zero_words s.rxFrame }) :=
    calls_satisfy_emit P _ _ _ h3
      (calls_satisfy_of_trace P s (emit (Event.jd_debug_signal_read 1) s) _ rfl
        (calls_satisfy_emit P _ _ _ (h2 1) (calls_satisfy_refl P s)))
  simp only [jd_line_falling] at ht
  split_ifs at ht
  · cases ht
    exact calls_satisfy_rx_timeout P d env s _ hP h1 (h2 0) hw
  · cases ht
    exact calls_satisfy_tim_set_timer P _ _ s _ hP (calls_satisfy_emit P _ _ _ (h4 _) hw)
  · cases ht
    exact calls_satisfy_emit P _ _ _ (h4 _) hw

theorem calls_satisfy_jd_packet_ready (P : Event → Bool) (d : Decls) (env : Env) (s : Phys)
    (hP : ∀ e, e.is_retime = true → P e = true) :
    calls_satisfy P s (jd_packet_ready d env s) := by
  have h0 : calls_satisfy P s { emit Event.target_disable_irq s with txPending := 1 } :=
    calls_satisfy_of_trace P s (emit Event.target_disable_irq s) _ rfl
      (calls_satisfy_emit P _ _ _ (hP _ rfl) (calls_satisfy_refl P s))
  simp only [jd_packet_ready]
  apply calls_satisfy_emit P _ _ Event.target_enable_irq (hP _ rfl)
  split_ifs
  · exact calls_satisfy_set_tick_timer P d env _ _ _ hP h0
  · exact h0


/-! ## `flush_tx_queue`, path by path -/

theorem flush_tx_queue_busy (d : Decls) (env : Env) (s : Phys)
    (h : s.status &&& (JD_STATUS_RX_ACTIVE ||| JD_STATUS_TX_ACTIVE) ≠ 0) :
    flush_tx_queue d env s = emit Event.target_enable_irq (emit Event.target_disable_irq s) := by
  simp only [flush_tx_queue, emit_status]
  rw [if_pos h]

/-- With the bus idle and a frame at hand, `flush_tx_queue` reaches `uart_start_tx` in a
state `S` with `JD_STATUS_TX_ACTIVE` set, `txPending` cleared and the frame claimed, and
then either takes the failure exit or retimes. -/
theorem flush_tx_queue_sending (d : Decls) (env : Env) (s : Phys) (f : Frame)
    (hidle : s.status &&& (JD_STATUS_RX_ACTIVE ||| JD_STATUS_TX_ACTIVE) = 0)
    (hframe : s.txFrame = some f ∨ (s.txFrame = none ∧ env.jd_tx_get_frame = some f)) :
    ∃ S : Phys,
      S.trace = s.trace ++ ([Event.target_disable_irq, Event.target_enable_irq] ++
        (if s.txFrame = none then [Event.jd_tx_get_frame] else []) ++
        [Event.jd_debug_signal_write 1, Event.uart_start_tx f (JD_FRAME_SIZE d f)]) ∧
      S.status = s.status ||| JD_STATUS_TX_ACTIVE ∧ S.txPending = 0 ∧ S.txFrame = some f ∧
      S.jd_diagnostics = s.jd_diagnostics ∧
      flush_tx_queue d env s =
        if env.uart_start_tx f (JD_FRAME_SIZE d f) < 0 then
          { tx_done d env { S with jd_diagnostics :=
              { S.jd_diagnostics with bus_lo_error := S.jd_diagnostics.bus_lo_error + 1 } } with
            txPending := 1 }
        else set_tick_timer d env 0 S := by
  have hb : ¬ s.status &&& (JD_STATUS_RX_ACTIVE ||| JD_STATUS_TX_ACTIVE) ≠ 0 := not_not.mpr hidle
  rcases hframe with htx | ⟨htx, hq⟩
  · refine ⟨emit (Event.uart_start_tx f (JD_FRAME_SIZE d f)) (emit (Event.jd_debug_signal_write 1)
      { emit Event.target_enable_irq
          { emit Event.target_disable_irq s with status := s.status ||| JD_STATUS_TX_ACTIVE } with
        txPending := 0 }), ?_, rfl, rfl, htx, rfl, ?_⟩
    · simp [emit, htx]
    · simp only [flush_tx_queue, emit_status, emit_txFrame]
      rw [if_neg hb]
      simp only [htx]
  · refine ⟨emit (Event.uart_start_tx f (JD_FRAME_SIZE d f)) (emit (Event.jd_debug_signal_write 1)
      { emit Event.jd_tx_get_frame { emit Event.target_enable_irq
          { emit Event.target_disable_irq s with status := s.status ||| JD_STATUS_TX_ACTIVE } with
        txPending := 0 } with txFrame := some f }), ?_, rfl, rfl, rfl, rfl, ?_⟩
    · simp [emit, htx]
    · simp only [flush_tx_queue, emit_status, emit_txFrame]
      rw [if_neg hb]
      simp only [htx, hq]

theorem idle_of_bits (x : Nat) (h1 : x &&& JD_STATUS_RX_ACTIVE = 0)
    (h2 : x &&& JD_STATUS_TX_ACTIVE = 0) :
    x &&& (JD_STATUS_RX_ACTIVE ||| JD_STATUS_TX_ACTIVE) = 0 := by
  rw [Nat.and_or_distrib_left, h1, h2]
  rfl


/-- With the bus idle and a frame already claimed, `flush_tx_queue` goes straight to
`uart_start_tx` with that frame; what follows is the debug pin and the retime step. -/
theorem flush_tx_queue_claimed_calls (d : Decls) (env : Env) (s : Phys) (f : Frame)
    (hidle : s.status &&& (JD_STATUS_RX_ACTIVE ||| JD_STATUS_TX_ACTIVE) = 0)
    (htx : s.txFrame = some f) :
    ∃ evs, calls_since s (flush_tx_queue d env s) =
        [Event.target_disable_irq, Event.target_enable_irq, Event.jd_debug_signal_write 1,
          Event.uart_start_tx f (JD_FRAME_SIZE d f)] ++ evs ∧
      ∀ e ∈ evs, (e.is_retime || e == Event.jd_debug_signal_write 0) = true := by
  obtain ⟨S, hS, -, -, -, -, hfl⟩ := flush_tx_queue_sending d env s f hidle (Or.inl htx)
  rw [htx] at hS
  have hP : ∀ e : Event, e.is_retime = true →
      (e.is_retime || e == Event.jd_debug_signal_write 0) = true := by
    intro e he; simp [he]
  have hrest : calls_satisfy (fun e => e.is_retime || e == Event.jd_debug_signal_write 0) S
      (flush_tx_queue d env s) := by
    rw [hfl]
    split_ifs
    · exact calls_satisfy_of_trace _ S _ _ rfl
        (calls_satisfy_tx_done _ d env S _ hP (by decide)
          (calls_satisfy_of_trace _ S S _ rfl (calls_satisfy_refl _ S)))
    · exact calls_satisfy_set_tick_timer _ d env 0 S S hP (calls_satisfy_refl _ S)
  obtain ⟨evs, htr, hev⟩ := hrest
  refine ⟨evs, ?_, hev⟩
  apply calls_since_of_trace
  rw [htr, hS]
  simp

/-- C3: when `flush_tx_queue` runs with `JD_STATUS_RX_ACTIVE` or `JD_STATUS_TX_ACTIVE`
set, the attempt is deferred: its only calls are the interrupt mask pair (so neither
`uart_start_tx` nor `jd_tx_get_frame`), and status, txPending and txFrame are unchanged.
Conversely, whenever any entry point calls `uart_start_tx`, that entry point is
`flush_tx_queue` and `JD_STATUS_RX_ACTIVE` was clear in the status it tested. -/
theorem flush_tx_queue_defers_when_busy (d : Decls) (env : Env) (s : Phys)
    (hbusy : s.status &&& JD_STATUS_RX_ACTIVE ≠ 0 ∨ s.status &&& JD_STATUS_TX_ACTIVE ≠ 0) :
    (calls_since s (flush_tx_queue d env s) =
          [Event.target_disable_irq, Event.target_enable_irq] ∧
        (flush_tx_queue d env s).status = s.status ∧
        (flush_tx_queue d env s).txPending = s.txPending ∧
        (flush_tx_queue d env s).txFrame = s.txFrame) ∧
      ∀ (op : Op) (env1 : Env) (s1 t1 : Phys) (e : Event), step d op env1 s1 = some t1 →
        e ∈ calls_since s1 t1 → e.is_uart_start_tx = true →
        op = Op.flush_tx_queue ∧ s1.status &&& JD_STATUS_RX_ACTIVE = 0 := by
  have hb : s.status &&& (JD_STATUS_RX_ACTIVE ||| JD_STATUS_TX_ACTIVE) ≠ 0 := by
    intro h0
    rcases hbusy with h | h
    · exact h (idle_rx_clear _ h0)
    · exact h (idle_tx_clear _ h0)
  have hP : ∀ e : Event, e.is_retime = true → (!e.is_uart_start_tx) = true := by
    intro e he
    cases e <;> simp_all [Event.is_retime, Event.is_uart_start_tx]
  have hno : ∀ (s1 t1 : Phys) (e : Event),
      calls_satisfy (fun e => !e.is_uart_start_tx) s1 t1 → e ∈ calls_since s1 t1 →
      e.is_uart_start_tx = true → False := by
    intro s1 t1 e hc he hstart
    have := calls_satisfy_mem _ s1 t1 hc e he
    simp [hstart] at this
  refine ⟨?_, ?_⟩
  · rw [flush_tx_queue_busy d env s hb]
    exact ⟨calls_since_of_trace _ _ _ (by simp), rfl, rfl, rfl⟩
  · intro op env1 s1 t1 e hstep he hstart
    cases op with
    | _jd_phys_start =>
      simp only [step, Option.some.injEq] at hstep
      subst hstep
      exact (hno _ _ e (calls_satisfy_set_tick_timer _ d env1 0 s1 s1 hP
        (calls_satisfy_refl _ s1)) he hstart).elim
    | jd_packet_ready =>
      simp only [step, Option.some.injEq] at hstep
      subst hstep
      exact (hno _ _ e (calls_satisfy_jd_packet_ready _ d env1 s1 hP) he hstart).elim
    | jd_line_falling =>
      exact (hno _ _ e (calls_satisfy_jd_line_falling _ d env1 s1 t1 hP rfl (fun _ => rfl) rfl
        (fun _ => rfl) hstep) he hstart).elim
    | jd_rx_completed dataLeft =>
      simp only [step, Option.some.injEq] at hstep
      subst hstep
      exact (hno _ _ e (calls_satisfy_jd_rx_completed _ d env1 dataLeft s1 hP rfl
        (fun _ => rfl)) he hstart).elim
    | jd_tx_completed errCode =>
      simp only [step, Option.some.injEq] at hstep
      subst hstep
      refine (hno _ _ e ?_ he hstart).elim
      unfold jd_tx_completed
      exact calls_satisfy_tx_done _ d env1 s1 _ hP rfl
        (calls_satisfy_of_trace _ s1 (emit (Event.jd_tx_frame_sent s1.txFrame) s1) _ rfl
          (calls_satisfy_emit _ _ _ _ rfl (calls_satisfy_refl _ s1)))
    | tick =>
      simp only [step, tick] at hstep
      split_ifs at hstep
      cases hstep
      exact (hno _ _ e (calls_satisfy_set_tick_timer _ d env1 0 s1 s1 hP
        (calls_satisfy_refl _ s1)) he hstart).elim
    | flush_tx_queue =>
      simp only [step, Option.some.injEq] at hstep
      subst hstep
      refine ⟨rfl, ?_⟩
      by_contra hrx
      have hb1 : s1.status &&& (JD_STATUS_RX_ACTIVE ||| JD_STATUS_TX_ACTIVE) ≠ 0 :=
        fun h0 => hrx (idle_rx_clear _ h0)
      rw [flush_tx_queue_busy d env1 s1 hb1,
        calls_since_of_trace s1 _ [Event.target_disable_irq, Event.target_enable_irq]
          (by simp)] at he
      simp only [List.mem_cons, List.mem_singleton, List.not_mem_nil, or_false] at he
      rcases he with rfl | rfl <;> simp [Event.is_uart_start_tx] at hstart
    | setup_rx_timeout =>
      simp only [step, Option.some.injEq] at hstep
      subst hstep
      exact (hno _ _ e (calls_satisfy_setup_rx_timeout _ d env1 s1 hP rfl rfl rfl)
        he hstart).elim
    | rx_timeout =>
      simp only [step, Option.some.injEq] at hstep
      subst hstep
      exact (hno _ _ e (calls_satisfy_rx_timeout _ d env1 s1 s1 hP rfl rfl
        (calls_satisfy_refl _ s1)) he hstart).elim
    | uart_dma bytes =>
      simp only [step, Option.some.injEq] at hstep
      subst hstep
      exact (hno _ _ e (calls_satisfy_of_trace _ s1 s1 _ rfl (calls_satisfy_refl _ s1))
        he hstart).elim


theorem flush_tx_queue_defers_when_busy_witness :
    (receiving_with_pending.status &&& JD_STATUS_RX_ACTIVE ≠ 0 ∨
        receiving_with_pending.status &&& JD_STATUS_TX_ACTIVE ≠ 0) ∧
      ((calls_since receiving_with_pending (flush_tx_queue jacdac quiet receiving_with_pending) =
            [Event.target_disable_irq, Event.target_enable_irq] ∧
          (flush_tx_queue jacdac quiet receiving_with_pending).status =
            receiving_with_pending.status ∧
          (flush_tx_queue jacdac quiet receiving_with_pending).txPending =
            receiving_with_pending.txPending ∧
          (flush_tx_queue jacdac quiet receiving_with_pending).txFrame =
            receiving_with_pending.txFrame) ∧
        ∀ (op : Op) (env1 : Env) (s1 t1 : Phys) (e : Event), step jacdac op env1 s1 = some t1 →
          e ∈ calls_since s1 t1 → e.is_uart_start_tx = true →
          op = Op.flush_tx_queue ∧ s1.status &&& JD_STATUS_RX_ACTIVE = 0) :=
  ⟨Or.inl (by decide),
    flush_tx_queue_defers_when_busy jacdac quiet receiving_with_pending (Or.inl (by decide))⟩

/-- C4: when `flush_tx_queue` runs with `JD_STATUS_RX_ACTIVE` and `JD_STATUS_TX_ACTIVE`
clear, a frame is available (already claimed, or returned by `jd_tx_get_frame`) and
`uart_start_tx` returns a negative value, then on return txPending is 1,
`JD_STATUS_TX_ACTIVE` is clear, txFrame still holds the claimed frame, `jd_tx_frame_sent`
was not called and `bus_lo_error` has grown by exactly one; a flush that follows hands
the same frame to `uart_start_tx` without calling `jd_tx_get_frame`. -/
theorem flush_tx_queue_start_failure (d : Decls) (env : Env) (s : Phys) (f : Frame)
    (hrx : s.status &&& JD_STATUS_RX_ACTIVE = 0) (htx : s.status &&& JD_STATUS_TX_ACTIVE = 0)
    (hframe : s.txFrame = some f ∨ (s.txFrame = none ∧ env.jd_tx_get_frame = some f))
    (hfail : env.uart_start_tx f (JD_FRAME_SIZE d f) < 0) :
    (flush_tx_queue d env s).txPending = 1 ∧
      (flush_tx_queue d env s).status &&& JD_STATUS_TX_ACTIVE = 0 ∧
      (flush_tx_queue d env s).txFrame = some f ∧
      (∀ e ∈ calls_since s (flush_tx_queue d env s), e.is_jd_tx_frame_sent = false) ∧
      (flush_tx_queue d env s).jd_diagnostics.bus_lo_error =
        s.jd_diagnostics.bus_lo_error + 1 ∧
      ∀ env2 : Env, ∃ evs,
        calls_since (flush_tx_queue d env s) (flush_tx_queue d env2 (flush_tx_queue d env s)) =
          [Event.target_disable_irq, Event.target_enable_irq, Event.jd_debug_signal_write 1,
            Event.uart_start_tx f (JD_FRAME_SIZE d f)] ++ evs ∧
        ∀ e ∈ evs, e ≠ Event.jd_tx_get_frame := by
  have hidle := idle_of_bits s.status hrx htx
  obtain ⟨S, hS, hSst, hSp, hSf, hSd, hfl⟩ := flush_tx_queue_sending d env s f hidle hframe
  rw [if_pos hfail] at hfl
  have hstatus_rx : (flush_tx_queue d env s).status &&& JD_STATUS_RX_ACTIVE = 0 := by
    rw [hfl]
    show (tx_done d env _).status &&& JD_STATUS_RX_ACTIVE = 0
    unfold tx_done
    rw [tx_done_keeps_rx]
    show S.status &&& 1 = 0
    rw [hSst, or_and_lit s.status 2 1 0 (by decide), Nat.or_zero]
    exact hrx
  have hstatus_tx : (flush_tx_queue d env s).status &&& JD_STATUS_TX_ACTIVE = 0 := by
    rw [hfl]
    show (tx_done d env _).status &&& JD_STATUS_TX_ACTIVE = 0
    unfold tx_done
    exact set_tick_timer_clears_tx d env _
  have hframe2 : (flush_tx_queue d env s).txFrame = some f := by
    rw [hfl]
    show (tx_done d env _).txFrame = some f
    unfold tx_done
    simpa using hSf
  refine ⟨by rw [hfl], hstatus_tx, hframe2, ?_, ?_, ?_⟩
  · have hP : ∀ e : Event, e.is_retime = true → (!e.is_jd_tx_frame_sent) = true := by
      intro e he
      cases e <;> simp_all [Event.is_retime, Event.is_jd_tx_frame_sent]
    have hS0 : calls_satisfy (fun e => !e.is_jd_tx_frame_sent) s S := by
      refine ⟨_, hS, ?_⟩
      intro e he
      have hcase : e = Event.target_disable_irq ∨ e = Event.target_enable_irq ∨
          e = Event.jd_tx_get_frame ∨ e = Event.jd_debug_signal_write 1 ∨
          e = Event.uart_start_tx f (JD_FRAME_SIZE d f) := by
        split_ifs at he <;> simp at he <;> tauto
      rcases hcase with rfl | rfl | rfl | rfl | rfl <;> rfl
    have hall : calls_satisfy (fun e => !e.is_jd_tx_frame_sent) s (flush_tx_queue d env s) := by
      rw [hfl]
      exact calls_satisfy_of_trace _ s _ _ rfl
        (calls_satisfy_tx_done _ d env s _ hP rfl (calls_satisfy_of_trace _ s S _ rfl hS0))
    intro e he
    have := calls_satisfy_mem _ _ _ hall e he
    simpa using this
  · rw [hfl]
    show (tx_done d env _).jd_diagnostics.bus_lo_error = _
    unfold tx_done
    simp [hSd]
  · intro env2
    obtain ⟨evs, hcalls, hev⟩ := flush_tx_queue_claimed_calls d env2 (flush_tx_queue d env s) f
      (idle_of_bits _ hstatus_rx hstatus_tx) hframe2
    refine ⟨evs, hcalls, ?_⟩
    intro e he hget
    have := hev e he
    rw [hget] at this
    simp [Event.is_retime] at this

theorem flush_tx_queue_start_failure_witness :
    (flush_tx_queue jacdac (tx_race good_frame) queued).txPending = 1 ∧
      (flush_tx_queue jacdac (tx_race good_frame) queued).status &&& JD_STATUS_TX_ACTIVE = 0 ∧
      (flush_tx_queue jacdac (tx_race good_frame) queued).txFrame = some good_frame ∧
      (∀ e ∈ calls_since queued (flush_tx_queue jacdac (tx_race good_frame) queued),
        e.is_jd_tx_frame_sent = false) ∧
      (flush_tx_queue jacdac (tx_race good_frame) queued).jd_diagnostics.bus_lo_error =
        queued.jd_diagnostics.bus_lo_error + 1 ∧
      ∀ env2 : Env, ∃ evs,
        calls_since (flush_tx_queue jacdac (tx_race good_frame) queued)
            (flush_tx_queue jacdac env2 (flush_tx_queue jacdac (tx_race good_frame) queued)) =
          [Event.target_disable_irq, Event.target_enable_irq, Event.jd_debug_signal_write 1,
            Event.uart_start_tx good_frame (JD_FRAME_SIZE jacdac good_frame)] ++ evs ∧
        ∀ e ∈ evs, e ≠ Event.jd_tx_get_frame :=
  flush_tx_queue_start_failure jacdac (tx_race good_frame) queued good_frame
    (by decide) (by decide) (Or.inr ⟨by decide, by decide⟩) (by decide)


/-! ## Signalling a queued packet -/

theorem jd_packet_ready_txPending (d : Decls) (env : Env) (s : Phys) :
    (jd_packet_ready d env s).txPending = 1 := by
  simp only [jd_packet_ready, emit_txPending]
  split_ifs
  · rw [set_tick_timer_txPending]
  · rfl

theorem jd_packet_ready_status_ne_zero (d : Decls) (env : Env) (s : Phys) :
    (jd_packet_ready d env s).status ≠ 0 := by
  simp only [jd_packet_ready, emit_status]
  split_ifs with h0
  · rw [set_tick_timer_status]
    simp only [emit_status, emit_txPending] at h0 ⊢
    rw [h0]
    decide
  · exact h0

theorem jd_packet_ready_when_signalled (d : Decls) (env : Env) (u : Phys)
    (hst : u.status ≠ 0) (hp : u.txPending = 1) :
    jd_packet_ready d env u =
      { u with trace := u.trace ++ [Event.target_disable_irq, Event.target_enable_irq] } := by
  simp only [jd_packet_ready, emit_status]
  rw [if_neg hst]
  cases u
  simp only [emit] at hp ⊢
  subst hp
  simp

/-- C5: `jd_packet_ready` is idempotent. A second call right after the first leaves status,
txPending, txFrame, the diagnostics, the armed timer, the receive buffer and nextAnnounce
as the first call left them, and its only calls are the interrupt mask pair: it arms no
timer and draws no random delay. -/
theorem jd_packet_ready_idempotent (d : Decls) (env env2 : Env) (s : Phys) :
    (jd_packet_ready d env2 (jd_packet_ready d env s)).status =
        (jd_packet_ready d env s).status ∧
      (jd_packet_ready d env2 (jd_packet_ready d env s)).txPending =
        (jd_packet_ready d env s).txPending ∧
      (jd_packet_ready d env2 (jd_packet_ready d env s)).txFrame =
        (jd_packet_ready d env s).txFrame ∧
      (jd_packet_ready d env2 (jd_packet_ready d env s)).jd_diagnostics =
        (jd_packet_ready d env s).jd_diagnostics ∧
      (jd_packet_ready d env2 (jd_packet_ready d env s)).timer =
        (jd_packet_ready d env s).timer ∧
      (jd_packet_ready d env2 (jd_packet_ready d env s)).rxFrame =
        (jd_packet_ready d env s).rxFrame ∧
      (jd_packet_ready d env2 (jd_packet_ready d env s)).nextAnnounce =
        (jd_packet_ready d env s).nextAnnounce ∧
      calls_since (jd_packet_ready d env s)
          (jd_packet_ready d env2 (jd_packet_ready d env s)) =
        [Event.target_disable_irq, Event.target_enable_irq] := by
  rw [jd_packet_ready_when_signalled d env2 _ (jd_packet_ready_status_ne_zero d env s)
    (jd_packet_ready_txPending d env s)]
  exact ⟨rfl, rfl, rfl, rfl, rfl, rfl, rfl, calls_since_of_trace _ _ _ rfl⟩

/-! ## The secondary check of a reception -/

theorem load32_eq_zero (f : Frame) (i : Nat)
    (h : ∀ j, j < 4 → load8 f (4 * i + j) = 0) : load32 f i = 0 := by
  have h0 := h 0 (by omega)
  have h1 := h 1 (by omega)
  have h2 := h 2 (by omega)
  have h3 := h 3 (by omega)
  simp only [Nat.add_zero] at h0
  simp [load32, h0, h1, h2, h3]

theorem setup_rx_timeout_abandons (d : Decls) (env : Env) (s : Phys)
    (hrx : s.status &&& JD_STATUS_RX_ACTIVE ≠ 0)
    (hzero : ∀ i, i < 8 → load8 (env.uart_flush_rx s.rxFrame) i = 0) :
    setup_rx_timeout d env s =
      rx_timeout d env { emit Event.uart_flush_rx s with rxFrame := env.uart_flush_rx s.rxFrame } := by
  have h0 : load32 (env.uart_flush_rx s.rxFrame) 0 = 0 :=
    load32_eq_zero _ 0 (fun j hj => hzero _ (by omega))
  have h1 : load32 (env.uart_flush_rx s.rxFrame) 1 = 0 :=
    load32_eq_zero _ 1 (fun j hj => hzero _ (by omega))
  simp only [setup_rx_timeout, emit_rxFrame]
  rw [if_pos hrx, if_pos ⟨h0, h1⟩]

theorem rx_timeout_jd_diagnostics (d : Decls) (env : Env) (s : Phys) :
    (rx_timeout d env s).jd_diagnostics =
      { s.jd_diagnostics with bus_timeout_error := s.jd_diagnostics.bus_timeout_error + 1 } := by
  simp [rx_timeout]

/-- The calls of `rx_timeout`: the receiver is disabled, then the retime step runs. -/
theorem rx_timeout_calls (d : Decls) (env : Env) (s : Phys) :
    ∃ evs, (rx_timeout d env s).trace = s.trace ++
        ([Event.target_disable_irq, Event.uart_disable, Event.jd_debug_signal_read 0] ++ evs ++
          [Event.target_enable_irq]) ∧
      ∀ e ∈ evs, e.is_retime = true := by
  obtain ⟨evs, htr, hev⟩ := set_tick_timer_calls d env JD_STATUS_RX_ACTIVE
    (emit (Event.jd_debug_signal_read 0) (emit Event.uart_disable
      { emit Event.target_disable_irq s with jd_diagnostics :=
        { s.jd_diagnostics with bus_timeout_error := s.jd_diagnostics.bus_timeout_error + 1 } }))
  refine ⟨evs, ?_, hev⟩
  show (emit Event.target_enable_irq (set_tick_timer d env JD_STATUS_RX_ACTIVE
    (emit (Event.jd_debug_signal_read 0) (emit Event.uart_disable
      { emit Event.target_disable_irq s with jd_diagnostics :=
        { s.jd_diagnostics with
          bus_timeout_error := s.jd_diagnostics.bus_timeout_error + 1 } })))).trace = _
  rw [emit_trace, htr]
  simp [emit]

/-- C10: when `setup_rx_timeout` runs with `JD_STATUS_RX_ACTIVE` set and the first eight
bytes of rxFrame (as read after `uart_flush_rx`) are still zero, it adds exactly one to
`bus_timeout_error`, calls `uart_disable`, leaves `JD_STATUS_RX_ACTIVE` clear, forwards
nothing and leaves `packets_received`, `packets_dropped` and `bus_uart_error` alone. -/
theorem setup_rx_timeout_no_header (d : Decls) (env : Env) (s : Phys)
    (hrx : s.status &&& JD_STATUS_RX_ACTIVE ≠ 0)
    (hzero : ∀ i, i < 8 → load8 (env.uart_flush_rx s.rxFrame) i = 0) :
    (setup_rx_timeout d env s).jd_diagnostics.bus_timeout_error =
        s.jd_diagnostics.bus_timeout_error + 1 ∧
      Event.uart_disable ∈ calls_since s (setup_rx_timeout d env s) ∧
      (setup_rx_timeout d env s).status &&& JD_STATUS_RX_ACTIVE = 0 ∧
      forwarded_frames (calls_since s (setup_rx_timeout d env s)) = [] ∧
      (setup_rx_timeout d env s).jd_diagnostics.packets_received =
        s.jd_diagnostics.packets_received ∧
      (setup_rx_timeout d env s).jd_diagnostics.packets_dropped =
        s.jd_diagnostics.packets_dropped ∧
      (setup_rx_timeout d env s).jd_diagnostics.bus_uart_error =
        s.jd_diagnostics.bus_uart_error := by
  rw [setup_rx_timeout_abandons d env s hrx hzero]
  obtain ⟨evs, htr, hev⟩ := rx_timeout_calls d env
    { emit Event.uart_flush_rx s with rxFrame := env.uart_flush_rx s.rxFrame }
  have hcalls := calls_since_of_trace s _
    ([Event.uart_flush_rx] ++ ([Event.target_disable_irq, Event.uart_disable,
      Event.jd_debug_signal_read 0] ++ evs ++ [Event.target_enable_irq]))
    (by rw [htr]; simp [emit])
  refine ⟨by rw [rx_timeout_jd_diagnostics]; rfl, ?_, rx_timeout_status d env _, ?_,
    by rw [rx_timeout_jd_diagnostics]; rfl, by rw [rx_timeout_jd_diagnostics]; rfl,
    by rw [rx_timeout_jd_diagnostics]; rfl⟩
  · rw [hcalls]; simp
  · rw [hcalls]
    simp only [forwarded_frames_append, forwarded_frames_retime evs hev]
    rfl

theorem setup_rx_timeout_no_header_witness :
    (setup_rx_timeout jacdac quiet (receiving [])).jd_diagnostics.bus_timeout_error =
        (receiving []).jd_diagnostics.bus_timeout_error + 1 ∧
      Event.uart_disable ∈ calls_since (receiving []) (setup_rx_timeout jacdac quiet (receiving [])) ∧
      (setup_rx_timeout jacdac quiet (receiving [])).status &&& JD_STATUS_RX_ACTIVE = 0 ∧
      forwarded_frames (calls_since (receiving []) (setup_rx_timeout jacdac quiet (receiving []))) =
        [] ∧
      (setup_rx_timeout jacdac quiet (receiving [])).jd_diagnostics.packets_received =
        (receiving []).jd_diagnostics.packets_received ∧
      (setup_rx_timeout jacdac quiet (receiving [])).jd_diagnostics.packets_dropped =
        (receiving []).jd_diagnostics.packets_dropped ∧
      (setup_rx_timeout jacdac quiet (receiving [])).jd_diagnostics.bus_uart_error =
        (receiving []).jd_diagnostics.bus_uart_error :=
  setup_rx_timeout_no_header jacdac quiet (receiving []) (by decide) (by decide)


/-! ## The falling edge -/

/-- C11: `jd_line_falling` ends in `jd_panic()` if and only if `JD_STATUS_RX_ACTIVE` is
already set in status at entry; with it clear the handler returns, whatever the other
status bits, txPending and the answer of `uart_wait_high` are. -/
theorem jd_line_falling_panics_iff (d : Decls) (env : Env) (s : Phys) :
    jd_line_falling d env s = none ↔ s.status &&& JD_STATUS_RX_ACTIVE ≠ 0 := by
  simp only [jd_line_falling, emit_status]
  split_ifs <;> simp_all

theorem zero_words_getD (f : Frame) (i : Nat) :
    (zero_words f).getD i 0 = if i < 16 then 0 else f.getD i 0 := by
  unfold zero_words
  simp only [List.getD_eq_getElem?_getD, List.getElem?_append, List.length_replicate,
    List.getElem?_replicate, List.getElem?_drop]
  by_cases h16 : i < 16
  · by_cases hlen : i < f.length
    · simp [h16, hlen]
    · have h1 : ¬ i < min 16 f.length := by omega
      have h2 : f.length ≤ 16 + (i - min 16 f.length) := by omega
      simp [h16, h1, List.getElem?_eq_none h2]
  · by_cases hlen : 16 ≤ f.length
    · have h1 : ¬ i < min 16 f.length := by omega
      have h2 : 16 + (i - min 16 f.length) = i := by omega
      simp [h16, h1, h2]
    · have h1 : ¬ i < min 16 f.length := by omega
      have h2 : f.length ≤ 16 + (i - min 16 f.length) := by omega
      have h3 : f.length ≤ i := by omega
      simp [h16, h1, List.getElem?_eq_none h2, List.getElem?_eq_none h3]

theorem zero_words_length (f : Frame) : (zero_words f).length = f.length := by
  unfold zero_words
  simp only [List.length_append, List.length_replicate, List.length_drop]
  omega

@[simp] theorem rx_timeout_rxFrame (d : Decls) (env : Env) (s : Phys) :
    (rx_timeout d env s).rxFrame = s.rxFrame := by
  simp [rx_timeout]

/-- With `JD_STATUS_RX_ACTIVE` clear, `jd_line_falling` returns, and the receive buffer it
leaves is the old one with its first sixteen bytes zeroed. -/
theorem jd_line_falling_rxFrame (d : Decls) (env : Env) (s : Phys)
    (hrx : s.status &&& JD_STATUS_RX_ACTIVE = 0) :
    ∃ t, jd_line_falling d env s = some t ∧ t.rxFrame = zero_words s.rxFrame := by
  simp only [jd_line_falling, emit_status, emit_rxFrame]
  rw [if_neg (not_not.mpr hrx)]
  split_ifs
  · exact ⟨_, rfl, by simp⟩
  · exact ⟨_, rfl, rfl⟩
  · exact ⟨_, rfl, rfl⟩

/-- C15, as the code has it: entered with `JD_STATUS_RX_ACTIVE` clear, `jd_line_falling`
returns with the first sixteen bytes of the receive buffer (the four 32-bit words it
stores to) zero and every later byte as it was before; the buffer is in that state when
`uart_start_rx(&rxFrame, sizeof(rxFrame))` is called, which happens whenever
`uart_wait_high` succeeds. -/
theorem jd_line_falling_clears_header (d : Decls) (env : Env) (s : Phys)
    (hrx : s.status &&& JD_STATUS_RX_ACTIVE = 0) :
    ∃ t, jd_line_falling d env s = some t ∧
      (∀ i, t.rxFrame.getD i 0 = if i < 16 then 0 else s.rxFrame.getD i 0) ∧
      t.rxFrame.length = s.rxFrame.length ∧
      (0 ≤ env.uart_wait_high →
        Event.uart_start_rx d.sizeof_jd_frame_t ∈ calls_since s t) := by
  obtain ⟨t, ht, hbuf⟩ := jd_line_falling_rxFrame d env s hrx
  refine ⟨t, ht, ?_, ?_, ?_⟩
  · intro i; rw [hbuf]; exact zero_words_getD _ i
  · rw [hbuf]; exact zero_words_length _
  · intro hwait
    simp only [jd_line_falling, emit_status] at ht
    rw [if_neg (not_not.mpr hrx), if_neg (not_lt.mpr hwait)] at ht
    split_ifs at ht
    · cases ht
      rw [calls_since_of_trace s _ [Event.jd_debug_signal_read 1, Event.uart_wait_high,
        Event.uart_start_rx d.sizeof_jd_frame_t, Event.tim_set_timer 250 Callback.setup_rx_timeout]
        (by simp [tim_set_timer, emit])]
      simp
    · cases ht
      rw [calls_since_of_trace s _ [Event.jd_debug_signal_read 1, Event.uart_wait_high,
        Event.uart_start_rx d.sizeof_jd_frame_t] (by simp [emit])]
      simp

theorem jd_line_falling_clears_header_witness :
    ∃ t, jd_line_falling jacdac quiet idle_with_stale_buffer = some t ∧
      (∀ i, t.rxFrame.getD i 0 =
        if i < 16 then 0 else idle_with_stale_buffer.rxFrame.getD i 0) ∧
      t.rxFrame.length = idle_with_stale_buffer.rxFrame.length ∧
      (0 ≤ quiet.uart_wait_high →
        Event.uart_start_rx jacdac.sizeof_jd_frame_t ∈ calls_since idle_with_stale_buffer t) :=
  jd_line_falling_clears_header jacdac quiet idle_with_stale_buffer (by decide)

set_option maxRecDepth 100000 in
/-- C15 fails as stated: after an earlier 20-byte reception, the next falling edge arms
the receiver (`uart_start_rx` is called) with bytes 16 to 19 of the receive buffer still
holding the old data. -/
theorem stale_bytes_survive_line_falling :
    (jd_line_falling jacdac quiet idle_with_stale_buffer).map
      (fun t => (decide (Event.uart_start_rx jacdac.sizeof_jd_frame_t ∈
          calls_since idle_with_stale_buffer t),
        load8 t.rxFrame 16, load8 t.rxFrame 17, load8 t.rxFrame 18, load8 t.rxFrame 19)) =
      some (true, 0xaa, 0xbb, 0xcc, 0xdd) := by
  decide


/-! ## The retime step, call by call -/

/-- The calls of the retime step, written out. -/
theorem set_tick_timer_calls_eq (d : Decls) (env : Env) (c : Nat) (s : Phys) :
    calls_since s (set_tick_timer d env c s) =
      [Event.target_disable_irq] ++
        (if (if c ≠ 0 then s.status &&& (255 ^^^ c) else s.status) &&& 1 = 0 then
          if s.txPending ≠ 0 ∧ (if c ≠ 0 then s.status &&& (255 ^^^ c) else s.status) &&& 2 = 0 then
            [Event.jd_random_around 150,
              Event.tim_set_timer (env.jd_random_around 150 - d.JD_WR_OVERHEAD)
                Callback.flush_tx_queue]
          else [Event.tim_set_timer 10000 Callback.tick]
        else []) ++ [Event.target_enable_irq] := by
  apply calls_since_of_trace
  unfold set_tick_timer
  simp only [emit, tim_set_timer]
  split_ifs <;> simp

/-- The timer slot after the retime step. -/
theorem set_tick_timer_timer (d : Decls) (env : Env) (c : Nat) (s : Phys) :
    (set_tick_timer d env c s).timer =
      if (if c ≠ 0 then s.status &&& (255 ^^^ c) else s.status) &&& 1 = 0 then
        if s.txPending ≠ 0 ∧ (if c ≠ 0 then s.status &&& (255 ^^^ c) else s.status) &&& 2 = 0 then
          some (env.jd_random_around 150 - d.JD_WR_OVERHEAD, Callback.flush_tx_queue)
        else some (10000, Callback.tick)
      else s.timer := by
  unfold set_tick_timer
  simp only [emit, tim_set_timer]
  split_ifs <;> rfl

/-! ## `jd_is_running` and `jd_is_busy` -/

theorem step_nextAnnounce (d : Decls) (op : Op) (env : Env) (s t : Phys)
    (h : step d op env s = some t) : t.nextAnnounce = s.nextAnnounce := by
  cases op with
  | _jd_phys_start =>
    simp only [step, Option.some.injEq] at h
    subst h
    simp [_jd_phys_start]
  | jd_packet_ready =>
    simp only [step, Option.some.injEq] at h
    subst h
    simp only [jd_packet_ready, emit_nextAnnounce]
    split_ifs <;> simp
  | jd_line_falling =>
    simp only [step, jd_line_falling] at h
    split_ifs at h <;> cases h <;> simp [rx_timeout, tim_set_timer, emit]
  | jd_rx_completed dataLeft =>
    simp only [step, Option.some.injEq] at h
    subst h
    simp only [jd_rx_completed]
    split_ifs <;>
      simp [bump_uart_error, bump_packets_dropped, bump_packets_received]
  | jd_tx_completed errCode =>
    simp only [step, Option.some.injEq] at h
    subst h
    simp [jd_tx_completed, tx_done]
  | tick =>
    simp only [step, tick] at h
    split_ifs at h
    cases h
    simp
  | flush_tx_queue =>
    simp only [step, Option.some.injEq] at h
    subst h
    simp only [flush_tx_queue]
    split_ifs
    · rfl
    · split
      · simp only [tx_done, set_tick_timer_nextAnnounce, emit_nextAnnounce]
        split <;> rfl
      · split_ifs
        · simp only [tx_done, set_tick_timer_nextAnnounce, emit_nextAnnounce]
          split <;> rfl
        · simp only [set_tick_timer_nextAnnounce, emit_nextAnnounce]
          split <;> rfl
  | setup_rx_timeout =>
    simp only [step, Option.some.injEq] at h
    subst h
    simp only [setup_rx_timeout]
    split_ifs <;> simp [rx_timeout, tim_set_timer, emit]
  | rx_timeout =>
    simp only [step, Option.some.injEq] at h
    subst h
    simp [rx_timeout]
  | uart_dma bytes =>
    simp only [step, Option.some.injEq] at h
    subst h
    rfl

theorem run_nextAnnounce (d : Decls) (ops : List (Op × Env)) :
    ∀ s t : Phys, run d ops s = some t → t.nextAnnounce = s.nextAnnounce := by
  induction ops with
  | nil =>
    intro s t h
    simp only [run, Option.some.injEq] at h
    rw [← h]
  | cons hd rest ih =>
    obtain ⟨op, env⟩ := hd
    intro s t h
    simp only [run] at h
    cases hstep : step d op env s with
    | none => rw [hstep] at h; simp at h
    | some u =>
      rw [hstep] at h
      simp only [Option.some_bind] at h
      rw [ih u t h, step_nextAnnounce d op env s u hstep]

/-- C20: in every state reachable from the initial state through the operations of this
file (`_jd_phys_start` included) `jd_is_running` returns 0, since nextAnnounce starts at 0
and no operation assigns it; `jd_is_busy` returns non-zero exactly when status is
non-zero. -/
theorem jd_is_running_always_zero (d : Decls) (ops : List (Op × Env)) (t : Phys)
    (hrun : run d ops (Phys.init d) = some t) :
    jd_is_running t = 0 ∧ t.nextAnnounce = 0 ∧ (jd_is_busy t ≠ 0 ↔ t.status ≠ 0) := by
  have hn : t.nextAnnounce = 0 := run_nextAnnounce d ops _ t hrun
  refine ⟨by simp [jd_is_running, hn], hn, ?_⟩
  unfold jd_is_busy
  split_ifs with h <;> simp [h]

theorem jd_is_running_always_zero_witness :
    jd_is_running ((run jacdac start_then_receive (Phys.init jacdac)).getD (Phys.init jacdac)) = 0 ∧
      ((run jacdac start_then_receive (Phys.init jacdac)).getD (Phys.init jacdac)).nextAnnounce =
        0 ∧
      (jd_is_busy ((run jacdac start_then_receive (Phys.init jacdac)).getD (Phys.init jacdac)) ≠ 0 ↔
        ((run jacdac start_then_receive (Phys.init jacdac)).getD (Phys.init jacdac)).status ≠ 0) :=
  jd_is_running_always_zero jacdac start_then_receive
    ((run jacdac start_then_receive (Phys.init jacdac)).getD (Phys.init jacdac)) (by rfl)


/-! ## The secondary check after the reception is over -/

theorem mem_retime_calls (d : Decls) (env : Env) (c : Nat) (s : Phys) :
    ∀ e ∈ calls_since s (set_tick_timer d env c s), e.is_retime = true := by
  obtain ⟨evs, htr, hev⟩ := set_tick_timer_calls d env c s
  rw [calls_since_of_trace s _ evs htr]
  exact hev

/-- C16, as the code has it: when `setup_rx_timeout` runs with `JD_STATUS_RX_ACTIVE`
clear it performs exactly the retime step `set_tick_timer(0)`. It records no timeout and
changes no diagnostic, does not touch the receiver (no `uart_flush_rx`, no
`uart_disable`), leaves txPending, txFrame, the receive buffer, `JD_STATUS_RX_ACTIVE` and
`JD_STATUS_TX_ACTIVE` as they were; it does re-arm the timer and rewrite
`JD_STATUS_TX_QUEUED`: `flush_tx_queue` after the random delay with the flag set when a
transmission is pending and `JD_STATUS_TX_ACTIVE` is clear, the idle tick with the flag
cleared otherwise. -/
theorem setup_rx_timeout_after_reception (d : Decls) (env : Env) (s : Phys)
    (hrx : s.status &&& JD_STATUS_RX_ACTIVE = 0) :
    setup_rx_timeout d env s = set_tick_timer d env 0 s ∧
      (setup_rx_timeout d env s).jd_diagnostics = s.jd_diagnostics ∧
      (setup_rx_timeout d env s).txPending = s.txPending ∧
      (setup_rx_timeout d env s).txFrame = s.txFrame ∧
      (setup_rx_timeout d env s).rxFrame = s.rxFrame ∧
      (setup_rx_timeout d env s).status &&& JD_STATUS_RX_ACTIVE = 0 ∧
      (setup_rx_timeout d env s).status &&& JD_STATUS_TX_ACTIVE =
        s.status &&& JD_STATUS_TX_ACTIVE ∧
      (∀ e ∈ calls_since s (setup_rx_timeout d env s), e.is_retime = true) ∧
      (setup_rx_timeout d env s).status =
        (if s.txPending ≠ 0 ∧ s.status &&& JD_STATUS_TX_ACTIVE = 0 then
          s.status ||| JD_STATUS_TX_QUEUED
        else s.status &&& (255 ^^^ JD_STATUS_TX_QUEUED)) ∧
      (setup_rx_timeout d env s).timer =
        (if s.txPending ≠ 0 ∧ s.status &&& JD_STATUS_TX_ACTIVE = 0 then
          some (env.jd_random_around 150 - d.JD_WR_OVERHEAD, Callback.flush_tx_queue)
        else some (10000, Callback.tick)) := by
  have hrx1 : s.status &&& 1 = 0 := hrx
  have heq : setup_rx_timeout d env s = set_tick_timer d env 0 s := by
    simp only [setup_rx_timeout]
    rw [if_neg (not_not.mpr hrx)]
  rw [heq]
  refine ⟨rfl, by simp, by simp, by simp, by simp, ?_, set_tick_timer_keep_tx d env s,
    mem_retime_calls d env 0 s, ?_, ?_⟩
  · rw [set_tick_timer_keep_rx]; exact hrx
  · rw [set_tick_timer_status]
    simp only [ne_eq, not_true_eq_false, if_false, hrx1, if_true]
    rfl
  · rw [set_tick_timer_timer]
    simp only [ne_eq, not_true_eq_false, if_false, hrx1, if_true]

theorem setup_rx_timeout_after_reception_witness :
    setup_rx_timeout jacdac quiet retry_pending = set_tick_timer jacdac quiet 0 retry_pending ∧
      (setup_rx_timeout jacdac quiet retry_pending).jd_diagnostics =
        retry_pending.jd_diagnostics ∧
      (setup_rx_timeout jacdac quiet retry_pending).txPending = retry_pending.txPending ∧
      (setup_rx_timeout jacdac quiet retry_pending).txFrame = retry_pending.txFrame ∧
      (setup_rx_timeout jacdac quiet retry_pending).rxFrame = retry_pending.rxFrame ∧
      (setup_rx_timeout jacdac quiet retry_pending).status &&& JD_STATUS_RX_ACTIVE = 0 ∧
      (setup_rx_timeout jacdac quiet retry_pending).status &&& JD_STATUS_TX_ACTIVE =
        retry_pending.status &&& JD_STATUS_TX_ACTIVE ∧
      (∀ e ∈ calls_since retry_pending (setup_rx_timeout jacdac quiet retry_pending),
        e.is_retime = true) ∧
      (setup_rx_timeout jacdac quiet retry_pending).status =
        (if retry_pending.txPending ≠ 0 ∧ retry_pending.status &&& JD_STATUS_TX_ACTIVE = 0 then
          retry_pending.status ||| JD_STATUS_TX_QUEUED
        else retry_pending.status &&& (255 ^^^ JD_STATUS_TX_QUEUED)) ∧
      (setup_rx_timeout jacdac quiet retry_pending).timer =
        (if retry_pending.txPending ≠ 0 ∧ retry_pending.status &&& JD_STATUS_TX_ACTIVE = 0 then
          some (quiet.jd_random_around 150 - jacdac.JD_WR_OVERHEAD, Callback.flush_tx_queue)
        else some (10000, Callback.tick)) :=
  setup_rx_timeout_after_reception jacdac quiet retry_pending (by decide)

/-- C16 fails as stated: run with `JD_STATUS_RX_ACTIVE` clear after a flush whose
`uart_start_tx` failed, `setup_rx_timeout` changes status from 0 to
`JD_STATUS_TX_QUEUED` and replaces the armed idle tick by `flush_tx_queue`; run in the
initial state it arms the idle tick where no timer was armed. -/
theorem setup_rx_timeout_rearms_timer :
    (retry_pending.status &&& JD_STATUS_RX_ACTIVE = 0 ∧
      retry_pending.status = 0 ∧
      (setup_rx_timeout jacdac quiet retry_pending).status = JD_STATUS_TX_QUEUED ∧
      retry_pending.timer = some (10000, Callback.tick) ∧
      (setup_rx_timeout jacdac quiet retry_pending).timer =
        some (142, Callback.flush_tx_queue)) ∧
    ((Phys.init jacdac).timer = none ∧
      (setup_rx_timeout jacdac quiet (Phys.init jacdac)).timer = some (10000, Callback.tick) ∧
      Event.tim_set_timer 10000 Callback.tick ∈
        calls_since (Phys.init jacdac) (setup_rx_timeout jacdac quiet (Phys.init jacdac))) := by
  decide

/-! ## Completion of a transmission -/

theorem or_and_self_lit (x m : Nat) : (x ||| m) &&& m = m := by
  apply Nat.eq_of_testBit_eq
  intro i
  simp only [Nat.testBit_and, Nat.testBit_or]
  cases x.testBit i <;> cases m.testBit i <;> rfl

theorem or_lit_ne_zero (x m : Nat) (hm : m ≠ 0) : (x ||| m) &&& m ≠ 0 := by
  rw [or_and_self_lit]; exact hm

/-- The log after the retime step, written out. -/
theorem set_tick_timer_trace_eq (d : Decls) (env : Env) (c : Nat) (s : Phys) :
    (set_tick_timer d env c s).trace = s.trace ++ calls_since s (set_tick_timer d env c s) := by
  obtain ⟨evs, htr, -⟩ := set_tick_timer_calls d env c s
  rw [calls_since_of_trace s _ evs htr, htr]

/-- C13: with `JD_STATUS_TX_ACTIVE` set and `JD_STATUS_RX_ACTIVE` clear, `jd_tx_completed`
calls `jd_tx_frame_sent` once, on the claimed txFrame, sets txFrame to NULL, clears
`JD_STATUS_TX_ACTIVE` and does not call `uart_start_tx`. If txPending is set it sets
`JD_STATUS_TX_QUEUED` and arms `flush_tx_queue` after the random delay; otherwise it
clears `JD_STATUS_TX_QUEUED` and arms the idle tick. The result is the same for every
errCode. -/
theorem jd_tx_completed_releases_bus (d : Decls) (env : Env) (errCode : Int) (s : Phys)
    (_htx : s.status &&& JD_STATUS_TX_ACTIVE ≠ 0) (hrx : s.status &&& JD_STATUS_RX_ACTIVE = 0) :
    calls_since s (jd_tx_completed d env errCode s) =
        [Event.jd_tx_frame_sent s.txFrame, Event.jd_debug_signal_write 0,
          Event.target_disable_irq] ++
        (if s.txPending ≠ 0 then
          [Event.jd_random_around 150,
            Event.tim_set_timer (env.jd_random_around 150 - d.JD_WR_OVERHEAD)
              Callback.flush_tx_queue]
        else [Event.tim_set_timer 10000 Callback.tick]) ++ [Event.target_enable_irq] ∧
      (jd_tx_completed d env errCode s).txFrame = none ∧
      (jd_tx_completed d env errCode s).txPending = s.txPending ∧
      (jd_tx_completed d env errCode s).status &&& JD_STATUS_TX_ACTIVE = 0 ∧
      (s.txPending ≠ 0 →
        (jd_tx_completed d env errCode s).status &&& JD_STATUS_TX_QUEUED ≠ 0 ∧
        (jd_tx_completed d env errCode s).timer =
          some (env.jd_random_around 150 - d.JD_WR_OVERHEAD, Callback.flush_tx_queue)) ∧
      (s.txPending = 0 →
        (jd_tx_completed d env errCode s).status &&& JD_STATUS_TX_QUEUED = 0 ∧
        (jd_tx_completed d env errCode s).timer = some (10000, Callback.tick)) ∧
      ∀ errCode2 : Int, jd_tx_completed d env errCode2 s = jd_tx_completed d env errCode s := by
  have h1 : (s.status &&& 253) &&& 1 = 0 := by
    rw [and_and_lit s.status 253 1 1 (by decide)]; exact hrx
  have h2 : (s.status &&& 253) &&& 2 = 0 := by
    rw [and_and_lit s.status 253 2 0 (by decide)]; simp
  have hdef : jd_tx_completed d env errCode s = set_tick_timer d env JD_STATUS_TX_ACTIVE
      (emit (Event.jd_debug_signal_write 0)
        { emit (Event.jd_tx_frame_sent s.txFrame) s with txFrame := none }) := rfl
  rw [hdef]
  refine ⟨?_, by simp, by simp, set_tick_timer_clears_tx d env _, ?_, ?_, fun _ => rfl⟩
  · apply calls_since_of_trace
    rw [set_tick_timer_trace_eq, set_tick_timer_calls_eq]
    simp only [emit_status, emit_txPending, emit_trace]
    have hc : (JD_STATUS_TX_ACTIVE ≠ 0) = True := by simp
    simp only [hc, if_true]
    show _ ++ ([Event.target_disable_irq] ++
      (if (s.status &&& 253) &&& 1 = 0 then
        if s.txPending ≠ 0 ∧ (s.status &&& 253) &&& 2 = 0 then _ else _
      else []) ++ [Event.target_enable_irq]) = _
    rw [h1, h2]
    by_cases hp : s.txPending = 0 <;> simp [hp, emit]
  · intro hp
    rw [set_tick_timer_status, set_tick_timer_timer]
    simp only [emit_status, emit_txPending]
    have hc : (JD_STATUS_TX_ACTIVE ≠ 0) = True := by simp
    simp only [hc, if_true]
    show (if (s.status &&& 253) &&& 1 = 0 then
        if s.txPending ≠ 0 ∧ (s.status &&& 253) &&& 2 = 0 then (s.status &&& 253) ||| 4
        else (s.status &&& 253) &&& 251
      else s.status &&& 253) &&& 4 ≠ 0 ∧
      (if (s.status &&& 253) &&& 1 = 0 then
        if s.txPending ≠ 0 ∧ (s.status &&& 253) &&& 2 = 0 then _ else _
      else _) = _
    rw [h1, h2]
    simp only [if_true, hp, ne_eq, not_false_eq_true, and_self]
    exact ⟨or_lit_ne_zero _ 4 (by decide), trivial⟩
  · intro hp
    rw [set_tick_timer_status, set_tick_timer_timer]
    simp only [emit_status, emit_txPending]
    have hc : (JD_STATUS_TX_ACTIVE ≠ 0) = True := by simp
    simp only [hc, if_true]
    show (if (s.status &&& 253) &&& 1 = 0 then
        if s.txPending ≠ 0 ∧ (s.status &&& 253) &&& 2 = 0 then (s.status &&& 253) ||| 4
        else (s.status &&& 253) &&& 251
      else s.status &&& 253) &&& 4 = 0 ∧
      (if (s.status &&& 253) &&& 1 = 0 then
        if s.txPending ≠ 0 ∧ (s.status &&& 253) &&& 2 = 0 then _ else _
      else _) = _
    rw [h1, h2]
    simp only [if_true, hp, ne_eq, not_true_eq_false, false_and, if_false]
    refine ⟨?_, trivial⟩
    rw [and_and_lit _ 251 4 0 (by decide)]
    simp


theorem jd_tx_completed_releases_bus_witness :
    calls_since transmitting (jd_tx_completed jacdac quiet 0 transmitting) =
        [Event.jd_tx_frame_sent transmitting.txFrame, Event.jd_debug_signal_write 0,
          Event.target_disable_irq] ++
        (if transmitting.txPending ≠ 0 then
          [Event.jd_random_around 150,
            Event.tim_set_timer (quiet.jd_random_around 150 - jacdac.JD_WR_OVERHEAD)
              Callback.flush_tx_queue]
        else [Event.tim_set_timer 10000 Callback.tick]) ++ [Event.target_enable_irq] ∧
      (jd_tx_completed jacdac quiet 0 transmitting).txFrame = none ∧
      (jd_tx_completed jacdac quiet 0 transmitting).txPending = transmitting.txPending ∧
      (jd_tx_completed jacdac quiet 0 transmitting).status &&& JD_STATUS_TX_ACTIVE = 0 ∧
      (transmitting.txPending ≠ 0 →
        (jd_tx_completed jacdac quiet 0 transmitting).status &&& JD_STATUS_TX_QUEUED ≠ 0 ∧
        (jd_tx_completed jacdac quiet 0 transmitting).timer =
          some (quiet.jd_random_around 150 - jacdac.JD_WR_OVERHEAD, Callback.flush_tx_queue)) ∧
      (transmitting.txPending = 0 →
        (jd_tx_completed jacdac quiet 0 transmitting).status &&& JD_STATUS_TX_QUEUED = 0 ∧
        (jd_tx_completed jacdac quiet 0 transmitting).timer = some (10000, Callback.tick)) ∧
      ∀ errCode2 : Int,
        jd_tx_completed jacdac quiet errCode2 transmitting =
          jd_tx_completed jacdac quiet 0 transmitting :=
  jd_tx_completed_releases_bus jacdac quiet 0 transmitting (by decide) (by decide)

/-! ## When the idle tick is armed -/

/-- C12, as the code has it: whenever the retime step `set_tick_timer` arms the idle tick
(`tim_set_timer(10000, tick)`), `JD_STATUS_RX_ACTIVE` is clear and no transmission is
waiting for a free bus, that is, txPending is 0 or `JD_STATUS_TX_ACTIVE` is set;
`JD_STATUS_TX_QUEUED` is clear and the timer slot holds the tick. -/
theorem idle_tick_armed_states (d : Decls) (env : Env) (c : Nat) (s : Phys)
    (harm : Event.tim_set_timer 10000 Callback.tick ∈
      calls_since s (set_tick_timer d env c s)) :
    (set_tick_timer d env c s).status &&& JD_STATUS_RX_ACTIVE = 0 ∧
      ((set_tick_timer d env c s).txPending = 0 ∨
        (set_tick_timer d env c s).status &&& JD_STATUS_TX_ACTIVE ≠ 0) ∧
      (set_tick_timer d env c s).status &&& JD_STATUS_TX_QUEUED = 0 ∧
      (set_tick_timer d env c s).timer = some (10000, Callback.tick) := by
  rw [set_tick_timer_calls_eq] at harm
  rw [set_tick_timer_status, set_tick_timer_timer, set_tick_timer_txPending]
  generalize (if c ≠ 0 then s.status &&& (255 ^^^ c) else s.status) = x at harm ⊢
  by_cases h1 : x &&& 1 = 0
  · by_cases h2 : s.txPending ≠ 0 ∧ x &&& 2 = 0
    · rw [if_pos h1, if_pos h2] at harm
      simp at harm
    · rw [if_pos h1, if_neg h2, if_pos h1, if_neg h2]
      refine ⟨?_, ?_, ?_, rfl⟩
      · show (x &&& 251) &&& 1 = 0
        rw [and_and_lit x 251 1 1 (by decide)]; exact h1
      · by_cases hp : s.txPending = 0
        · exact Or.inl hp
        · right
          show (x &&& 251) &&& 2 ≠ 0
          rw [and_and_lit x 251 2 2 (by decide)]
          intro hx
          exact h2 ⟨hp, hx⟩
      · show (x &&& 251) &&& 4 = 0
        rw [and_and_lit x 251 4 0 (by decide)]; simp
  · rw [if_neg h1] at harm
    simp at harm

theorem idle_tick_armed_states_witness :
    (set_tick_timer jacdac quiet 0 (Phys.init jacdac)).status &&& JD_STATUS_RX_ACTIVE = 0 ∧
      ((set_tick_timer jacdac quiet 0 (Phys.init jacdac)).txPending = 0 ∨
        (set_tick_timer jacdac quiet 0 (Phys.init jacdac)).status &&& JD_STATUS_TX_ACTIVE ≠ 0) ∧
      (set_tick_timer jacdac quiet 0 (Phys.init jacdac)).status &&& JD_STATUS_TX_QUEUED = 0 ∧
      (set_tick_timer jacdac quiet 0 (Phys.init jacdac)).timer = some (10000, Callback.tick) :=
  idle_tick_armed_states jacdac quiet 0 (Phys.init jacdac) (by decide)

/-- C12 fails as stated: the retime step at the end of a `flush_tx_queue` that started
the transmitter arms the idle tick with `JD_STATUS_TX_ACTIVE` set, and so does any later
retime in that state, also with txPending set; a tick firing then ends in `jd_panic()`. -/
theorem idle_tick_armed_while_transmitting :
    (Event.tim_set_timer 10000 Callback.tick ∈ calls_since queued transmitting ∧
      transmitting.timer = some (10000, Callback.tick) ∧
      transmitting.status &&& JD_STATUS_TX_ACTIVE = JD_STATUS_TX_ACTIVE) ∧
    (Event.tim_set_timer 10000 Callback.tick ∈
        calls_since (jd_packet_ready jacdac quiet transmitting)
          (set_tick_timer jacdac quiet 0 (jd_packet_ready jacdac quiet transmitting)) ∧
      (set_tick_timer jacdac quiet 0 (jd_packet_ready jacdac quiet transmitting)).txPending = 1 ∧
      (set_tick_timer jacdac quiet 0 (jd_packet_ready jacdac quiet transmitting)).status &&&
        JD_STATUS_TX_ACTIVE = JD_STATUS_TX_ACTIVE) ∧
    tick jacdac quiet transmitting = none := by
  decide


/-! ## `JD_STATUS_TX_QUEUED` and the pending flag -/

/-- When `JD_STATUS_RX_ACTIVE` is clear after `statusClear` has been applied, the retime
step decides `JD_STATUS_TX_QUEUED` afresh. -/
theorem retime_decides_queued (d : Decls) (env : Env) (c : Nat) (s : Phys)
    (hX : (if c ≠ 0 then s.status &&& (255 ^^^ c) else s.status) &&& 1 = 0)
    (hp : s.txPending ≤ 1) : tx_queued_consistent (set_tick_timer d env c s) := by
  unfold tx_queued_consistent
  rw [set_tick_timer_status, set_tick_timer_txPending]
  generalize (if c ≠ 0 then s.status &&& (255 ^^^ c) else s.status) = x at hX ⊢
  rw [if_pos hX]
  by_cases h2 : s.txPending ≠ 0 ∧ x &&& 2 = 0
  · rw [if_pos h2]
    intro _
    refine ⟨by omega, ?_⟩
    show (x ||| 4) &&& 2 = 0
    rw [or_and_lit x 4 2 0 (by decide), Nat.or_zero]
    exact h2.2
  · rw [if_neg h2]
    intro hq
    exfalso
    apply hq
    show (x &&& 251) &&& 4 = 0
    rw [and_and_lit x 251 4 0 (by decide)]
    simp

/-- When `JD_STATUS_RX_ACTIVE` stays set, the retime step only applies `statusClear`. -/
theorem retime_during_rx (d : Decls) (env : Env) (c : Nat) (s : Phys)
    (hX : (if c ≠ 0 then s.status &&& (255 ^^^ c) else s.status) &&& 1 ≠ 0) :
    (set_tick_timer d env c s).status =
      if c ≠ 0 then s.status &&& (255 ^^^ c) else s.status := by
  rw [set_tick_timer_status, if_neg hX]

/-- With nothing pending and `JD_STATUS_RX_ACTIVE` clear, the retime step clears
`JD_STATUS_TX_QUEUED`. -/
theorem retime_clears_queued (d : Decls) (env : Env) (c : Nat) (s : Phys)
    (hX : (if c ≠ 0 then s.status &&& (255 ^^^ c) else s.status) &&& 1 = 0)
    (hp : s.txPending = 0) :
    (set_tick_timer d env c s).status &&& JD_STATUS_TX_QUEUED = 0 := by
  rw [set_tick_timer_status]
  generalize (if c ≠ 0 then s.status &&& (255 ^^^ c) else s.status) = x at hX ⊢
  rw [if_pos hX, if_neg (by simp [hp])]
  show (x &&& 251) &&& 4 = 0
  rw [and_and_lit x 251 4 0 (by decide)]
  simp

theorem retime0_queued_consistent (d : Decls) (env : Env) (s : Phys) (hp : s.txPending ≤ 1)
    (h : tx_queued_consistent s) : tx_queued_consistent (set_tick_timer d env 0 s) := by
  by_cases hrx : s.status &&& 1 = 0
  · exact retime_decides_queued d env 0 s (by simpa using hrx) hp
  · unfold tx_queued_consistent
    rw [retime_during_rx d env 0 s (by simpa using hrx), set_tick_timer_txPending]
    exact h

theorem retime_rx_queued_consistent (d : Decls) (env : Env) (s : Phys) (hp : s.txPending ≤ 1) :
    tx_queued_consistent (set_tick_timer d env JD_STATUS_RX_ACTIVE s) := by
  apply retime_decides_queued d env _ s _ hp
  show (s.status &&& 254) &&& 1 = 0
  rw [and_and_lit s.status 254 1 0 (by decide)]
  simp

theorem retime_tx_queued_consistent (d : Decls) (env : Env) (s : Phys) (hp : s.txPending ≤ 1)
    (h : tx_queued_consistent s) :
    tx_queued_consistent (set_tick_timer d env JD_STATUS_TX_ACTIVE s) := by
  by_cases hrx : (s.status &&& 253) &&& 1 = 0
  · exact retime_decides_queued d env _ s hrx hp
  · unfold tx_queued_consistent
    rw [retime_during_rx d env JD_STATUS_TX_ACTIVE s hrx, set_tick_timer_txPending]
    show (s.status &&& 253) &&& 4 ≠ 0 → s.txPending = 1 ∧ (s.status &&& 253) &&& 2 = 0
    rw [and_and_lit s.status 253 4 4 (by decide), and_and_lit s.status 253 2 0 (by decide)]
    intro hq
    exact ⟨(h hq).1, by simp⟩

theorem rx_timeout_queued_consistent (d : Decls) (env : Env) (s : Phys) (hp : s.txPending ≤ 1) :
    tx_queued_consistent (rx_timeout d env s) ∧ (rx_timeout d env s).txPending = s.txPending := by
  have h := retime_rx_queued_consistent d env
    (emit (Event.jd_debug_signal_read 0) (emit Event.uart_disable
      { emit Event.target_disable_irq s with jd_diagnostics :=
        { s.jd_diagnostics with
          bus_timeout_error := s.jd_diagnostics.bus_timeout_error + 1 } })) hp
  exact ⟨h, by simp [rx_timeout]⟩


/-! ## How each entry point leaves status, txPending and txFrame -/

theorem flush_tx_queue_empty (d : Decls) (env : Env) (s : Phys)
    (hidle : s.status &&& (JD_STATUS_RX_ACTIVE ||| JD_STATUS_TX_ACTIVE) = 0)
    (h1 : s.txFrame = none) (h2 : env.jd_tx_get_frame = none) :
    ∃ S : Phys, S.status = s.status ||| JD_STATUS_TX_ACTIVE ∧ S.txPending = 0 ∧
      S.txFrame = none ∧ flush_tx_queue d env s = tx_done d env S := by
  have hb : ¬ s.status &&& (JD_STATUS_RX_ACTIVE ||| JD_STATUS_TX_ACTIVE) ≠ 0 := not_not.mpr hidle
  refine ⟨{ emit Event.jd_tx_get_frame { emit Event.target_enable_irq
      { emit Event.target_disable_irq s with status := s.status ||| JD_STATUS_TX_ACTIVE } with
    txPending := 0 } with txFrame := none }, rfl, rfl, rfl, ?_⟩
  simp only [flush_tx_queue, emit_status, emit_txFrame]
  rw [if_neg hb]
  simp only [h1, h2]

theorem jd_line_falling_shape (d : Decls) (env : Env) (s t : Phys)
    (ht : jd_line_falling d env s = some t) :
    s.status &&& JD_STATUS_RX_ACTIVE = 0 ∧
    ∃ W : Phys, W.status = s.status ||| JD_STATUS_RX_ACTIVE ∧ W.txPending = s.txPending ∧
      W.txFrame = s.txFrame ∧
      (t = rx_timeout d env W ∨
        (t.status = W.status ∧ t.txPending = W.txPending ∧ t.txFrame = W.txFrame)) := by
  simp only [jd_line_falling, emit_status] at ht
  split_ifs at ht with h1 h2 h3
  · cases ht
    exact ⟨not_not.mp h1, emit Event.uart_wait_high
      { emit (Event.jd_debug_signal_read 1) s with
        status := s.status ||| JD_STATUS_RX_ACTIVE, rxFrame := zero_words s.rxFrame },
      rfl, rfl, rfl, Or.inl rfl⟩
  · cases ht
    exact ⟨not_not.mp h1, emit Event.uart_wait_high
      { emit (Event.jd_debug_signal_read 1) s with
        status := s.status ||| JD_STATUS_RX_ACTIVE, rxFrame := zero_words s.rxFrame },
      rfl, rfl, rfl, Or.inr ⟨rfl, rfl, rfl⟩⟩
  · cases ht
    exact ⟨not_not.mp h1, emit Event.uart_wait_high
      { emit (Event.jd_debug_signal_read 1) s with
        status := s.status ||| JD_STATUS_RX_ACTIVE, rxFrame := zero_words s.rxFrame },
      rfl, rfl, rfl, Or.inr ⟨rfl, rfl, rfl⟩⟩

theorem setup_rx_timeout_shape (d : Decls) (env : Env) (s : Phys) :
    (∃ W : Phys, W.status = s.status ∧ W.txPending = s.txPending ∧ W.txFrame = s.txFrame ∧
        setup_rx_timeout d env s = rx_timeout d env W) ∨
      ((setup_rx_timeout d env s).status = s.status ∧
        (setup_rx_timeout d env s).txPending = s.txPending ∧
        (setup_rx_timeout d env s).txFrame = s.txFrame) ∨
      setup_rx_timeout d env s = set_tick_timer d env 0 s := by
  simp only [setup_rx_timeout]
  split_ifs
  · exact Or.inl ⟨{ emit Event.uart_flush_rx s with rxFrame := env.uart_flush_rx s.rxFrame },
      rfl, rfl, rfl, rfl⟩
  · exact Or.inr (Or.inl ⟨rfl, rfl, rfl⟩)
  · exact Or.inr (Or.inr rfl)

@[simp] theorem jd_rx_completed_txPending (d : Decls) (env : Env) (dataLeft : Int) (s : Phys) :
    (jd_rx_completed d env dataLeft s).txPending = s.txPending := by
  simp only [jd_rx_completed]
  split_ifs <;> simp [bump_uart_error, bump_packets_dropped, bump_packets_received]

@[simp] theorem jd_rx_completed_txFrame (d : Decls) (env : Env) (dataLeft : Int) (s : Phys) :
    (jd_rx_completed d env dataLeft s).txFrame = s.txFrame := by
  simp only [jd_rx_completed]
  split_ifs <;> simp [bump_uart_error, bump_packets_dropped, bump_packets_received]

@[simp] theorem rx_timeout_txPending (d : Decls) (env : Env) (s : Phys) :
    (rx_timeout d env s).txPending = s.txPending := by
  simp [rx_timeout]

@[simp] theorem rx_timeout_txFrame (d : Decls) (env : Env) (s : Phys) :
    (rx_timeout d env s).txFrame = s.txFrame := by
  simp [rx_timeout]

theorem tx_queued_consistent_congr (s t : Phys) (hs : t.status = s.status)
    (hp : t.txPending = s.txPending) (h : tx_queued_consistent s) : tx_queued_consistent t := by
  unfold tx_queued_consistent at h ⊢
  rw [hs, hp]; exact h

/-- After `flush_tx_queue` has set `JD_STATUS_TX_ACTIVE` and cleared txPending on an idle
bus, either retime leaves `JD_STATUS_TX_QUEUED` clear. -/
theorem retime_after_claim (d : Decls) (env : Env) (c : Nat) (s S : Phys)
    (hc : c = 0 ∨ c = JD_STATUS_TX_ACTIVE)
    (hidle : s.status &&& (JD_STATUS_RX_ACTIVE ||| JD_STATUS_TX_ACTIVE) = 0)
    (hS : S.status = s.status ||| JD_STATUS_TX_ACTIVE) (hp : S.txPending = 0) :
    (set_tick_timer d env c S).status &&& JD_STATUS_TX_QUEUED = 0 ∧
      (set_tick_timer d env c S).txPending = 0 := by
  have hrx := idle_rx_clear s.status hidle
  have h1 : (s.status ||| 2) &&& 1 = 0 := by
    rw [or_and_lit s.status 2 1 0 (by decide), Nat.or_zero]; exact hrx
  refine ⟨?_, by simp [hp]⟩
  apply retime_clears_queued d env c S _ hp
  rcases hc with rfl | rfl
  · simpa [hS] using h1
  · show (S.status &&& 253) &&& 1 = 0
    rw [and_and_lit S.status 253 1 1 (by decide), hS]
    exact h1


theorem flush_tx_queue_queued_consistent (d : Decls) (env : Env) (s : Phys)
    (hp : s.txPending ≤ 1) (h : tx_queued_consistent s) :
    tx_queued_consistent (flush_tx_queue d env s) ∧ (flush_tx_queue d env s).txPending ≤ 1 := by
  by_cases hidle : s.status &&& (JD_STATUS_RX_ACTIVE ||| JD_STATUS_TX_ACTIVE) = 0
  · have hvac : ∀ u : Phys, u.status &&& JD_STATUS_TX_QUEUED = 0 → tx_queued_consistent u :=
      fun u hu hq => absurd hu hq
    cases hf : s.txFrame with
    | some f =>
      obtain ⟨S, -, hS, hSp, -, -, hfl⟩ := flush_tx_queue_sending d env s f hidle (Or.inl hf)
      rw [hfl]
      split_ifs
      · have hr := retime_after_claim d env JD_STATUS_TX_ACTIVE s
          (emit (Event.jd_debug_signal_write 0) { S with jd_diagnostics :=
            { S.jd_diagnostics with bus_lo_error := S.jd_diagnostics.bus_lo_error + 1 } })
          (Or.inr rfl) hidle hS hSp
        exact ⟨hvac _ hr.1, le_refl 1⟩
      · have hr := retime_after_claim d env 0 s S (Or.inl rfl) hidle hS hSp
        exact ⟨hvac _ hr.1, by rw [hr.2]; omega⟩
    | none =>
      cases hq : env.jd_tx_get_frame with
      | some f =>
        obtain ⟨S, -, hS, hSp, -, -, hfl⟩ :=
          flush_tx_queue_sending d env s f hidle (Or.inr ⟨hf, hq⟩)
        rw [hfl]
        split_ifs
        · have hr := retime_after_claim d env JD_STATUS_TX_ACTIVE s
            (emit (Event.jd_debug_signal_write 0) { S with jd_diagnostics :=
              { S.jd_diagnostics with bus_lo_error := S.jd_diagnostics.bus_lo_error + 1 } })
            (Or.inr rfl) hidle hS hSp
          exact ⟨hvac _ hr.1, le_refl 1⟩
        · have hr := retime_after_claim d env 0 s S (Or.inl rfl) hidle hS hSp
          exact ⟨hvac _ hr.1, by rw [hr.2]; omega⟩
      | none =>
        obtain ⟨S, hS, hSp, -, hfl⟩ := flush_tx_queue_empty d env s hidle hf hq
        rw [hfl]
        have hr := retime_after_claim d env JD_STATUS_TX_ACTIVE s
          (emit (Event.jd_debug_signal_write 0) S) (Or.inr rfl) hidle hS hSp
        exact ⟨hvac _ hr.1, by
          show (set_tick_timer d env JD_STATUS_TX_ACTIVE _).txPending ≤ 1
          rw [hr.2]; omega⟩
  · rw [flush_tx_queue_busy d env s hidle]
    exact ⟨tx_queued_consistent_congr s _ rfl rfl h, hp⟩

/-- One step of the driver keeps `JD_STATUS_TX_QUEUED` consistent with the pending flag,
and keeps txPending at 0 or 1. -/
theorem step_queued_consistent (d : Decls) (op : Op) (env : Env) (s t : Phys)
    (hp : s.txPending ≤ 1) (h : tx_queued_consistent s) (ht : step d op env s = some t) :
    tx_queued_consistent t ∧ t.txPending ≤ 1 := by
  cases op with
  | _jd_phys_start =>
    simp only [step, Option.some.injEq] at ht
    subst ht
    exact ⟨retime0_queued_consistent d env s hp h, by simpa [_jd_phys_start] using hp⟩
  | jd_packet_ready =>
    simp only [step, Option.some.injEq] at ht
    subst ht
    refine ⟨?_, by rw [jd_packet_ready_txPending]⟩
    simp only [jd_packet_ready, emit_status]
    split_ifs with h0
    · have h1 : tx_queued_consistent (set_tick_timer d env 0
          { emit Event.target_disable_irq s with txPending := 1 }) :=
        retime_decides_queued d env 0 _ (by simp [h0]) (le_refl 1)
      exact tx_queued_consistent_congr _ _ rfl rfl h1
    · intro hq
      exact ⟨rfl, (h hq).2⟩
  | jd_line_falling =>
    obtain ⟨hrx, W, hW, hWp, -, hcase⟩ := jd_line_falling_shape d env s t ht
    rcases hcase with rfl | ⟨h1, h2, -⟩
    · have := rx_timeout_queued_consistent d env W (by omega)
      exact ⟨this.1, by rw [this.2]; omega⟩
    · refine ⟨?_, by omega⟩
      unfold tx_queued_consistent at h ⊢
      rw [h1, h2, hW, hWp]
      show (s.status ||| 1) &&& 4 ≠ 0 → s.txPending = 1 ∧ (s.status ||| 1) &&& 2 = 0
      rw [or_and_lit s.status 1 4 0 (by decide), or_and_lit s.status 1 2 0 (by decide),
        Nat.or_zero, Nat.or_zero]
      exact h
  | jd_rx_completed dataLeft =>
    simp only [step, Option.some.injEq] at ht
    subst ht
    refine ⟨?_, by simpa using hp⟩
    have h1 := retime_rx_queued_consistent d env (emit (Event.jd_debug_signal_read 0) s) hp
    exact tx_queued_consistent_congr _ _ (jd_rx_completed_status d env dataLeft s)
      (by simp) h1
  | jd_tx_completed errCode =>
    simp only [step, Option.some.injEq] at ht
    subst ht
    have h1 := retime_tx_queued_consistent d env
      (emit (Event.jd_debug_signal_write 0)
        { emit (Event.jd_tx_frame_sent s.txFrame) s with txFrame := none })
      hp (tx_queued_consistent_congr s _ rfl rfl h)
    exact ⟨h1, by simpa [jd_tx_completed, tx_done] using hp⟩
  | tick =>
    simp only [step, tick] at ht
    split_ifs at ht
    cases ht
    exact ⟨retime0_queued_consistent d env s hp h, by simpa using hp⟩
  | flush_tx_queue =>
    simp only [step, Option.some.injEq] at ht
    subst ht
    exact flush_tx_queue_queued_consistent d env s hp h
  | setup_rx_timeout =>
    simp only [step, Option.some.injEq] at ht
    subst ht
    rcases setup_rx_timeout_shape d env s with ⟨W, hW, hWp, -, heq⟩ | ⟨h1, h2, -⟩ | heq
    · rw [heq]
      have := rx_timeout_queued_consistent d env W (by omega)
      exact ⟨this.1, by rw [this.2]; omega⟩
    · exact ⟨tx_queued_consistent_congr s _ h1 h2 h, by omega⟩
    · rw [heq]
      exact ⟨retime0_queued_consistent d env s hp h, by simpa using hp⟩
  | rx_timeout =>
    simp only [step, Option.some.injEq] at ht
    subst ht
    have := rx_timeout_queued_consistent d env s hp
    exact ⟨this.1, by rw [this.2]; exact hp⟩
  | uart_dma bytes =>
    simp only [step, Option.some.injEq] at ht
    subst ht
    exact ⟨tx_queued_consistent_congr s _ rfl rfl h, hp⟩

theorem run_queued_consistent (d : Decls) (ops : List (Op × Env)) :
    ∀ s t : Phys, s.txPending ≤ 1 → tx_queued_consistent s → run d ops s = some t →
      tx_queued_consistent t ∧ t.txPending ≤ 1 := by
  induction ops with
  | nil =>
    intro s t hp h ht
    simp only [run, Option.some.injEq] at ht
    subst ht
    exact ⟨h, hp⟩
  | cons hd rest ih =>
    obtain ⟨op, env⟩ := hd
    intro s t hp h ht
    simp only [run] at ht
    cases hstep : step d op env s with
    | none => rw [hstep] at ht; simp at ht
    | some u =>
      rw [hstep] at ht
      simp only [Option.some_bind] at ht
      have hu := step_queued_consistent d op env s u hp h hstep
      exact ih u t hu.2 hu.1 ht

theorem init_queued_consistent (d : Decls) :
    tx_queued_consistent (Phys.init d) ∧ (Phys.init d).txPending ≤ 1 := by
  refine ⟨?_, by simp [Phys.init]⟩
  intro hq
  simp [Phys.init] at hq

set_option maxRecDepth 100000 in
/-- C18: the predicate "`JD_STATUS_TX_QUEUED` set implies txPending = 1 and
`JD_STATUS_TX_ACTIVE` clear" holds initially and in every state reachable from the
initial state, and every entry point or timer callback that returns from such a state
(`jd_line_falling` included, whatever state it arrives in) leaves it true.
`JD_STATUS_RX_ACTIVE` and `JD_STATUS_TX_QUEUED` can be set together: a packet signalled
on an idle bus followed by a falling edge gives status 5. -/
theorem tx_queued_flag_consistent (d : Decls) (ops : List (Op × Env)) (s : Phys)
    (hrun : run d ops (Phys.init d) = some s) :
    tx_queued_consistent (Phys.init d) ∧ tx_queued_consistent s ∧
      (∀ (op : Op) (env : Env) (t : Phys), step d op env s = some t →
        tx_queued_consistent t) ∧
      (run jacdac queue_then_line_falling (Phys.init jacdac)).map (fun u => u.status) =
        some (JD_STATUS_RX_ACTIVE ||| JD_STATUS_TX_QUEUED) := by
  have hs := run_queued_consistent d ops _ s (init_queued_consistent d).2
    (init_queued_consistent d).1 hrun
  exact ⟨(init_queued_consistent d).1, hs.1,
    fun op env t ht => (step_queued_consistent d op env s t hs.2 hs.1 ht).1, by decide⟩

theorem tx_queued_flag_consistent_witness :
    tx_queued_consistent (Phys.init jacdac) ∧
      tx_queued_consistent
        ((run jacdac queue_then_line_falling (Phys.init jacdac)).getD (Phys.init jacdac)) ∧
      (∀ (op : Op) (env : Env) (t : Phys),
        step jacdac op env
          ((run jacdac queue_then_line_falling (Phys.init jacdac)).getD (Phys.init jacdac)) =
            some t →
        tx_queued_consistent t) ∧
      (run jacdac queue_then_line_falling (Phys.init jacdac)).map (fun u => u.status) =
        some (JD_STATUS_RX_ACTIVE ||| JD_STATUS_TX_QUEUED) :=
  tx_queued_flag_consistent jacdac queue_then_line_falling
    ((run jacdac queue_then_line_falling (Phys.init jacdac)).getD (Phys.init jacdac)) (by rfl)

/-! ## A claimed frame is never stranded -/

theorem frame_not_stranded_congr (s t : Phys) (hf : t.txFrame = s.txFrame)
    (hp : t.txPending = s.txPending)
    (htx : t.status &&& JD_STATUS_TX_ACTIVE = s.status &&& JD_STATUS_TX_ACTIVE)
    (h : frame_not_stranded s) : frame_not_stranded t := by
  unfold frame_not_stranded at h ⊢
  rw [hf, hp, htx]; exact h

theorem retime_rx_tx_bit (d : Decls) (env : Env) (s : Phys) :
    (set_tick_timer d env JD_STATUS_RX_ACTIVE s).status &&& JD_STATUS_TX_ACTIVE =
      s.status &&& JD_STATUS_TX_ACTIVE := by
  rw [set_tick_timer_tx_bit]
  have : (s.status &&& 254) &&& 2 = s.status &&& 2 := and_and_lit s.status 254 2 2 (by decide)
  simpa using this

theorem flush_tx_queue_not_stranded (d : Decls) (env : Env) (s : Phys)
    (h : frame_not_stranded s) : frame_not_stranded (flush_tx_queue d env s) := by
  by_cases hidle : s.status &&& (JD_STATUS_RX_ACTIVE ||| JD_STATUS_TX_ACTIVE) = 0
  · have hsend : ∀ f, (s.txFrame = some f ∨ (s.txFrame = none ∧ env.jd_tx_get_frame = some f)) →
        frame_not_stranded (flush_tx_queue d env s) := by
      intro f hf
      obtain ⟨S, -, hS, -, -, -, hfl⟩ := flush_tx_queue_sending d env s f hidle hf
      rw [hfl]
      split_ifs
      · exact fun _ => Or.inr rfl
      · intro _
        left
        rw [set_tick_timer_keep_tx, hS]
        exact or_lit_ne_zero s.status 2 (by decide)
    cases hf : s.txFrame with
    | some f => exact hsend f (Or.inl hf)
    | none =>
      cases hq : env.jd_tx_get_frame with
      | some f => exact hsend f (Or.inr ⟨hf, hq⟩)
      | none =>
        obtain ⟨S, -, -, hSf, hfl⟩ := flush_tx_queue_empty d env s hidle hf hq
        rw [hfl]
        intro hne
        exfalso
        apply hne
        simp [tx_done, hSf]
  · rw [flush_tx_queue_busy d env s hidle]
    exact frame_not_stranded_congr s _ rfl rfl rfl h

/-- One step of the driver keeps a claimed frame transmitted or pending. -/
theorem step_not_stranded (d : Decls) (op : Op) (env : Env) (s t : Phys)
    (h : frame_not_stranded s) (ht : step d op env s = some t) : frame_not_stranded t := by
  cases op with
  | _jd_phys_start =>
    simp only [step, Option.some.injEq] at ht
    subst ht
    exact frame_not_stranded_congr s _ (by simp [_jd_phys_start]) (by simp [_jd_phys_start])
      (set_tick_timer_keep_tx d env s) h
  | jd_packet_ready =>
    simp only [step, Option.some.injEq] at ht
    subst ht
    exact fun _ => Or.inr (jd_packet_ready_txPending d env s)
  | jd_line_falling =>
    obtain ⟨-, W, hW, hWp, hWf, hcase⟩ := jd_line_falling_shape d env s t ht
    have hWtx : W.status &&& JD_STATUS_TX_ACTIVE = s.status &&& JD_STATUS_TX_ACTIVE := by
      rw [hW]
      show (s.status ||| 1) &&& 2 = s.status &&& 2
      rw [or_and_lit s.status 1 2 0 (by decide), Nat.or_zero]
    rcases hcase with rfl | ⟨h1, h2, h3⟩
    · exact frame_not_stranded_congr s _ (by simp [hWf]) (by simp [hWp])
        (by rw [rx_timeout_tx_bit, hWtx]) h
    · exact frame_not_stranded_congr s _ (by rw [h3, hWf]) (by rw [h2, hWp])
        (by rw [h1, hWtx]) h
  | jd_rx_completed dataLeft =>
    simp only [step, Option.some.injEq] at ht
    subst ht
    exact frame_not_stranded_congr s _ (by simp) (by simp)
      (by rw [jd_rx_completed_status, retime_rx_tx_bit]; rfl) h
  | jd_tx_completed errCode =>
    simp only [step, Option.some.injEq] at ht
    subst ht
    intro hne
    exfalso
    apply hne
    simp [jd_tx_completed, tx_done]
  | tick =>
    simp only [step, tick] at ht
    split_ifs at ht
    cases ht
    exact frame_not_stranded_congr s _ (by simp) (by simp) (set_tick_timer_keep_tx d env s) h
  | flush_tx_queue =>
    simp only [step, Option.some.injEq] at ht
    subst ht
    exact flush_tx_queue_not_stranded d env s h
  | setup_rx_timeout =>
    simp only [step, Option.some.injEq] at ht
    subst ht
    rcases setup_rx_timeout_shape d env s with ⟨W, hW, hWp, hWf, heq⟩ | ⟨h1, h2, h3⟩ | heq
    · rw [heq]
      exact frame_not_stranded_congr s _ (by simp [hWf]) (by simp [hWp])
        (by rw [rx_timeout_tx_bit, hW]) h
    · exact frame_not_stranded_congr s _ h3 h2 (by rw [h1]) h
    · rw [heq]
      exact frame_not_stranded_congr s _ (by simp) (by simp) (set_tick_timer_keep_tx d env s) h
  | rx_timeout =>
    simp only [step, Option.some.injEq] at ht
    subst ht
    exact frame_not_stranded_congr s _ (by simp) (by simp) (rx_timeout_tx_bit d env s) h
  | uart_dma bytes =>
    simp only [step, Option.some.injEq] at ht
    subst ht
    exact frame_not_stranded_congr s _ rfl rfl rfl h

theorem run_not_stranded (d : Decls) (ops : List (Op × Env)) :
    ∀ s t : Phys, frame_not_stranded s → run d ops s = some t → frame_not_stranded t := by
  induction ops with
  | nil =>
    intro s t h ht
    simp only [run, Option.some.injEq] at ht
    subst ht
    exact h
  | cons hd rest ih =>
    obtain ⟨op, env⟩ := hd
    intro s t h ht
    simp only [run] at ht
    cases hstep : step d op env s with
    | none => rw [hstep] at ht; simp at ht
    | some u =>
      rw [hstep] at ht
      simp only [Option.some_bind] at ht
      exact ih u t (step_not_stranded d op env s u h hstep) ht

/-- C17: the predicate "txFrame != NULL implies `JD_STATUS_TX_ACTIVE` set or txPending = 1"
holds initially and is preserved by every entry point and timer callback that returns,
from any state and for every answer of `uart_start_tx`, `jd_tx_get_frame` and
`uart_wait_high`; so it holds in every reachable state. -/
theorem claimed_frame_never_stranded (d : Decls) (op : Op) (env : Env) (s t : Phys)
    (h : frame_not_stranded s) (ht : step d op env s = some t) :
    frame_not_stranded t ∧ frame_not_stranded (Phys.init d) ∧
      ∀ (ops : List (Op × Env)) (u : Phys), run d ops (Phys.init d) = some u →
        frame_not_stranded u := by
  have hinit : frame_not_stranded (Phys.init d) := fun hne => absurd rfl hne
  exact ⟨step_not_stranded d op env s t h ht, hinit,
    fun ops u hu => run_not_stranded d ops _ u hinit hu⟩

theorem claimed_frame_never_stranded_witness :
    frame_not_stranded ((step jacdac Op.flush_tx_queue (tx_race good_frame) queued).getD queued) ∧
      frame_not_stranded (Phys.init jacdac) ∧
      ∀ (ops : List (Op × Env)) (u : Phys), run jacdac ops (Phys.init jacdac) = some u →
        frame_not_stranded u :=
  claimed_frame_never_stranded jacdac Op.flush_tx_queue (tx_race good_frame) queued
    ((step jacdac Op.flush_tx_queue (tx_race good_frame) queued).getD queued)
    (fun hne => absurd (by decide) hne) (by rfl)


/-! ## Forgetting the observed steps -/

@[simp] theorem on_phys_phys (g : Phys → Phys) (l : Logged) : (l.on_phys g).phys = g l.phys := rfl

@[simp] theorem on_phys_log (g : Phys → Phys) (l : Logged) : (l.on_phys g).log = l.log := rfl

@[simp] theorem target_disable_irq_phys (l : Logged) :
    l.target_disable_irq.phys = emit Event.target_disable_irq l.phys := rfl

@[simp] theorem target_disable_irq_log (l : Logged) :
    l.target_disable_irq.log = l.log ++ [Access.irq_off] := rfl

@[simp] theorem target_enable_irq_phys (l : Logged) :
    l.target_enable_irq.phys = emit Event.target_enable_irq l.phys := rfl

@[simp] theorem target_enable_irq_log (l : Logged) :
    l.target_enable_irq.log = l.log ++ [Access.irq_on] := rfl

@[simp] theorem status_rmw_phys (f : Nat → Nat) (l : Logged) :
    (l.status_rmw f).phys = { l.phys with status := f l.phys.status } := rfl

@[simp] theorem status_rmw_log (f : Nat → Nat) (l : Logged) :
    (l.status_rmw f).log = l.log ++ [Access.status_rmw] := rfl

@[simp] theorem call_jd_crc16_phys (offset size : Nat) (l : Logged) :
    (l.call_jd_crc16 offset size).phys = l.phys := rfl

@[simp] theorem call_jd_crc16_log (offset size : Nat) (l : Logged) :
    (l.call_jd_crc16 offset size).log = l.log ++ [Access.jd_crc16 offset size] := rfl

@[simp] theorem set_tick_timer_logged_phys (d : Decls) (env : Env) (c : Nat) (l : Logged) :
    (set_tick_timer_logged d env c l).phys = set_tick_timer d env c l.phys := by
  unfold set_tick_timer_logged set_tick_timer
  simp only [Logged.target_disable_irq, Logged.target_enable_irq, Logged.status_rmw,
    Logged.on_phys, emit, tim_set_timer]
  split_ifs <;> rfl

@[simp] theorem tx_done_logged_phys (d : Decls) (env : Env) (l : Logged) :
    (tx_done_logged d env l).phys = tx_done d env l.phys := by
  simp only [tx_done_logged, tx_done, set_tick_timer_logged_phys, on_phys_phys]

@[simp] theorem jd_tx_completed_logged_phys (d : Decls) (env : Env) (errCode : Int)
    (l : Logged) :
    (jd_tx_completed_logged d env errCode l).phys = jd_tx_completed d env errCode l.phys := by
  simp only [jd_tx_completed_logged, jd_tx_completed, tx_done_logged_phys, on_phys_phys]

@[simp] theorem rx_timeout_logged_phys (d : Decls) (env : Env) (l : Logged) :
    (rx_timeout_logged d env l).phys = rx_timeout d env l.phys := by
  simp only [rx_timeout_logged, rx_timeout, set_tick_timer_logged_phys, on_phys_phys,
    target_disable_irq_phys, target_enable_irq_phys]

@[simp] theorem setup_rx_timeout_logged_phys (d : Decls) (env : Env) (l : Logged) :
    (setup_rx_timeout_logged d env l).phys = setup_rx_timeout d env l.phys := by
  simp only [setup_rx_timeout_logged, setup_rx_timeout, on_phys_phys]
  split_ifs <;> simp only [rx_timeout_logged_phys, set_tick_timer_logged_phys, on_phys_phys]

@[simp] theorem jd_packet_ready_logged_phys (d : Decls) (env : Env) (l : Logged) :
    (jd_packet_ready_logged d env l).phys = jd_packet_ready d env l.phys := by
  simp only [jd_packet_ready_logged, jd_packet_ready, on_phys_phys, target_disable_irq_phys,
    target_enable_irq_phys]
  split_ifs <;>
    simp only [set_tick_timer_logged_phys, on_phys_phys, target_disable_irq_phys]

@[simp] theorem jd_rx_completed_logged_phys (d : Decls) (env : Env) (dataLeft : Int)
    (l : Logged) :
    (jd_rx_completed_logged d env dataLeft l).phys = jd_rx_completed d env dataLeft l.phys := by
  simp only [jd_rx_completed_logged, jd_rx_completed, set_tick_timer_logged_phys, on_phys_phys,
    call_jd_crc16_phys]
  split_ifs <;> simp only [set_tick_timer_logged_phys, on_phys_phys, call_jd_crc16_phys]

theorem jd_line_falling_logged_phys (d : Decls) (env : Env) (l : Logged) :
    (jd_line_falling_logged d env l).map (fun t => t.phys) = jd_line_falling d env l.phys := by
  simp only [jd_line_falling_logged, jd_line_falling, on_phys_phys, status_rmw_phys]
  split_ifs <;> simp [emit, tim_set_timer]

theorem tick_logged_phys (d : Decls) (env : Env) (l : Logged) :
    (tick_logged d env l).map (fun t => t.phys) = tick d env l.phys := by
  simp only [tick_logged, tick]
  split_ifs <;> simp


@[simp] theorem flush_tx_queue_logged_phys (d : Decls) (env : Env) (l : Logged) :
    (flush_tx_queue_logged d env l).phys = flush_tx_queue d env l.phys := by
  obtain ⟨⟨rx, st, txf, na, tp, dg, tm, tr⟩, lg⟩ := l
  cases txf with
  | some f =>
    simp only [flush_tx_queue_logged, flush_tx_queue, on_phys_phys, target_disable_irq_phys,
      target_enable_irq_phys, status_rmw_phys, emit]
    split_ifs <;>
      simp only [on_phys_phys, tx_done_logged_phys, set_tick_timer_logged_phys,
        target_enable_irq_phys, status_rmw_phys, target_disable_irq_phys] <;> rfl
  | none =>
    cases hq : env.jd_tx_get_frame with
    | none =>
      simp only [flush_tx_queue_logged, flush_tx_queue, on_phys_phys, target_disable_irq_phys,
        target_enable_irq_phys, status_rmw_phys, emit, hq]
      split_ifs <;>
        simp only [on_phys_phys, tx_done_logged_phys, set_tick_timer_logged_phys,
          target_enable_irq_phys, status_rmw_phys, target_disable_irq_phys] <;> rfl
    | some f =>
      simp only [flush_tx_queue_logged, flush_tx_queue, on_phys_phys, target_disable_irq_phys,
        target_enable_irq_phys, status_rmw_phys, emit, hq]
      split_ifs <;>
        simp only [on_phys_phys, tx_done_logged_phys, set_tick_timer_logged_phys,
          target_enable_irq_phys, status_rmw_phys, target_disable_irq_phys] <;> rfl

/-- Forgetting the observed steps, one step of the observed driver is one step of the
driver. -/
theorem step_logged_phys (d : Decls) (op : Op) (env : Env) (l : Logged) :
    (step_logged d op env l).map (fun t => t.phys) = step d op env l.phys := by
  cases op with
  | _jd_phys_start => simp [step_logged, step, _jd_phys_start_logged, _jd_phys_start]
  | jd_packet_ready => simp [step_logged, step]
  | jd_line_falling => exact jd_line_falling_logged_phys d env l
  | jd_rx_completed dataLeft => simp [step_logged, step]
  | jd_tx_completed errCode => simp [step_logged, step]
  | tick => exact tick_logged_phys d env l
  | flush_tx_queue => simp [step_logged, step]
  | setup_rx_timeout => simp [step_logged, step]
  | rx_timeout => simp [step_logged, step]
  | uart_dma bytes => simp [step_logged, step]


/-! ## What the observed functions log -/

theorem log_since_of_log (l t : Logged) (acc : List Access) (h : t.log = l.log ++ acc) :
    log_since l t = acc := by
  simp [log_since, h]

theorem log_runs_refl (m : Bool) (l : Logged) : log_runs m m l l :=
  ⟨[], by simp, fun _ => rfl⟩

theorem log_runs_on_phys (a b : Bool) (l t : Logged) (g : Phys → Phys)
    (h : log_runs a b l t) : log_runs a b l (t.on_phys g) := h

theorem log_runs_disable (a b : Bool) (l t : Logged) (h : log_runs a b l t) :
    log_runs a true l t.target_disable_irq := by
  obtain ⟨acc, hlog, hacc⟩ := h
  refine ⟨acc ++ [Access.irq_off], by simp [hlog], ?_⟩
  intro rest
  rw [List.append_assoc, hacc]
  cases b <;> rfl

theorem log_runs_enable (a b : Bool) (l t : Logged) (h : log_runs a b l t) :
    log_runs a false l t.target_enable_irq := by
  obtain ⟨acc, hlog, hacc⟩ := h
  refine ⟨acc ++ [Access.irq_on], by simp [hlog], ?_⟩
  intro rest
  rw [List.append_assoc, hacc]
  cases b <;> rfl

theorem log_runs_status_rmw (a : Bool) (l t : Logged) (f : Nat → Nat)
    (h : log_runs a true l t) : log_runs a true l (t.status_rmw f) := by
  obtain ⟨acc, hlog, hacc⟩ := h
  refine ⟨acc ++ [Access.status_rmw], by simp [hlog], ?_⟩
  intro rest
  rw [List.append_assoc, hacc]
  rfl

theorem log_runs_call_jd_crc16 (a b : Bool) (l t : Logged) (offset size : Nat)
    (h : log_runs a b l t) : log_runs a b l (t.call_jd_crc16 offset size) := by
  obtain ⟨acc, hlog, hacc⟩ := h
  refine ⟨acc ++ [Access.jd_crc16 offset size], by simp [hlog], ?_⟩
  intro rest
  rw [List.append_assoc, hacc]
  cases b <;> rfl

/-- The retime step masks, updates status at most twice, and unmasks. -/
theorem log_runs_set_tick_timer (d : Decls) (env : Env) (c : Nat) (a b : Bool) (l t : Logged)
    (h : log_runs a b l t) : log_runs a false l (set_tick_timer_logged d env c t) := by
  have h0 : log_runs a true l t.target_disable_irq := log_runs_disable a b l t h
  have h1 : log_runs a true l
      (if c ≠ 0 then t.target_disable_irq.status_rmw (fun st => st &&& (255 ^^^ c))
        else t.target_disable_irq) := by
    split_ifs
    · exact log_runs_status_rmw a l _ _ h0
    · exact h0
  unfold set_tick_timer_logged
  apply log_runs_enable a true
  simp only []
  split_ifs
  · exact log_runs_on_phys a true l _ _ (log_runs_on_phys a true l _ _
      (log_runs_status_rmw a l _ _ (log_runs_status_rmw a l _ _ h0)))
  · exact log_runs_on_phys a true l _ _ (log_runs_status_rmw a l _ _
      (log_runs_status_rmw a l _ _ h0))
  · exact log_runs_status_rmw a l _ _ h0
  · exact log_runs_on_phys a true l _ _ (log_runs_on_phys a true l _ _
      (log_runs_status_rmw a l _ _ h0))
  · exact log_runs_on_phys a true l _ _ (log_runs_status_rmw a l _ _ h0)
  · exact h0

theorem log_runs_tx_done (d : Decls) (env : Env) (a b : Bool) (l t : Logged)
    (h : log_runs a b l t) : log_runs a false l (tx_done_logged d env t) :=
  log_runs_set_tick_timer d env _ a b l _ (log_runs_on_phys a b l t _ h)

theorem log_runs_jd_tx_completed (d : Decls) (env : Env) (errCode : Int) (a b : Bool)
    (l t : Logged) (h : log_runs a b l t) :
    log_runs a false l (jd_tx_completed_logged d env errCode t) :=
  log_runs_tx_done d env a b l _
    (log_runs_on_phys a b l _ _ (log_runs_on_phys a b l t _ h))

theorem log_runs_rx_timeout (d : Decls) (env : Env) (a b : Bool) (l t : Logged)
    (h : log_runs a b l t) : log_runs a false l (rx_timeout_logged d env t) := by
  unfold rx_timeout_logged
  apply log_runs_enable a false
  apply log_runs_set_tick_timer d env _ a true
  exact log_runs_on_phys a true l _ _ (log_runs_on_phys a true l _ _
    (log_runs_on_phys a true l _ _ (log_runs_disable a b l t h)))

theorem log_runs_jd_packet_ready (d : Decls) (env : Env) (a b : Bool) (l t : Logged)
    (h : log_runs a b l t) : log_runs a false l (jd_packet_ready_logged d env t) := by
  have h0 : log_runs a true l (t.target_disable_irq.on_phys (fun s => { s with txPending := 1 })) :=
    log_runs_on_phys a true l _ _ (log_runs_disable a b l t h)
  unfold jd_packet_ready_logged
  simp only []
  split_ifs
  · exact log_runs_enable a false l _ (log_runs_set_tick_timer d env _ a true l _ h0)
  · exact log_runs_enable a true l _ h0

theorem log_runs_setup_rx_timeout (d : Decls) (env : Env) (a b : Bool) (l t : Logged)
    (h : log_runs a b l t) : ∃ c, log_runs a c l (setup_rx_timeout_logged d env t) := by
  unfold setup_rx_timeout_logged
  simp only []
  split_ifs
  · exact ⟨false, log_runs_rx_timeout d env a b l _
      (log_runs_on_phys a b l _ _ (log_runs_on_phys a b l t _ h))⟩
  · exact ⟨b, log_runs_on_phys a b l _ _
      (log_runs_on_phys a b l _ _ (log_runs_on_phys a b l t _ h))⟩
  · exact ⟨false, log_runs_set_tick_timer d env _ a b l t h⟩

theorem log_runs_flush_tx_queue (d : Decls) (env : Env) (a b : Bool) (l t : Logged)
    (h : log_runs a b l t) : log_runs a false l (flush_tx_queue_logged d env t) := by
  have h0 : log_runs a true l t.target_disable_irq := log_runs_disable a b l t h
  have h1 : log_runs a false l
      (((t.target_disable_irq.status_rmw (fun st => st ||| JD_STATUS_TX_ACTIVE)).target_enable_irq).on_phys
        (fun s => { s with txPending := 0 })) :=
    log_runs_on_phys a false l _ _ (log_runs_enable a true l _ (log_runs_status_rmw a l _ _ h0))
  unfold flush_tx_queue_logged
  simp only []
  split_ifs
  · exact log_runs_enable a true l _ h0
  · have h2 : log_runs a false l
        ((((t.target_disable_irq.status_rmw (fun st => st ||| JD_STATUS_TX_ACTIVE)).target_enable_irq).on_phys
          (fun s => { s with txPending := 0 })).on_phys
          (fun s => { emit Event.jd_tx_get_frame s with txFrame := env.jd_tx_get_frame })) :=
      log_runs_on_phys a false l _ _ h1
    split
    · split
      · exact log_runs_tx_done d env a false l _ h1
      · exact log_runs_tx_done d env a false l _ h2
    · split
      · split
        · exact log_runs_on_phys a false l _ _ (log_runs_tx_done d env a false l _
            (log_runs_on_phys a false l _ _ (log_runs_on_phys a false l _ _
              (log_runs_on_phys a false l _ _ h1))))
        · exact log_runs_on_phys a false l _ _ (log_runs_tx_done d env a false l _
            (log_runs_on_phys a false l _ _ (log_runs_on_phys a false l _ _
              (log_runs_on_phys a false l _ _ h2))))
      · split
        · exact log_runs_set_tick_timer d env _ a false l _
            (log_runs_on_phys a false l _ _ (log_runs_on_phys a false l _ _ h1))
        · exact log_runs_set_tick_timer d env _ a false l _
            (log_runs_on_phys a false l _ _ (log_runs_on_phys a false l _ _ h2))

theorem log_runs_tick (d : Decls) (env : Env) (a b : Bool) (l t u : Logged)
    (h : log_runs a b l t) (hu : tick_logged d env t = some u) : log_runs a false l u := by
  unfold tick_logged at hu
  split_ifs at hu
  simp only [Option.some.injEq] at hu
  rw [← hu]
  exact log_runs_set_tick_timer d env _ a b l t h

/-- The retime step observes mask calls and updates of `status` only. -/
theorem set_tick_timer_logged_log (d : Decls) (env : Env) (c : Nat) (l : Logged) :
    ∃ acc, (set_tick_timer_logged d env c l).log = l.log ++ acc ∧
      ∀ x ∈ acc, x = Access.irq_off ∨ x = Access.irq_on ∨ x = Access.status_rmw := by
  unfold set_tick_timer_logged
  simp only [Logged.target_disable_irq, Logged.target_enable_irq, Logged.status_rmw,
    Logged.on_phys]
  split_ifs <;> simp

theorem set_tick_timer_logged_rxFrame (d : Decls) (env : Env) (c : Nat) (l : Logged) :
    (set_tick_timer_logged d env c l).phys.rxFrame = l.phys.rxFrame := by
  rw [set_tick_timer_logged_phys, set_tick_timer_rxFrame]

/-- The steps observed by `jd_rx_completed`: those of the retime step, then the call of
`jd_crc16` when the frame has a size, `dataLeft` is not negative and the frame is not
short. -/
theorem jd_rx_completed_logged_log (d : Decls) (env : Env) (dataLeft : Int) (l : Logged) :
    (jd_rx_completed_logged d env dataLeft l).log =
      (set_tick_timer_logged d env JD_STATUS_RX_ACTIVE
        (l.on_phys (emit (Event.jd_debug_signal_read 0)))).log ++
        (if frame_size d l.phys.rxFrame ≠ 0 ∧ 0 ≤ dataLeft ∧
            JD_FRAME_SIZE d l.phys.rxFrame ≤ rx_txSize d dataLeft
          then [Access.jd_crc16 2 (u32 ((JD_FRAME_SIZE d l.phys.rxFrame : Int) - 2))]
          else []) := by
  have hrx : (set_tick_timer_logged d env JD_STATUS_RX_ACTIVE
      (l.on_phys (emit (Event.jd_debug_signal_read 0)))).phys.rxFrame = l.phys.rxFrame := by
    rw [set_tick_timer_logged_rxFrame]
    rfl
  unfold jd_rx_completed_logged
  simp only [hrx]
  by_cases h1 : frame_size d l.phys.rxFrame = 0
  · simp [h1]
  · by_cases h2 : dataLeft < 0
    · have h2n : ¬ (0 ≤ dataLeft) := by omega
      simp [h1, h2, h2n, Logged.on_phys]
    · have h2p : 0 ≤ dataLeft := by omega
      by_cases h3 : rx_txSize d dataLeft < JD_FRAME_SIZE d l.phys.rxFrame
      · have h3n : ¬ (JD_FRAME_SIZE d l.phys.rxFrame ≤ rx_txSize d dataLeft) := by omega
        simp [h1, h2, h2p, h3, h3n, Logged.on_phys]
      · have h3p : JD_FRAME_SIZE d l.phys.rxFrame ≤ rx_txSize d dataLeft := by omega
        simp only [h1, h2, h2p, h3, h3p, if_false, ne_eq, not_false_eq_true, and_self, if_true]
        split_ifs <;> simp [Logged.on_phys, Logged.call_jd_crc16]

theorem log_runs_jd_rx_completed (d : Decls) (env : Env) (dataLeft : Int) (a b : Bool)
    (l t : Logged) (h : log_runs a b l t) :
    log_runs a false l (jd_rx_completed_logged d env dataLeft t) := by
  have h0 := log_runs_set_tick_timer d env JD_STATUS_RX_ACTIVE a b l _
    (log_runs_on_phys a b l t (emit (Event.jd_debug_signal_read 0)) h)
  obtain ⟨acc, hlog, hacc⟩ := h0
  refine ⟨acc ++ (if frame_size d t.phys.rxFrame ≠ 0 ∧ 0 ≤ dataLeft ∧
      JD_FRAME_SIZE d t.phys.rxFrame ≤ rx_txSize d dataLeft
    then [Access.jd_crc16 2 (u32 ((JD_FRAME_SIZE d t.phys.rxFrame : Int) - 2))]
    else []), ?_, ?_⟩
  · rw [jd_rx_completed_logged_log, hlog, List.append_assoc]
  · intro rest
    rw [List.append_assoc, hacc]
    split_ifs <;> rfl

/-! ## The observed mask calls are the calls of the trace -/

theorem irq_agree_refl (l : Logged) : irq_agree l l :=
  ⟨[], [], by simp, by simp, rfl⟩

theorem irq_agree_on_phys (l t : Logged) (g : Phys → Phys)
    (hg : ∀ s, ∃ evs, (g s).trace = s.trace ++ evs ∧ irq_calls evs = [])
    (h : irq_agree l t) : irq_agree l (t.on_phys g) := by
  obtain ⟨evs, acc, htr, hlog, hirq⟩ := h
  obtain ⟨evs2, h2, hn⟩ := hg t.phys
  refine ⟨evs ++ evs2, acc, ?_, hlog, ?_⟩
  · show (g t.phys).trace = _
    rw [h2, htr, List.append_assoc]
  · rw [irq_calls, List.filterMap_append]
    show irq_calls evs ++ irq_calls evs2 = _
    rw [hn, hirq, List.append_nil]

theorem irq_agree_disable (l t : Logged) (h : irq_agree l t) :
    irq_agree l t.target_disable_irq := by
  obtain ⟨evs, acc, htr, hlog, hirq⟩ := h
  refine ⟨evs ++ [Event.target_disable_irq], acc ++ [Access.irq_off], ?_, ?_, ?_⟩
  · show t.phys.trace ++ _ = _
    rw [htr, List.append_assoc]
  · show t.log ++ _ = _
    rw [hlog, List.append_assoc]
  · rw [irq_calls, List.filterMap_append, List.filter_append]
    show irq_calls evs ++ _ = _
    rw [hirq]
    rfl

theorem irq_agree_enable (l t : Logged) (h : irq_agree l t) :
    irq_agree l t.target_enable_irq := by
  obtain ⟨evs, acc, htr, hlog, hirq⟩ := h
  refine ⟨evs ++ [Event.target_enable_irq], acc ++ [Access.irq_on], ?_, ?_, ?_⟩
  · show t.phys.trace ++ _ = _
    rw [htr, List.append_assoc]
  · show t.log ++ _ = _
    rw [hlog, List.append_assoc]
  · rw [irq_calls, List.filterMap_append, List.filter_append]
    show irq_calls evs ++ _ = _
    rw [hirq]
    rfl

theorem irq_agree_status_rmw (l t : Logged) (f : Nat → Nat) (h : irq_agree l t) :
    irq_agree l (t.status_rmw f) := by
  obtain ⟨evs, acc, htr, hlog, hirq⟩ := h
  refine ⟨evs, acc ++ [Access.status_rmw], htr, ?_, ?_⟩
  · show t.log ++ _ = _
    rw [hlog, List.append_assoc]
  · rw [List.filter_append, hirq]
    simp [Access.is_irq]

theorem irq_agree_call_jd_crc16 (l t : Logged) (offset size : Nat) (h : irq_agree l t) :
    irq_agree l (t.call_jd_crc16 offset size) := by
  obtain ⟨evs, acc, htr, hlog, hirq⟩ := h
  refine ⟨evs, acc ++ [Access.jd_crc16 offset size], htr, ?_, ?_⟩
  · show t.log ++ _ = _
    rw [hlog, List.append_assoc]
  · rw [List.filter_append, hirq]
    simp [Access.is_irq]

/-- A call that is not a mask call. -/
theorem emit_no_irq (e : Event) (he : e.irq = none) (s : Phys) :
    ∃ evs, (emit e s).trace = s.trace ++ evs ∧ irq_calls evs = [] :=
  ⟨[e], rfl, by simp [irq_calls, he]⟩

theorem tim_set_timer_no_irq (delta : Int) (cb : Callback) (s : Phys) :
    ∃ evs, (tim_set_timer delta cb s).trace = s.trace ++ evs ∧ irq_calls evs = [] :=
  ⟨[Event.tim_set_timer delta cb], rfl, rfl⟩

/-- A statement that makes no call. -/
theorem no_call_no_irq (g : Phys → Phys) (hg : ∀ s, (g s).trace = s.trace) (s : Phys) :
    ∃ evs, (g s).trace = s.trace ++ evs ∧ irq_calls evs = [] :=
  ⟨[], by simp [hg], rfl⟩

theorem irq_agree_set_tick_timer (d : Decls) (env : Env) (c : Nat) (l t : Logged)
    (h : irq_agree l t) : irq_agree l (set_tick_timer_logged d env c t) := by
  have h0 : irq_agree l t.target_disable_irq := irq_agree_disable l t h
  unfold set_tick_timer_logged
  apply irq_agree_enable
  simp only []
  split_ifs
  · exact irq_agree_on_phys l _ _ (tim_set_timer_no_irq _ _) (irq_agree_on_phys l _ _
      (emit_no_irq _ rfl) (irq_agree_status_rmw l _ _ (irq_agree_status_rmw l _ _ h0)))
  · exact irq_agree_on_phys l _ _ (tim_set_timer_no_irq _ _)
      (irq_agree_status_rmw l _ _ (irq_agree_status_rmw l _ _ h0))
  · exact irq_agree_status_rmw l _ _ h0
  · exact irq_agree_on_phys l _ _ (tim_set_timer_no_irq _ _) (irq_agree_on_phys l _ _
      (emit_no_irq _ rfl) (irq_agree_status_rmw l _ _ h0))
  · exact irq_agree_on_phys l _ _ (tim_set_timer_no_irq _ _) (irq_agree_status_rmw l _ _ h0)
  · exact h0

theorem irq_agree_tx_done (d : Decls) (env : Env) (l t : Logged) (h : irq_agree l t) :
    irq_agree l (tx_done_logged d env t) :=
  irq_agree_set_tick_timer d env _ l _ (irq_agree_on_phys l t _ (emit_no_irq _ rfl) h)

theorem irq_agree_jd_tx_completed (d : Decls) (env : Env) (errCode : Int) (l t : Logged)
    (h : irq_agree l t) : irq_agree l (jd_tx_completed_logged d env errCode t) :=
  irq_agree_tx_done d env l _ (irq_agree_on_phys l _ _ (no_call_no_irq _ (fun _ => rfl))
    (irq_agree_on_phys l t _ (emit_no_irq _ rfl) h))

theorem irq_agree_rx_timeout (d : Decls) (env : Env) (l t : Logged) (h : irq_agree l t) :
    irq_agree l (rx_timeout_logged d env t) := by
  unfold rx_timeout_logged
  apply irq_agree_enable
  apply irq_agree_set_tick_timer
  exact irq_agree_on_phys l _ _ (emit_no_irq _ rfl) (irq_agree_on_phys l _ _ (emit_no_irq _ rfl)
    (irq_agree_on_phys l _ _ (no_call_no_irq _ (fun _ => rfl)) (irq_agree_disable l t h)))

theorem irq_agree_jd_packet_ready (d : Decls) (env : Env) (l t : Logged) (h : irq_agree l t) :
    irq_agree l (jd_packet_ready_logged d env t) := by
  have h0 : irq_agree l (t.target_disable_irq.on_phys (fun s => { s with txPending := 1 })) :=
    irq_agree_on_phys l _ _ (no_call_no_irq _ (fun _ => rfl)) (irq_agree_disable l t h)
  unfold jd_packet_ready_logged
  simp only []
  split_ifs
  · exact irq_agree_enable l _ (irq_agree_set_tick_timer d env _ l _ h0)
  · exact irq_agree_enable l _ h0

theorem irq_agree_setup_rx_timeout (d : Decls) (env : Env) (l t : Logged) (h : irq_agree l t) :
    irq_agree l (setup_rx_timeout_logged d env t) := by
  have h0 : irq_agree l ((t.on_phys (emit Event.uart_flush_rx)).on_phys
      (fun s => { s with rxFrame := env.uart_flush_rx s.rxFrame })) :=
    irq_agree_on_phys l _ _ (no_call_no_irq _ (fun _ => rfl))
      (irq_agree_on_phys l t _ (emit_no_irq _ rfl) h)
  unfold setup_rx_timeout_logged
  simp only []
  split_ifs
  · exact irq_agree_rx_timeout d env l _ h0
  · exact irq_agree_on_phys l _ _ (tim_set_timer_no_irq _ _) h0
  · exact irq_agree_set_tick_timer d env _ l t h

theorem irq_agree_tick (d : Decls) (env : Env) (l t u : Logged)
    (h : irq_agree l t) (hu : tick_logged d env t = some u) : irq_agree l u := by
  unfold tick_logged at hu
  split_ifs at hu
  simp only [Option.some.injEq] at hu
  rw [← hu]
  exact irq_agree_set_tick_timer d env _ l t h

theorem irq_agree_flush_tx_queue (d : Decls) (env : Env) (l t : Logged) (h : irq_agree l t) :
    irq_agree l (flush_tx_queue_logged d env t) := by
  have h0 : irq_agree l t.target_disable_irq := irq_agree_disable l t h
  have h1 : irq_agree l
      (((t.target_disable_irq.status_rmw (fun st => st ||| JD_STATUS_TX_ACTIVE)).target_enable_irq).on_phys
        (fun s => { s with txPending := 0 })) :=
    irq_agree_on_phys l _ _ (no_call_no_irq _ (fun _ => rfl))
      (irq_agree_enable l _ (irq_agree_status_rmw l _ _ h0))
  have h2 : irq_agree l
      ((((t.target_disable_irq.status_rmw (fun st => st ||| JD_STATUS_TX_ACTIVE)).target_enable_irq).on_phys
        (fun s => { s with txPending := 0 })).on_phys
        (fun s => { emit Event.jd_tx_get_frame s with txFrame := env.jd_tx_get_frame })) :=
    irq_agree_on_phys l _ _ (fun _ => ⟨[Event.jd_tx_get_frame], rfl, rfl⟩) h1
  unfold flush_tx_queue_logged
  simp only []
  split_ifs
  · exact irq_agree_enable l _ h0
  · split
    · split
      · exact irq_agree_tx_done d env l _ h1
      · exact irq_agree_tx_done d env l _ h2
    · split
      · split
        · exact irq_agree_on_phys l _ _ (no_call_no_irq _ (fun _ => rfl))
            (irq_agree_tx_done d env l _
              (irq_agree_on_phys l _ _ (no_call_no_irq _ (fun _ => rfl))
                (irq_agree_on_phys l _ _ (emit_no_irq _ rfl)
                  (irq_agree_on_phys l _ _ (emit_no_irq _ rfl) h1))))
        · exact irq_agree_on_phys l _ _ (no_call_no_irq _ (fun _ => rfl))
            (irq_agree_tx_done d env l _
              (irq_agree_on_phys l _ _ (no_call_no_irq _ (fun _ => rfl))
                (irq_agree_on_phys l _ _ (emit_no_irq _ rfl)
                  (irq_agree_on_phys l _ _ (emit_no_irq _ rfl) h2))))
      · split
        · exact irq_agree_set_tick_timer d env _ l _
            (irq_agree_on_phys l _ _ (emit_no_irq _ rfl)
              (irq_agree_on_phys l _ _ (emit_no_irq _ rfl) h1))
        · exact irq_agree_set_tick_timer d env _ l _
            (irq_agree_on_phys l _ _ (emit_no_irq _ rfl)
              (irq_agree_on_phys l _ _ (emit_no_irq _ rfl) h2))

theorem bump_uart_error_no_irq (s : Phys) :
    ∃ evs, (bump_uart_error s).trace = s.trace ++ evs ∧ irq_calls evs = [] :=
  no_call_no_irq _ (fun _ => rfl) s

theorem bump_packets_dropped_no_irq (s : Phys) :
    ∃ evs, (bump_packets_dropped s).trace = s.trace ++ evs ∧ irq_calls evs = [] :=
  no_call_no_irq _ (fun _ => rfl) s

theorem bump_packets_received_no_irq (s : Phys) :
    ∃ evs, (bump_packets_received s).trace = s.trace ++ evs ∧ irq_calls evs = [] :=
  no_call_no_irq _ (fun _ => rfl) s

theorem irq_agree_jd_rx_completed (d : Decls) (env : Env) (dataLeft : Int) (l t : Logged)
    (h : irq_agree l t) : irq_agree l (jd_rx_completed_logged d env dataLeft t) := by
  have h0 : irq_agree l (set_tick_timer_logged d env JD_STATUS_RX_ACTIVE
      (t.on_phys (emit (Event.jd_debug_signal_read 0)))) :=
    irq_agree_set_tick_timer d env _ l _ (irq_agree_on_phys l t _ (emit_no_irq _ rfl) h)
  have h1 := irq_agree_call_jd_crc16 l _ 2
    (u32 ((JD_FRAME_SIZE d (set_tick_timer_logged d env JD_STATUS_RX_ACTIVE
      (t.on_phys (emit (Event.jd_debug_signal_read 0)))).phys.rxFrame : Int) - 2)) h0
  unfold jd_rx_completed_logged
  simp only []
  split_ifs
  · exact h0
  · exact irq_agree_on_phys l _ _ bump_uart_error_no_irq h0
  · exact irq_agree_on_phys l _ _ bump_uart_error_no_irq h0
  · exact irq_agree_on_phys l _ _ bump_uart_error_no_irq h1
  · exact irq_agree_on_phys l _ _ bump_uart_error_no_irq h1
  · exact irq_agree_on_phys l _ _ bump_packets_dropped_no_irq h1
  · exact irq_agree_on_phys l _ _ bump_packets_dropped_no_irq
      (irq_agree_on_phys l _ _ (emit_no_irq _ rfl)
        (irq_agree_on_phys l _ _ bump_packets_received_no_irq h1))
  · exact irq_agree_on_phys l _ _ (emit_no_irq _ rfl)
      (irq_agree_on_phys l _ _ bump_packets_received_no_irq h1)

theorem irq_agree_jd_line_falling (d : Decls) (env : Env) (l t u : Logged)
    (h : irq_agree l t) (hu : jd_line_falling_logged d env t = some u) : irq_agree l u := by
  have h0 : irq_agree l ((((t.on_phys (emit (Event.jd_debug_signal_read 1))).status_rmw
      (fun st => st ||| JD_STATUS_RX_ACTIVE)).on_phys
        (fun s => { s with rxFrame := zero_words s.rxFrame })).on_phys
          (emit Event.uart_wait_high)) :=
    irq_agree_on_phys l _ _ (emit_no_irq _ rfl)
      (irq_agree_on_phys l _ _ (no_call_no_irq _ (fun _ => rfl))
        (irq_agree_status_rmw l _ _ (irq_agree_on_phys l t _ (emit_no_irq _ rfl) h)))
  unfold jd_line_falling_logged at hu
  simp only [] at hu
  split_ifs at hu <;> simp only [Option.some.injEq] at hu <;> rw [← hu]
  · exact irq_agree_rx_timeout d env l _ h0
  · exact irq_agree_on_phys l _ _ (tim_set_timer_no_irq _ _)
      (irq_agree_on_phys l _ _ (emit_no_irq _ rfl) h0)
  · exact irq_agree_on_phys l _ _ (emit_no_irq _ rfl) h0

/-- For every entry point, the observed mask calls are the mask calls of the trace. -/
theorem irq_agree_step (d : Decls) (op : Op) (env : Env) (l t : Logged)
    (ht : step_logged d op env l = some t) : irq_agree l t := by
  cases op <;> simp only [step_logged, Option.some.injEq] at ht
  case _jd_phys_start => rw [← ht]; exact irq_agree_set_tick_timer d env _ l l (irq_agree_refl l)
  case jd_packet_ready => rw [← ht]; exact irq_agree_jd_packet_ready d env l l (irq_agree_refl l)
  case jd_line_falling => exact irq_agree_jd_line_falling d env l l t (irq_agree_refl l) ht
  case jd_rx_completed dl =>
    rw [← ht]; exact irq_agree_jd_rx_completed d env dl l l (irq_agree_refl l)
  case jd_tx_completed ec =>
    rw [← ht]; exact irq_agree_jd_tx_completed d env ec l l (irq_agree_refl l)
  case tick => exact irq_agree_tick d env l l t (irq_agree_refl l) ht
  case flush_tx_queue => rw [← ht]; exact irq_agree_flush_tx_queue d env l l (irq_agree_refl l)
  case setup_rx_timeout =>
    rw [← ht]; exact irq_agree_setup_rx_timeout d env l l (irq_agree_refl l)
  case rx_timeout => rw [← ht]; exact irq_agree_rx_timeout d env l l (irq_agree_refl l)
  case uart_dma bytes =>
    rw [← ht]
    exact irq_agree_on_phys l l _ (no_call_no_irq _ (fun _ => rfl)) (irq_agree_refl l)

theorem irq_calls_of_agree (l t : Logged) (h : irq_agree l t) :
    irq_calls (calls_since l.phys t.phys) = (log_since l t).filter Access.is_irq := by
  obtain ⟨evs, acc, htr, hlog, hirq⟩ := h
  rw [log_since_of_log l t acc hlog]
  have hc : calls_since l.phys t.phys = evs := by simp [calls_since, htr]
  rw [hc, hirq]

theorem rmw_masked_of_runs (a b : Bool) (l t : Logged) (h : log_runs a b l t) :
    rmw_masked a (log_since l t) = true := by
  obtain ⟨acc, hlog, hacc⟩ := h
  rw [log_since_of_log l t acc hlog]
  have h0 := hacc []
  rw [List.append_nil] at h0
  rw [h0]
  cases b <;> rfl

/-- Every entry point other than `jd_line_falling` updates `status` with interrupts
masked only, whatever the mask state it starts in. -/
theorem log_runs_step (d : Decls) (op : Op) (env : Env) (m : Bool) (l t : Logged)
    (hop : op ≠ Op.jd_line_falling) (ht : step_logged d op env l = some t) :
    ∃ c, log_runs m c l t := by
  have hr := log_runs_refl m l
  cases op <;> simp only [step_logged, Option.some.injEq] at ht
  case _jd_phys_start => rw [← ht]; exact ⟨false, log_runs_set_tick_timer d env _ m m l l hr⟩
  case jd_packet_ready => rw [← ht]; exact ⟨false, log_runs_jd_packet_ready d env m m l l hr⟩
  case jd_line_falling => exact absurd rfl hop
  case jd_rx_completed dl =>
    rw [← ht]; exact ⟨false, log_runs_jd_rx_completed d env dl m m l l hr⟩
  case jd_tx_completed ec =>
    rw [← ht]; exact ⟨false, log_runs_jd_tx_completed d env ec m m l l hr⟩
  case tick => exact ⟨false, log_runs_tick d env m m l l t hr ht⟩
  case flush_tx_queue => rw [← ht]; exact ⟨false, log_runs_flush_tx_queue d env m m l l hr⟩
  case setup_rx_timeout => rw [← ht]; exact log_runs_setup_rx_timeout d env m m l l hr
  case rx_timeout => rw [← ht]; exact ⟨false, log_runs_rx_timeout d env m m l l hr⟩
  case uart_dma bytes => rw [← ht]; exact ⟨m, log_runs_on_phys m m l l _ hr⟩

/-- The first step observed in `jd_line_falling` when it does not panic is the update
of `status`: no mask call comes before it. -/
theorem jd_line_falling_logged_log (d : Decls) (env : Env) (l : Logged)
    (hrx : l.phys.status &&& JD_STATUS_RX_ACTIVE = 0) :
    ∃ u rest, jd_line_falling_logged d env l = some u ∧
      u.log = l.log ++ Access.status_rmw :: rest := by
  have h0 : ¬ ((l.on_phys (emit (Event.jd_debug_signal_read 1))).phys.status
      &&& JD_STATUS_RX_ACTIVE ≠ 0) := by
    intro h
    exact h hrx
  unfold jd_line_falling_logged
  simp only []
  rw [if_neg h0]
  split_ifs
  · obtain ⟨acc, hacc, _⟩ := log_runs_rx_timeout d env false false _ _
      (log_runs_refl false ((((l.on_phys (emit (Event.jd_debug_signal_read 1))).status_rmw
        (fun st => st ||| JD_STATUS_RX_ACTIVE)).on_phys
          (fun s => { s with rxFrame := zero_words s.rxFrame })).on_phys
            (emit Event.uart_wait_high)))
    refine ⟨_, acc, rfl, ?_⟩
    rw [hacc]
    show (l.log ++ [Access.status_rmw]) ++ acc = _
    rw [List.append_assoc]
    rfl
  · exact ⟨_, [], rfl, rfl⟩
  · exact ⟨_, [], rfl, rfl⟩

/-- The checksum call among the steps observed by `jd_rx_completed`: there is one exactly
when the frame has a size, `dataLeft` is not negative and the frame is not short, and its
arguments are offset 2 and `declaredSize - 2` as `uint32_t`. -/
theorem jd_rx_completed_logged_crc (d : Decls) (env : Env) (dataLeft : Int) (l : Logged)
    (offset size : Nat) :
    Access.jd_crc16 offset size ∈ log_since l (jd_rx_completed_logged d env dataLeft l) ↔
      (frame_size d l.phys.rxFrame ≠ 0 ∧ 0 ≤ dataLeft ∧
        JD_FRAME_SIZE d l.phys.rxFrame ≤ rx_txSize d dataLeft) ∧
      offset = 2 ∧ size = u32 ((JD_FRAME_SIZE d l.phys.rxFrame : Int) - 2) := by
  obtain ⟨acc, hacc, hmem⟩ := set_tick_timer_logged_log d env JD_STATUS_RX_ACTIVE
    (l.on_phys (emit (Event.jd_debug_signal_read 0)))
  have hlog := jd_rx_completed_logged_log d env dataLeft l
  rw [hacc] at hlog
  have hlog2 : (jd_rx_completed_logged d env dataLeft l).log = l.log ++ (acc ++
      (if frame_size d l.phys.rxFrame ≠ 0 ∧ 0 ≤ dataLeft ∧
          JD_FRAME_SIZE d l.phys.rxFrame ≤ rx_txSize d dataLeft
        then [Access.jd_crc16 2 (u32 ((JD_FRAME_SIZE d l.phys.rxFrame : Int) - 2))]
        else [])) := by
    rw [hlog, List.append_assoc]
    rfl
  rw [log_since_of_log l _ _ hlog2, List.mem_append]
  constructor
  · rintro (h | h)
    · rcases hmem _ h with h1 | h1 | h1 <;> cases h1
    · split_ifs at h with hc
      · rw [List.mem_singleton] at h
        cases h
        exact ⟨hc, rfl, rfl⟩
      · cases h
  · rintro ⟨hc, rfl, rfl⟩
    right
    rw [if_pos hc]
    exact List.mem_singleton.mpr rfl

/-! ## Interrupt masking around the updates of `status` -/

/-- C14, as the code has it: in every entry point and timer callback other than
`jd_line_falling`, run observed from any state and entered with interrupts masked or
not, every read-modify-write of `status` happens after a `target_disable_irq()` with no
`target_enable_irq()` in between (non-nesting mask); the observed run is the run of
`step` on the state, and its mask calls are the mask calls of the trace. The rest of
C14 fails: `jd_line_falling` entered with `JD_STATUS_RX_ACTIVE` clear does
`status |= JD_STATUS_RX_ACTIVE` as its first observed step, before any mask call, so
that the update is unmasked unless the handler is entered masked. -/
theorem status_rmw_masked (d : Decls) (op : Op) (env : Env) (m : Bool) (l t : Logged)
    (hop : op ≠ Op.jd_line_falling) (ht : step_logged d op env l = some t) :
    step d op env l.phys = some t.phys ∧
      irq_calls (calls_since l.phys t.phys) = (log_since l t).filter Access.is_irq ∧
      rmw_masked m (log_since l t) = true ∧
      (l.phys.status &&& JD_STATUS_RX_ACTIVE = 0 →
        ∃ u rest, step_logged d Op.jd_line_falling env l = some u ∧
          step d Op.jd_line_falling env l.phys = some u.phys ∧
          irq_calls (calls_since l.phys u.phys) = (log_since l u).filter Access.is_irq ∧
          log_since l u = Access.status_rmw :: rest ∧
          rmw_masked false (log_since l u) = false) := by
  refine ⟨?_, irq_calls_of_agree l t (irq_agree_step d op env l t ht), ?_, ?_⟩
  · rw [← step_logged_phys, ht]
    rfl
  · obtain ⟨c, hc⟩ := log_runs_step d op env m l t hop ht
    exact rmw_masked_of_runs m c l t hc
  · intro hrx
    obtain ⟨u, rest, hu, hlog⟩ := jd_line_falling_logged_log d env l hrx
    have hsince : log_since l u = Access.status_rmw :: rest := log_since_of_log l u _ hlog
    refine ⟨u, rest, hu, ?_, irq_calls_of_agree l u (irq_agree_step d Op.jd_line_falling env l u hu), hsince, ?_⟩
    · rw [← step_logged_phys]
      show (jd_line_falling_logged d env l).map _ = _
      rw [hu]
      rfl
    · rw [hsince]
      rfl

set_option maxRecDepth 100000 in
theorem status_rmw_masked_witness :
    log_since ⟨queued, []⟩ (flush_tx_queue_logged jacdac (queue_has good_frame) ⟨queued, []⟩) =
        [Access.irq_off, Access.status_rmw, Access.irq_on, Access.irq_off, Access.status_rmw,
          Access.irq_on] ∧
      (step jacdac Op.flush_tx_queue (queue_has good_frame) queued =
          some (flush_tx_queue_logged jacdac (queue_has good_frame) ⟨queued, []⟩).phys ∧
        irq_calls (calls_since queued
            (flush_tx_queue_logged jacdac (queue_has good_frame) ⟨queued, []⟩).phys) =
          (log_since ⟨queued, []⟩
            (flush_tx_queue_logged jacdac (queue_has good_frame) ⟨queued, []⟩)).filter
              Access.is_irq ∧
        rmw_masked false (log_since ⟨queued, []⟩
          (flush_tx_queue_logged jacdac (queue_has good_frame) ⟨queued, []⟩)) = true ∧
        (queued.status &&& JD_STATUS_RX_ACTIVE = 0 →
          ∃ u rest, step_logged jacdac Op.jd_line_falling (queue_has good_frame) ⟨queued, []⟩ =
              some u ∧
            step jacdac Op.jd_line_falling (queue_has good_frame) queued = some u.phys ∧
            irq_calls (calls_since queued u.phys) =
              (log_since ⟨queued, []⟩ u).filter Access.is_irq ∧
            log_since ⟨queued, []⟩ u = Access.status_rmw :: rest ∧
            rmw_masked false (log_since ⟨queued, []⟩ u) = false)) :=
  ⟨by decide,
    status_rmw_masked jacdac Op.flush_tx_queue (queue_has good_frame) false ⟨queued, []⟩
      (flush_tx_queue_logged jacdac (queue_has good_frame) ⟨queued, []⟩) (by decide) rfl⟩

set_option maxRecDepth 100000 in
/-- C14 fails as stated: `jd_line_falling` on the initial state sets
`JD_STATUS_RX_ACTIVE` and the update of `status` is the only step observed: between
entry and return the handler calls neither `target_disable_irq()` nor
`target_enable_irq()`, in the observed run as in the trace of `jd_line_falling`. -/
theorem line_falling_updates_status_unmasked :
    (step_logged jacdac Op.jd_line_falling quiet ⟨Phys.init jacdac, []⟩).map
        (fun t => (t.phys.status, log_since ⟨Phys.init jacdac, []⟩ t)) =
      some (JD_STATUS_RX_ACTIVE, [Access.status_rmw]) ∧
    rmw_masked false [Access.status_rmw] = false ∧
    (Phys.init jacdac).status = 0 ∧
    (jd_line_falling jacdac quiet (Phys.init jacdac)).map
        (fun t => (t.status, irq_calls (calls_since (Phys.init jacdac) t))) =
      some (JD_STATUS_RX_ACTIVE, []) := by
  decide

/-! ## The range read by the checksum -/

/-- C19: for every buffer of `sizeof(jd_frame_t)` bytes and every `dataLeft` with
`0 <= dataLeft <= sizeof(jd_frame_t)`, `jd_rx_completed` calls `jd_crc16` exactly when the
size member is not zero and the frame is not short, after the short-frame test; at that
call the arguments are offset 2 and length `declaredSize - 2` without wrap-around, with
`2 <= declaredSize <= sizeof - dataLeft <= sizeof`, so the bytes `[2, declaredSize)` read
lie inside the buffer and inside the part received, and they are the bytes the checksum
is computed of. The observed run is `jd_rx_completed` on the state. -/
theorem crc_range_within_buffer (d : Decls) (env : Env) (dataLeft : Int) (l : Logged)
    (hbase : d.frame_size_base = 12) (hbuf : l.phys.rxFrame.length = d.sizeof_jd_frame_t)
    (hsizeof : d.sizeof_jd_frame_t < 4294967296) (hdata : 0 ≤ dataLeft)
    (hmax : dataLeft ≤ d.sizeof_jd_frame_t) :
    (jd_rx_completed_logged d env dataLeft l).phys = jd_rx_completed d env dataLeft l.phys ∧
      ((∃ offset size, Access.jd_crc16 offset size ∈
            log_since l (jd_rx_completed_logged d env dataLeft l)) ↔
          frame_size d l.phys.rxFrame ≠ 0 ∧
            ¬ rx_txSize d dataLeft < JD_FRAME_SIZE d l.phys.rxFrame) ∧
      ∀ offset size, Access.jd_crc16 offset size ∈
          log_since l (jd_rx_completed_logged d env dataLeft l) →
        offset = 2 ∧ size = JD_FRAME_SIZE d l.phys.rxFrame - 2 ∧
          2 ≤ JD_FRAME_SIZE d l.phys.rxFrame ∧
          (JD_FRAME_SIZE d l.phys.rxFrame : Int) ≤ (d.sizeof_jd_frame_t : Int) - dataLeft ∧
          (d.sizeof_jd_frame_t : Int) - dataLeft ≤ d.sizeof_jd_frame_t ∧
          offset + size = JD_FRAME_SIZE d l.phys.rxFrame ∧
          offset + size ≤ l.phys.rxFrame.length ∧
          crc_input d l.phys.rxFrame = (l.phys.rxFrame.drop offset).take size ∧
          (crc_input d l.phys.rxFrame).length = size := by
  have hdecl : JD_FRAME_SIZE d l.phys.rxFrame = frame_size d l.phys.rxFrame + 12 := by
    rw [JD_FRAME_SIZE, hbase]
  have htx : (rx_txSize d dataLeft : Int) = (d.sizeof_jd_frame_t : Int) - dataLeft := by
    unfold rx_txSize u32
    rw [Int.toNat_of_nonneg (Int.emod_nonneg _ (by norm_num))]
    exact Int.emod_eq_of_lt (by omega) (by omega)
  refine ⟨jd_rx_completed_logged_phys d env dataLeft l, ?_, ?_⟩
  · constructor
    · rintro ⟨offset, size, h⟩
      obtain ⟨⟨h1, _, h3⟩, _⟩ := (jd_rx_completed_logged_crc d env dataLeft l offset size).mp h
      exact ⟨h1, by omega⟩
    · rintro ⟨h1, h3⟩
      exact ⟨2, _, (jd_rx_completed_logged_crc d env dataLeft l _ _).mpr
        ⟨⟨h1, hdata, by omega⟩, rfl, rfl⟩⟩
  · intro offset size h
    obtain ⟨⟨_, _, h3⟩, hoff, hsz⟩ := (jd_rx_completed_logged_crc d env dataLeft l offset size).mp h
    have hle : (JD_FRAME_SIZE d l.phys.rxFrame : Int) ≤ (d.sizeof_jd_frame_t : Int) - dataLeft := by
      rw [← htx]
      exact_mod_cast h3
    have hin : JD_FRAME_SIZE d l.phys.rxFrame ≤ l.phys.rxFrame.length := by
      rw [hbuf]; omega
    have hu : u32 ((JD_FRAME_SIZE d l.phys.rxFrame : Int) - 2) =
        JD_FRAME_SIZE d l.phys.rxFrame - 2 := by
      unfold u32
      have h2 : (2 : Int) ≤ (JD_FRAME_SIZE d l.phys.rxFrame : Int) := by omega
      rw [Int.emod_eq_of_lt (by omega) (by omega)]
      omega
    rw [hu] at hsz
    subst hoff
    subst hsz
    refine ⟨rfl, rfl, by omega, hle, by omega, by omega, by omega, ?_, ?_⟩
    · rw [crc_input, hu]
    · rw [crc_input, hu, List.length_take, List.length_drop]
      omega

set_option maxRecDepth 100000 in
theorem crc_range_within_buffer_witness :
    Access.jd_crc16 2 14 ∈
        log_since ⟨receiving good_frame, []⟩
          (jd_rx_completed_logged jacdac quiet 236 ⟨receiving good_frame, []⟩) ∧
      ((jd_rx_completed_logged jacdac quiet 236 ⟨receiving good_frame, []⟩).phys =
          jd_rx_completed jacdac quiet 236 (receiving good_frame) ∧
        ((∃ offset size, Access.jd_crc16 offset size ∈
              log_since ⟨receiving good_frame, []⟩
                (jd_rx_completed_logged jacdac quiet 236 ⟨receiving good_frame, []⟩)) ↔
            frame_size jacdac (receiving good_frame).rxFrame ≠ 0 ∧
              ¬ rx_txSize jacdac 236 < JD_FRAME_SIZE jacdac (receiving good_frame).rxFrame) ∧
        ∀ offset size, Access.jd_crc16 offset size ∈
            log_since ⟨receiving good_frame, []⟩
              (jd_rx_completed_logged jacdac quiet 236 ⟨receiving good_frame, []⟩) →
          offset = 2 ∧ size = JD_FRAME_SIZE jacdac (receiving good_frame).rxFrame - 2 ∧
            2 ≤ JD_FRAME_SIZE jacdac (receiving good_frame).rxFrame ∧
            (JD_FRAME_SIZE jacdac (receiving good_frame).rxFrame : Int) ≤
              (jacdac.sizeof_jd_frame_t : Int) - 236 ∧
            (jacdac.sizeof_jd_frame_t : Int) - 236 ≤ jacdac.sizeof_jd_frame_t ∧
            offset + size = JD_FRAME_SIZE jacdac (receiving good_frame).rxFrame ∧
            offset + size ≤ (receiving good_frame).rxFrame.length ∧
            crc_input jacdac (receiving good_frame).rxFrame =
              ((receiving good_frame).rxFrame.drop offset).take size ∧
            (crc_input jacdac (receiving good_frame).rxFrame).length = size) :=
  ⟨by decide,
    crc_range_within_buffer jacdac quiet 236 ⟨receiving good_frame, []⟩ (by decide) (by decide)
      (by decide) (by decide) (by decide)⟩

end JdPhysical
